import Mathlib

/-!
# viewshare.js: session layer of the screen-sharing client

A shallow embedding of `src/frontend/viewshare.js` (classes `DeviceConnection`,
`WebRTCDeviceConnection` and `ViewShare`) and of `stripCodecs` in
`src/public/main.js`, and theorems about the chunked binary RPC framing, the
reconnect backoff, the login handshake, the outbound queue, the life of a pending
call, the reconnect timers and the codec stripping.

Conventions of the embedding

* A JavaScript object graph is a `World`: the `ViewShare` singleton, the
  transports (indexed by a `ConnId`, which stands for object identity) and the
  armed timers.  A method `m(args)` called on transport `self` is a function
  `m self args : World → World × List Effect`.
* Calls that leave the modelled classes (the transport's own `send`, the
  continuations `resolve`/`reject` of a pending call, `updateState`, a
  subscription's `input`, ...) are recorded, in call order, in the effect list.
  Timers are part of the world: `setTimeout` arms one, `clearTimeout` removes it.
* Byte arrays are lists of naturals; a write into a `Uint8Array` through a
  `DataView` reduces modulo 256.  JavaScript 32-bit bitwise operators are
  modelled on `Int` with explicit reduction modulo `2^32`.
* `Math.random()` reads the next element of the sequence `World.random`
  (rationals in `[0, 1)`), and the backoff is an exact rational.
* An exception is recorded as the last effect of the call (`Effect.throw`): the
  statements after the throwing statement do not run.  In the modelled methods a
  call that can throw is followed by no statement of its caller, so the callers
  have nothing left to skip; the next event is processed as usual.
* Calls of `console.log`, `console.warn` and `console.error` are dropped.
* A text message is a JSON object whose `op` and `method` are strings and whose
  `rpcid` is an integer or absent; transports are told apart by their class
  (`ConnKind`), and for a class that is not in the sources `connect` and
  `disconnect` are recorded as effects.
-/

namespace Viewshare

/-! ## Values and messages -/

/-- Object identity of a transport (`DeviceConnection` instance). -/
abbrev ConnId := Nat

/-- Handle returned by `setTimeout` / `setInterval`. -/
abbrev TimerId := Nat

/-- JSON-like values carried by text messages.  `obj` is an object or array that
the session layer never looks into: only its truthiness matters, and that its
conversion to a string succeeds.  `unprintable` is an object or array whose
conversion to a string throws a `TypeError`: an object with a key `toString` of
its own, such as `{"toString": 1}` (the inherited `valueOf` returns the object
and the own `toString` is not a function), or an array that holds one. -/
inductive Val where
  | undefined : Val
  | null : Val
  | bool (b : Bool) : Val
  | num (n : Int) : Val
  | str (s : String) : Val
  | obj (tag : Nat) : Val
  | unprintable (tag : Nat) : Val
  deriving DecidableEq, Repr

/-- JavaScript truthiness (`if (v)`). -/
def Val.truthy : Val → Bool
  | .undefined => false
  | .null => false
  | .bool b => b
  | .num n => decide (n ≠ 0)
  | .str s => decide (s ≠ "")
  | .obj _ => true
  | .unprintable _ => true

/-- Whether the conversion of the value to a string (by `'Remote: ' + v` or
inside a template literal) throws. -/
def Val.stringThrows : Val → Bool
  | .unprintable _ => true
  | _ => false

/-- A parsed incoming text message (`JSON.parse(data)`): the operation tag and
the tag-specific fields that `input` and `rpc` read.  An absent field is
`undefined` (`none` for `rpcid`). -/
structure Msg where
  op : String
  rpcid : Option Int := none
  method : String := ""
  args : Val := Val.undefined
  error : Val := Val.undefined
  result : Val := Val.undefined
  token : Val := Val.undefined
  id : Val := Val.undefined
  iceServers : Val := Val.undefined
  subid : String := ""
  status : Val := Val.undefined
  value : Val := Val.undefined
  deriving DecidableEq, Repr

/-- What arrives on a channel: an `ArrayBuffer` or a JSON text. -/
inductive Data where
  | binary (bytes : List Nat) : Data
  | text (msg : Msg) : Data
  deriving DecidableEq, Repr

/-- Messages handed to a transport's `send`. -/
inductive OutMsg where
  /-- The request of `login()`. -/
  | login (version : Nat) (username password token needInflight : Val) : OutMsg
  /-- The object `{rpcid, op: 'rpcreply', result}`. -/
  | rpcreplyResult (rpcid : Option Int) (result : Val) : OutMsg
  /-- The object `{rpcid, op: 'rpcreply', error}`. -/
  | rpcreplyError (rpcid : Option Int) (error : String) : OutMsg
  /-- A binary frame (`Uint8Array`). -/
  | frame (bytes : List Nat) : OutMsg
  /-- Any other application message given to `ViewShare.send`. -/
  | app (payload : Val) : OutMsg
  deriving DecidableEq, Repr

/-- What the promise returned by an RPC method handler settles to. -/
inductive Reply where
  | buffer (bytes : List Nat) : Reply
  | value (v : Val) : Reply
  | rejected (message : String) : Reply
  deriving DecidableEq, Repr

/-- Value passed to a pending call's `resolve`. -/
inductive Resolved where
  | buffer (bytes : List Nat) : Resolved
  | value (v : Val) : Resolved
  deriving DecidableEq, Repr

/-- The `Error` object passed to a pending call's `reject`.  The text that the
string conversion of JavaScript produces is not modelled: `remote error` stands
for `new Error('Remote: ' + error)`, whose message is `Remote: ` followed by the
string JavaScript converts the value `error` to. -/
inductive Rejection where
  /-- The error of the `rpcreply` branch of `input`, built from `msg.error`. -/
  | remote (error : Val) : Rejection
  /-- The error of a call whose timer expired. -/
  | timeout : Rejection
  deriving DecidableEq, Repr

/-- Callbacks registered with `setTimeout` / `setInterval`. -/
inductive TimerAction where
  /-- The bound `start` of `connectionFailed`. -/
  | start (c : ConnId) : TimerAction
  /-- The countdown tick of `connectionFailed`. -/
  | countdown (c : ConnId) : TimerAction
  /-- The timeout of a pending call. -/
  | rpcTimeout (rpcid : Option Int) : TimerAction
  deriving DecidableEq, Repr

/-- Calls that leave the modelled classes, in call order. -/
inductive Effect where
  | send (c : ConnId) (m : OutMsg) : Effect
  | updateState (tree key : String) (v : Val) : Effect
  /-- A call of `updateState` whose value is a number that need not be an integer. -/
  | updateStateNumber (tree key : String) (v : ℚ) : Effect
  | resolve (rpcid : Int) (r : Resolved) : Effect
  | reject (rpcid : Int) (reason : Rejection) : Effect
  | progress (rpcid : Int) (status value : Val) : Effect
  | subInput (c : ConnId) (subid : String) (m : Msg) : Effect
  | subSetConnectionNull (c : ConnId) (subid : String) : Effect
  | processSendq (c : ConnId) : Effect
  | callHandler (method : String) (args : Val) : Effect
  | connect (c : ConnId) : Effect
  | openPeerSession (c : ConnId) : Effect
  | unsubscribeStats (c : ConnId) : Effect
  | closeConnection (c : ConnId) : Effect
  /-- The call of `vs.log` in `connectionFailed`; the text is the template
  `${connectionType}: Connection failed: ${msg} ${code}`, recorded by its parts. -/
  | log (connectionType : String) (msg : Val) (code : Int) : Effect
  | throw (error : String) : Effect
  deriving DecidableEq, Repr

/-! ## 32-bit integer operators of JavaScript -/

/-- ToUint32: reduction modulo `2^32`. -/
def toUint32 (x : Int) : Nat := (x % 4294967296).toNat

/-- ToInt32: the signed reading of the low 32 bits. -/
def toInt32 (x : Int) : Int :=
  let m := x % 4294967296
  if 2147483648 ≤ m then m - 4294967296 else m

/-- The operator `a << k` (for `k < 32`). -/
def jsShl (a : Int) (k : Nat) : Int := toInt32 (a * 2 ^ k)

/-- The operator `a | b`. -/
def jsOr (a b : Int) : Int := toInt32 (Int.ofNat (toUint32 a ||| toUint32 b))

/-- Element read `u8[i]` inside a bitwise expression: an index past the end
reads `undefined`, which the bitwise operators convert to 0. -/
def u8at (u8 : List Nat) (i : Nat) : Int := Int.ofNat (u8.getD i 0)

/-- The expression `u8[i] << 24 | u8[i+1] << 16 | u8[i+2] << 8 | u8[i+3]`. -/
def readInt32 (u8 : List Nat) (i : Nat) : Int :=
  jsOr (jsOr (jsOr (jsShl (u8at u8 i) 24) (jsShl (u8at u8 (i + 1)) 16))
    (jsShl (u8at u8 (i + 2)) 8)) (u8at u8 (i + 3))

/-- The four bytes written by `DataView.setUint32(pos, n)` (big-endian). -/
def setUint32 (n : Int) : List Nat :=
  let v := toUint32 n
  [v / 16777216 % 256, v / 65536 % 256, v / 256 % 256, v % 256]

/-! ## Sender side of the chunked binary reply (`DeviceConnection.rpc`) -/

/-- The constant `MAX_CHUNK_SIZE` of `rpc`. -/
def MAX_CHUNK_SIZE : Nat := 16000

/-- One iteration of the sender loop: the `Uint8Array out` built for `offset`
(a 9-byte header followed by `chunksize` bytes of the reply). -/
def rpcFrame (rpcid : Int) (reply : List Nat) (offset : Nat) : List Nat :=
  let length := reply.length
  let chunksize := length - offset
  let opcode := if chunksize > MAX_CHUNK_SIZE then 2 else 1
  let chunksize := if chunksize > MAX_CHUNK_SIZE then MAX_CHUNK_SIZE else chunksize
  [opcode % 256] ++ setUint32 rpcid ++ setUint32 (Int.ofNat length)
    ++ (reply.drop offset).take chunksize

/-- The loop `for (let offset = 0; offset < length; offset += MAX_CHUNK_SIZE)`,
entered at `offset`; `fuel` bounds the number of iterations. -/
def rpcFramesFrom (rpcid : Int) (reply : List Nat) : Nat → Nat → List (List Nat)
  | 0, _ => []
  | fuel + 1, offset =>
    if offset < reply.length then
      rpcFrame rpcid reply offset :: rpcFramesFrom rpcid reply fuel (offset + MAX_CHUNK_SIZE)
    else []

/-- The frames sent for an `ArrayBuffer` reply.  Every iteration advances the
offset by 16000, so `reply.length` iterations always suffice
(see `rpcFramesFrom_fuel`). -/
def rpcFrames (rpcid : Int) (reply : List Nat) : List (List Nat) :=
  rpcFramesFrom rpcid reply reply.length 0

/-! ## State -/

/-- A `PendingCall` record of `rpc_pending` (created by `ViewShare.rpc`, which is
not in the sources): the fields that `input` reads and writes.  The
continuations `resolve`, `reject` and `ctrl.progress` appear as effects. -/
structure PendingCall where
  /-- The field `accbuf`: absent until the first chunk arrives. -/
  accbuf : Option (List Nat) := none
  /-- The field `offset`: `none` while it is not a number (`undefined` until the
  first chunk has been stored, `NaN` once an `undefined` has been added to). -/
  offset : Option Nat := none
  timer : Option TimerId := none
  timeout : ℚ := 60000
  /-- Whether `rpc.ctrl && rpc.ctrl.progress` is truthy. -/
  hasProgress : Bool := false
  deriving DecidableEq, Repr

/-- The class of a transport. -/
inductive ConnKind where
  | webrtc : ConnKind
  | other : ConnKind
  deriving DecidableEq, Repr

/-- Fields of a `DeviceConnection` (the constructor's values are the defaults;
fields the constructor leaves undefined are falsy). -/
structure DeviceConnection where
  kind : ConnKind := ConnKind.other
  connectionType : String := ""
  prio : Int := 0
  loggedin : Bool := false
  started : Bool := false
  active : Bool := false
  suspended : Bool := false
  backoff : ℚ := 1000
  inflight : Int := 0
  reconnectCountdownTimer : Option TimerId := none
  reconnectTimer : Option TimerId := none
  countdown : ℚ := 0
  /-- Keys of the object `subscriptions`. -/
  subscriptions : List String := []
  error : Val := Val.undefined
  errorcode : Val := Val.undefined
  needInflight : Val := Val.undefined
  /-- Whether the subclass defines `processSendq`. -/
  hasProcessSendq : Bool := false
  /-- Whether `this.connection` is set (WebRTC transport). -/
  connection : Bool := false
  /-- What `disconnect()` returns for a transport class that is not in the sources. -/
  otherRetry : Bool := false
  deriving DecidableEq, Repr

/-- An armed timer. -/
structure Timer where
  id : TimerId
  action : TimerAction
  delay : ℚ
  repeating : Bool := false
  deriving DecidableEq, Repr

/-- Fields of the `ViewShare` singleton. -/
structure ViewShare where
  sendq : List OutMsg := []
  rpc_pending : Int → Option PendingCall := fun _ => none
  /-- The table `rpcmethods` (filled outside the sources): the settled result of
  the promise a handler returns. -/
  rpcmethods : String → Option (Val → Reply) := fun _ => none
  primaryConnection : Option ConnId := none
  connectionRV : ConnId := 0
  /-- The transports primary selection chooses among. -/
  transports : List ConnId := []
  username : Val := Val.undefined
  password : Val := Val.undefined
  token : Val := Val.undefined
  myid : Val := Val.undefined
  iceServers : Val := Val.undefined
  pageHidden : Bool := false
  directEnable : Bool := true

/-- The object graph. -/
structure World where
  vs : ViewShare := {}
  conns : ConnId → DeviceConnection := fun _ => {}
  timers : List Timer := []
  /-- The last handle handed out by `setTimeout` / `setInterval` (handles are
  positive, hence truthy). -/
  lastTimer : TimerId := 0
  /-- The successive results of `Math.random()`. -/
  random : Nat → ℚ := fun _ => 0
  randomCalls : Nat := 0
  /-- The module constant `COUNTDOWN_INTERVAL`, which is not in the sources. -/
  COUNTDOWN_INTERVAL : ℚ := 1000

/-- Assignment to fields of transport `c`. -/
def World.modConn (w : World) (c : ConnId) (f : DeviceConnection → DeviceConnection) : World :=
  { w with conns := Function.update w.conns c (f (w.conns c)) }

/-- Assignment to fields of the `ViewShare` singleton. -/
def World.modVs (w : World) (f : ViewShare → ViewShare) : World :=
  { w with vs := f w.vs }

/-- Assignment `rpc_pending[rpcid] = v`; `none` is `delete rpc_pending[rpcid]`. -/
def World.setPending (w : World) (rpcid : Int) (v : Option PendingCall) : World :=
  w.modVs (fun vs => { vs with rpc_pending := Function.update vs.rpc_pending rpcid v })

/-- The call `setTimeout(action, delay)` (or `setInterval` when `repeating`). -/
def World.setTimer (w : World) (action : TimerAction) (delay : ℚ) (repeating : Bool) :
    World × TimerId :=
  let id := w.lastTimer + 1
  ({ w with timers := w.timers ++ [{ id := id, action := action, delay := delay,
                                     repeating := repeating }],
            lastTimer := id }, id)

/-- The calls `clearTimeout(h)` and `clearInterval(h)`. -/
def World.clearTimer (w : World) (h : Option TimerId) : World :=
  match h with
  | none => w
  | some id => { w with timers := w.timers.filter (fun t => t.id != id) }

/-- The call `Math.random()`. -/
def World.mathRandom (w : World) : World × ℚ :=
  ({ w with randomCalls := w.randomCalls + 1 }, w.random w.randomCalls)

/-- Sequencing of two steps, concatenating their effects. -/
def andThen (r : World × List Effect) (f : World → World × List Effect) : World × List Effect :=
  let r2 := f r.1
  (r2.1, r.2 ++ r2.2)

/-! ## Collaborators that are not in the sources -/

/-- The logged-in transport of highest priority among `vs.transports`
(the first one among equals), if any. -/
def bestConnection (w : World) : Option ConnId :=
  w.vs.transports.foldl
    (fun best c =>
      if (w.conns c).loggedin then
        match best with
        | none => some c
        | some b => if (w.conns b).prio < (w.conns c).prio then some c else some b
      else best)
    none

/-- Modelled from the spec: `ViewShare.selectPrimaryConnection` is called by the
sources but not defined in them.  Spec 4.1: among all transports that are logged
in, choose the one with the highest priority; if it differs from the current
primary, flush the outbound queue to it in FIFO order, then clear the queue; if
no transport qualifies, primary becomes none. -/
def selectPrimaryConnection (w : World) : World × List Effect :=
  match bestConnection w with
  | none => (w.modVs (fun vs => { vs with primaryConnection := none }), [])
  | some c =>
    if w.vs.primaryConnection = some c then (w, [])
    else
      (w.modVs (fun vs => { vs with primaryConnection := some c, sendq := [] }),
        w.vs.sendq.map (Effect.send c))

/-- The call `this.vs.updateState(tree, key, value)`; `updateState` is not in
the sources, so the call is recorded as an effect. -/
def updateState (tree key : String) (v : Val) (w : World) : World × List Effect :=
  (w, [Effect.updateState tree key v])

/-! ## `DeviceConnection` and `WebRTCDeviceConnection` -/

/-- The method `WebRTCDeviceConnection.disconnect`.  The value returned is
`none` when the method throws.  The call `unsubscribeStats()` is recorded as an
effect.  The only value ever assigned to `this.connection` is the object
`metaconnection` of `connect`, which has a `send` method and no `close`: when
`this.connection` is set, `c.close()` throws a `TypeError` after
`delete this.connection`.  For a transport of another class (none is in the
sources) the link is closed and the value returned is the field `otherRetry`. -/
def DeviceConnection.disconnect (self : ConnId) (w : World) :
    Option Bool × World × List Effect :=
  match (w.conns self).kind with
  | ConnKind.webrtc =>
    if (w.conns self).connection then
      (none, w.modConn self (fun d => { d with connection := false }),
        [Effect.unsubscribeStats self, Effect.throw "TypeError"])
    else
      -- Only retry if main connection is logged in
      (some (w.conns w.vs.connectionRV).loggedin, w, [Effect.unsubscribeStats self])
  | ConnKind.other => (some (w.conns self).otherRetry, w, [Effect.closeConnection self])

/-- The method `removeSubscriptions`. -/
def DeviceConnection.removeSubscriptions (self : ConnId) (w : World) : World × List Effect :=
  (w, (w.conns self).subscriptions.map (Effect.subSetConnectionNull self))

/-- The statements `if (this.backoff > 10000) this.backoff = 10000;` and
`this.backoff *= 1.5 + Math.random() * 0.5;` of `connectionFailed`. -/
def DeviceConnection.growBackoff (self : ConnId) (w : World) : World :=
  let w := if (w.conns self).backoff > 10000
    then w.modConn self (fun d => { d with backoff := 10000 }) else w
  let rr := w.mathRandom
  rr.1.modConn self (fun d => { d with backoff := d.backoff * (1.5 + rr.2 * 0.5) })

/-- The two statements of `connectionFailed` that clear `reconnectTimer` and
`reconnectCountdownTimer`. -/
def DeviceConnection.cancelReconnect (self : ConnId) (w : World) : World :=
  let w := if (w.conns self).reconnectTimer.isSome
    then (w.clearTimer (w.conns self).reconnectTimer).modConn self
          (fun d => { d with reconnectTimer := none })
    else w
  if (w.conns self).reconnectCountdownTimer.isSome
  then w.clearTimer (w.conns self).reconnectCountdownTimer else w

/-- The final statement `if (retry && !this.vs.pageHidden) ...` of
`connectionFailed`, which arms the reconnect timer and the countdown. -/
def DeviceConnection.scheduleReconnect (self : ConnId) (retry : Bool) (w : World) : World :=
  if retry && !w.vs.pageHidden then
    let t := w.setTimer (TimerAction.start self) (w.conns self).backoff false
    let w := t.1.modConn self (fun d => { d with reconnectTimer := some t.2 })
    let w := w.modConn self (fun d => { d with countdown := d.backoff })
    let i := w.setTimer (TimerAction.countdown self) w.COUNTDOWN_INTERVAL true
    i.1.modConn self (fun d => { d with reconnectCountdownTimer := some i.2 })
  else w

/-- The method `connectionFailed(msg, code)`.  When the template literal of the
`vs.log` call or `disconnect()` throws, the exception leaves the method: the
statements after it do not run, and the effect list ends with the `throw`. -/
def DeviceConnection.connectionFailed (self : ConnId) (msg : Val) (code : Int) (w : World) :
    World × List Effect :=
  let w := w.modConn self (fun d => { d with loggedin := false })
  andThen (updateState "localstate" "connecting" (Val.bool false) w) fun w =>
  if (w.conns self).suspended then
    let w := w.modConn self (fun d => { d with active := false })
    selectPrimaryConnection w
  else if msg.stringThrows then (w, [Effect.throw "TypeError"])
  else
    andThen (w, [Effect.log (w.conns self).connectionType msg code]) fun w =>
    let r := DeviceConnection.disconnect self w
    andThen (r.2.1, r.2.2) fun w =>
    match r.1 with
    | none => (w, [])
    | some retry =>
      let w := w.modConn self (fun d => { d with error := msg, errorcode := Val.num code })
      andThen (updateState "localstate" "errorcode" (w.conns self).errorcode w) fun w =>
      andThen (updateState "localstate" "error" (w.conns self).error w) fun w =>
      andThen (selectPrimaryConnection w) fun w =>
      let w := DeviceConnection.growBackoff self w
      let w := DeviceConnection.cancelReconnect self w
      andThen (DeviceConnection.removeSubscriptions self w) fun w =>
      let w := w.modConn self (fun d => { d with active := false })
      (DeviceConnection.scheduleReconnect self retry w, [])

/-- The method `WebRTCDeviceConnection.connect`, up to the creation of the peer
session (recorded as an effect); a transport of another class only records the
call.  An exception of `connectionFailed` leaves `connect` with it. -/
def DeviceConnection.connect (self : ConnId) (w : World) : World × List Effect :=
  match (w.conns self).kind with
  | ConnKind.webrtc =>
    if !w.vs.directEnable then
      (w.modConn self (fun d => { d with active := false }), [])
    else if !w.vs.token.truthy then
      DeviceConnection.connectionFailed self (Val.str "No login token") 1001 w
    else (w, [Effect.openPeerSession self])
  | ConnKind.other => (w, [Effect.connect self])

/-- The method `start`.  The call of `connect` is its last statement, so an
exception of `connect` leaves `start` with nothing left to skip. -/
def DeviceConnection.start (self : ConnId) (w : World) : World × List Effect :=
  if (w.conns self).active then (w, [])
  else
    let w := w.modConn self (fun d => { d with suspended := false })
    let w := w.modConn self (fun d => { d with active := true })
    let r : World × List Effect :=
      if (w.conns self).reconnectTimer.isSome then
        let w := w.clearTimer (w.conns self).reconnectTimer
        let w := w.clearTimer (w.conns self).reconnectCountdownTimer
        andThen (updateState "localstate" "connecting" (Val.bool true) w) fun w =>
        andThen (updateState "localstate" "reconnectCountdown" Val.null w) fun w =>
        (w.modConn self (fun d => { d with reconnectTimer := none }), [])
      else (w, [])
    andThen r (DeviceConnection.connect self)

/-- The method `login`. -/
def DeviceConnection.login (self : ConnId) (w : World) : World × List Effect :=
  (w, [Effect.send self
        (OutMsg.login 1 w.vs.username w.vs.password w.vs.token (w.conns self).needInflight)])

/-- The method `connected`. -/
def DeviceConnection.connected (self : ConnId) (w : World) : World × List Effect :=
  let w := w.modConn self (fun d => { d with backoff := 1000 })
  let w := w.modConn self (fun d => { d with inflight := 0 })
  let r : World × List Effect :=
    if !w.vs.username.truthy then
      updateState "localstate" "authstatus" (Val.str "needlogin") w
    else DeviceConnection.login self w
  andThen r fun w =>
  andThen (updateState "localstate" "connecting" (Val.bool false) w) fun w =>
  updateState "localstate" "errorcode" (Val.num 0) w

/-- The method `established`. -/
def DeviceConnection.established (self : ConnId) (w : World) : World × List Effect :=
  let w := w.modConn self (fun d => { d with loggedin := true })
  andThen (selectPrimaryConnection w) fun w =>
  if w.vs.primaryConnection ≠ some self then (w, [])
  else
    (w.modVs (fun vs => { vs with sendq := [] }), w.vs.sendq.map (Effect.send self))

/-- The call `buf.set(src, off)` on typed arrays, for `off + src.length ≤ buf.length`
(the caller checks the range: outside it `set` throws). -/
def setBytes (buf src : List Nat) (off : Nat) : List Nat :=
  buf.take off ++ src ++ buf.drop (off + src.length)

/-- The method `rpcError`. -/
def DeviceConnection.rpcError (self : ConnId) (rpcid : Option Int) (error : String) (w : World) :
    World × List Effect :=
  (w, [Effect.send self (OutMsg.rpcreplyError rpcid error)])

/-- The method `rpc` (handling of a received request).  The handler's promise is
taken as settled: the callbacks of `then` and `catch` run at once. -/
def DeviceConnection.rpc (self : ConnId) (msg : Msg) (w : World) : World × List Effect :=
  let rpcid := msg.rpcid
  match w.vs.rpcmethods msg.method with
  | none =>
    if rpcid = none then
      DeviceConnection.rpcError self rpcid ("Not a valid RPC method: " ++ msg.method) w
    else (w, [])
  | some handler =>
    andThen (w, [Effect.callHandler msg.method msg.args]) fun w =>
    match handler msg.args with
    | Reply.buffer reply =>
      match rpcid with
      | none => (w, [])
      | some id => (w, (rpcFrames id reply).map (fun out => Effect.send self (OutMsg.frame out)))
    | Reply.value reply =>
      if rpcid = none then (w, [])
      else (w, [Effect.send self (OutMsg.rpcreplyResult rpcid reply)])
    | Reply.rejected message =>
      if rpcid = none then (w, [])
      else (w, [Effect.send self (OutMsg.rpcreplyError rpcid message)])

/-- The cases `1` and `2` of the binary branch of `input`: one chunk of a
binary reply. -/
def DeviceConnection.inputChunk (opcode : Nat) (u8 : List Nat) (w : World) :
    World × List Effect :=
  let rpcid := readInt32 u8 1
  match w.vs.rpc_pending rpcid with
  | none => (w, [])
  | some rpc =>
    let payload := u8.drop 9
    let stored : Except (World × List Effect) PendingCall :=
      match rpc.accbuf with
      | none =>
        let totallen := readInt32 u8 5
        if totallen < 0 then Except.error (w, [Effect.throw "RangeError"])
        else
          let accbuf := List.replicate totallen.toNat 0
          if payload.length > accbuf.length then
            Except.error
              (w.setPending rpcid (some { rpc with accbuf := some accbuf }),
                [Effect.throw "RangeError"])
          else
            Except.ok { rpc with accbuf := some (setBytes accbuf payload 0),
                                 offset := some payload.length }
      | some accbuf =>
        -- an offset that is not a number is converted to 0 by `set`
        let pos := rpc.offset.getD 0
        if pos + payload.length > accbuf.length then
          Except.error (w, [Effect.throw "RangeError"])
        else
          Except.ok { rpc with accbuf := some (setBytes accbuf payload pos),
                               offset := rpc.offset.map (fun o => o + payload.length) }
    match stored with
    | Except.error r => r
    | Except.ok rpc =>
      let w := w.setPending rpcid (some rpc)
      if opcode = 1 then
        let w := w.clearTimer rpc.timer
        andThen (w, [Effect.resolve rpcid (Resolved.buffer (rpc.accbuf.getD []))]) fun w =>
        (w.setPending rpcid none, [])
      else (w, [])

/-- The operation tags routed to a subscription. -/
def mutationOps : List String := ["additem", "delitem", "moveitem", "updatefield", "subsync"]

/-- The property names every object created by `{}` inherits from
`Object.prototype`: the functions of the prototype, and `__proto__`, which reads
the prototype itself.  The object `subscriptions` is created by `{}`, so a
lookup under one of these names that is not a key of its own gives the inherited
value, which is truthy and has no `input` method. -/
def objectPrototypeKeys : List String :=
  ["constructor", "__defineGetter__", "__defineSetter__", "hasOwnProperty",
   "__lookupGetter__", "__lookupSetter__", "isPrototypeOf", "propertyIsEnumerable",
   "toString", "valueOf", "__proto__", "toLocaleString"]

/-- The method `input(data)`. -/
def DeviceConnection.input (self : ConnId) (data : Data) (w : World) : World × List Effect :=
  match data with
  | Data.binary u8 =>
    if !(w.conns self).loggedin then (w, [])
    else
      match u8.head? with
      | some 3 =>
        -- In-flight data ack
        let bytes := readInt32 u8 1
        let w := w.modConn self (fun d => { d with inflight := d.inflight - bytes })
        if (w.conns self).hasProcessSendq then (w, [Effect.processSendq self]) else (w, [])
      | some 1 => DeviceConnection.inputChunk 1 u8 w
      | some 2 => DeviceConnection.inputChunk 2 u8 w
      | _ => (w, [])
  | Data.text msg =>
    if !(w.conns self).loggedin then
      if msg.op ≠ "loginresponse" then (w, [])
      else if msg.error.truthy then
        updateState "localstate" "authstatus" (Val.str "badlogin") w
      else
        let w := if msg.token.truthy then w.modVs (fun vs => { vs with token := msg.token }) else w
        let w := w.modVs (fun vs => { vs with myid := msg.id })
        andThen (updateState "localstate" "authstatus" (Val.str "loggedin") w) fun w =>
        andThen (updateState "localstate" "myid" msg.id w) fun w =>
        let w := if msg.iceServers.truthy
          then w.modVs (fun vs => { vs with iceServers := msg.iceServers }) else w
        DeviceConnection.established self w
    else
      if msg.op ∈ mutationOps then
        if msg.subid ∈ (w.conns self).subscriptions
        then (w, [Effect.subInput self msg.subid msg])
        else if msg.subid ∈ objectPrototypeKeys
        -- `sub` is an inherited value: `sub.input` is not a function
        then (w, [Effect.throw "TypeError"])
        else (w, [])
      else if msg.op = "rpc" then DeviceConnection.rpc self msg w
      else if msg.op = "rpcreply" then
        match msg.rpcid with
        | none => (w, [])
        | some rpcid =>
          match w.vs.rpc_pending rpcid with
          | none => (w, [])
          | some rpc =>
            let w := w.clearTimer rpc.timer
            -- the argument `'Remote: ' + msg.error` is evaluated before `reject` is called
            if msg.error.truthy && msg.error.stringThrows then (w, [Effect.throw "TypeError"])
            else
              let r : World × List Effect :=
                if msg.error.truthy
                then (w, [Effect.reject rpcid (Rejection.remote msg.error)])
                else (w, [Effect.resolve rpcid (Resolved.value msg.result)])
              andThen r fun w =>
              (w.setPending rpcid none, [])
      else if msg.op = "rpcprogress" then
        match msg.rpcid with
        | none => (w, [])
        | some rpcid =>
          match w.vs.rpc_pending rpcid with
          | none => (w, [])
          | some rpc =>
            let w := w.clearTimer rpc.timer
            let t := w.setTimer (TimerAction.rpcTimeout (some rpcid)) rpc.timeout false
            let w := t.1.setPending rpcid (some { rpc with timer := some t.2 })
            if rpc.hasProgress then (w, [Effect.progress rpcid msg.status msg.value])
            else (w, [])
      else if msg.op = "setIceServers" then
        (w.modVs (fun vs => { vs with iceServers := msg.iceServers }), [])
      else (w, [])

/-- Feeding a sequence of channel messages to `input`, in order. -/
def DeviceConnection.inputs (self : ConnId) : List Data → World → World × List Effect
  | [], w => (w, [])
  | d :: ds, w => andThen (DeviceConnection.input self d w) (DeviceConnection.inputs self ds)

/-! ## `ViewShare` -/

/-- The method `ViewShare.send`. -/
def ViewShare.send (msg : OutMsg) (w : World) : World × List Effect :=
  match w.vs.primaryConnection with
  | some p => (w, [Effect.send p msg])
  | none =>
    let w := w.modVs (fun vs => { vs with sendq := vs.sendq ++ [msg] })
    if (w.conns w.vs.connectionRV).suspended then
      DeviceConnection.start w.vs.connectionRV w
    else (w, [])

/-- Successive calls of `ViewShare.send`. -/
def ViewShare.sendAll : List OutMsg → World → World × List Effect
  | [], w => (w, [])
  | m :: ms, w => andThen (ViewShare.send m w) (ViewShare.sendAll ms)

/-! ## Specification-side definitions and concrete inputs -/

/-- Value of a byte string read as a big-endian number (spec 4.4: 4-byte
big-endian call id and total length). -/
def bigEndianValue (bytes : List Nat) : Nat := bytes.foldl (fun acc b => acc * 256 + b) 0

/-- The reassembly buffer after the bytes before `offset` have arrived. -/
def filledBuf (reply : List Nat) (offset : Nat) : List Nat :=
  reply.take offset ++ List.replicate (reply.length - offset) 0

/-- Consecutive calls `connectionFailed(msg, code)` on transport `self`, one per
element of `calls`. -/
def connectionFailedAll (self : ConnId) : List (Val × Int) → World → World
  | [], w => w
  | c :: cs, w => connectionFailedAll self cs (DeviceConnection.connectionFailed self c.1 c.2 w).1

/-- The value of `1.5 + Math.random() * 0.5` at the `k`-th call of `Math.random()`. -/
def randomFactor (w : World) (k : Nat) : ℚ := 1.5 + w.random k * 0.5

/-- A fresh world (constructor values) in which every `Math.random()` is 0.8. -/
def worldRandomHigh : World := { random := fun _ => 4 / 5 }

/-- A fresh world in which `Math.random()` gives 0.8 five times and then 0. -/
def worldRandomDrop : World := { random := fun k => if k < 5 then 4 / 5 else 0 }

/-- Four failures. -/
def fourFailures : List (Val × Int) := List.replicate 4 (Val.str "ICE failed", 1000)

/-- Five failures. -/
def fiveFailures : List (Val × Int) := List.replicate 5 (Val.str "ICE failed", 1000)

/-- A world whose transport 0 awaits the login acknowledgment with backoff 5000. -/
def worldAwaitingLogin : World :=
  { vs := { transports := [0] }, conns := fun _ => { backoff := 5000, active := true } }

/-- A successful login acknowledgment. -/
def loginOk : Msg := { op := "loginresponse", id := Val.num 3, token := Val.str "t" }

/-- A rejected login acknowledgment. -/
def loginBad : Msg := { op := "loginresponse", error := Val.str "bad token" }

/-- A request for a method without handler that expects a reply (`rpcid` 7). -/
def unknownCall : Msg := { op := "rpc", method := "nosuch", rpcid := some 7 }

/-- A request for a method without handler that expects no reply. -/
def unknownNotify : Msg := { op := "rpc", method := "nosuch" }

/-- A world in which transport 0 is logged in, call 7 is pending and the
subscription `s1` is bound to the transport; no RPC method is registered. -/
def worldLoggedIn : World :=
  { vs := { rpc_pending := fun k => if k = 7 then some {} else none, transports := [0] },
    conns := fun _ => { loggedin := true, active := true, subscriptions := ["s1"] } }

/-- A world in which the RPC method `snap` is registered and answers with the
three-byte buffer `[1, 2, 3]`. -/
def worldWithHandler : World :=
  { vs := { rpcmethods := fun m => if m = "snap" then some (fun _ => Reply.buffer [1, 2, 3])
                                   else none,
            transports := [0] },
    conns := fun _ => { loggedin := true } }

/-- A request for the method `snap` that expects a reply (`rpcid` 7). -/
def snapCall : Msg := { op := "rpc", method := "snap", rpcid := some 7 }

/-- A fresh world with one transport, not yet logged in. -/
def worldFresh : World := { vs := { transports := [0] } }

/-- Two application messages. -/
def twoMessages : List OutMsg := [OutMsg.app (Val.num 1), OutMsg.app (Val.num 2)]

/-- A mutation message for a subscription the transport does not have. -/
def strayMutation : Msg := { op := "additem", subid := "s9" }

/-- A mutation message whose `subid` is the name of a property that every object
inherits. -/
def inheritedMutation : Msg := { op := "additem", subid := "constructor" }

/-! ## Timers and event sequences -/

/-- The timer callbacks.  `start` is the bound method `start` armed by
`connectionFailed`; `countdown` is the tick armed next to it; `rpcTimeout` is the
closure armed by the `rpcprogress` branch of `input`, which deletes the entry of
the call table and rejects the call with `Timeout`.  The first timer of a call is
armed by `ViewShare.rpc`, which is not in the sources; it is taken to be of the
same kind (spec 7: a call that times out rejects its caller and frees its
slot). -/
def runTimerAction (a : TimerAction) (w : World) : World × List Effect :=
  match a with
  | TimerAction.start c => DeviceConnection.start c w
  | TimerAction.countdown c =>
    let w := w.modConn c (fun d => { d with countdown := d.countdown - w.COUNTDOWN_INTERVAL })
    (w, [Effect.updateStateNumber "localstate" "reconnectCountdown" (w.conns c).countdown])
  | TimerAction.rpcTimeout none => (w, [])
  | TimerAction.rpcTimeout (some rpcid) =>
    (w.setPending rpcid none, [Effect.reject rpcid Rejection.timeout])

/-- The firing of the timer with handle `t`: nothing happens unless it is armed;
a timer of `setTimeout` is disarmed by firing, a timer of `setInterval` stays
armed. -/
def fireTimer (t : TimerId) (w : World) : World × List Effect :=
  match w.timers.find? (fun x => x.id == t) with
  | none => (w, [])
  | some tm =>
    let w := if tm.repeating then w else w.clearTimer (some t)
    runTimerAction tm.action w

/-- What the event loop delivers: a message on a transport's channel, or the
expiry of a timer. -/
inductive Event where
  | input (c : ConnId) (d : Data) : Event
  | fire (t : TimerId) : Event
  deriving DecidableEq, Repr

/-- One turn of the event loop. -/
def step (e : Event) (w : World) : World × List Effect :=
  match e with
  | Event.input c d => DeviceConnection.input c d w
  | Event.fire t => fireTimer t w

/-- Successive turns of the event loop. -/
def run : List Event → World → World × List Effect
  | [], w => (w, [])
  | e :: es, w => andThen (step e w) (run es)

/-- Whether an effect is the invocation of the continuation (`resolve` or
`reject`) of the call `rpcid`. -/
def isTermination (rpcid : Int) : Effect → Bool
  | Effect.resolve i _ => decide (i = rpcid)
  | Effect.reject i _ => decide (i = rpcid)
  | _ => false

/-- How many times the continuation of the call `rpcid` is invoked. -/
def terminations (rpcid : Int) (effects : List Effect) : Nat :=
  (effects.filter (isTermination rpcid)).length

/-- Whether a timer of the call `rpcid` is armed. -/
def callTimerArmed (rpcid : Int) (w : World) : Prop :=
  ∃ t ∈ w.timers, t.action = TimerAction.rpcTimeout (some rpcid)

/-- A world in which transport 0 is logged in and the call 7 is pending with its
timeout timer (handle 1) armed; the call has a progress sink. -/
def worldCallPending : World :=
  { vs := { rpc_pending := fun k =>
              if k = 7 then some { timer := some 1, timeout := 60000, hasProgress := true }
              else none,
            transports := [0] },
    conns := fun _ => { loggedin := true, active := true },
    timers := [{ id := 1, action := TimerAction.rpcTimeout (some 7), delay := 60000 }],
    lastTimer := 1 }

/-- A successful reply to the call 7. -/
def replyOk : Msg := { op := "rpcreply", rpcid := some 7, result := Val.str "pong" }

/-- A failed reply to the call 7. -/
def replyFailed : Msg := { op := "rpcreply", rpcid := some 7, error := Val.str "no such file" }

/-- A failed reply to the call 7 whose `error` is the object `{"toString": 1}`. -/
def replyUnprintable : Msg := { op := "rpcreply", rpcid := some 7, error := Val.unprintable 0 }

/-- A progress report for the call 7. -/
def progressReport : Msg :=
  { op := "rpcprogress", rpcid := some 7, status := Val.str "copying", value := Val.num 40 }

/-- A world whose transport 0 has just been connected (in-flight counter 0) and
logged in. -/
def worldJustLoggedIn : World :=
  { vs := { transports := [0] }, conns := fun _ => { loggedin := true, active := true } }

/-- A world in which transport 0 is logged in and the call `2^31` is pending. -/
def worldHighCallId : World :=
  { vs := { rpc_pending := fun k => if k = 2147483648 then some {} else none,
            transports := [0] },
    conns := fun _ => { loggedin := true, active := true } }

/-- A world whose transport 0 is suspended while the reconnect timer (handle 1)
and the countdown timer (handle 2) of an earlier failure are still armed. -/
def worldSuspendedArmed : World :=
  { vs := { transports := [0] },
    conns := fun _ => { suspended := true, backoff := 1500, countdown := 1500,
                        reconnectTimer := some 1, reconnectCountdownTimer := some 2 },
    timers := [{ id := 1, action := TimerAction.start 0, delay := 1500 },
               { id := 2, action := TimerAction.countdown 0, delay := 1000, repeating := true }],
    lastTimer := 2 }

/-- A world with a WebRTC transport 1 next to the main connection 0, which is
not logged in; the reconnect timer and the countdown of transport 1 are armed. -/
def worldMainLoggedOut : World :=
  { vs := { transports := [0, 1], connectionRV := 0 },
    conns := fun c => if c = 1
      then { kind := ConnKind.webrtc, connectionType := "WebRTC", prio := 100,
             reconnectTimer := some 1, reconnectCountdownTimer := some 2 }
      else {},
    timers := [{ id := 1, action := TimerAction.start 1, delay := 1500 },
               { id := 2, action := TimerAction.countdown 1, delay := 1000, repeating := true }],
    lastTimer := 2 }

/-- The world `worldMainLoggedOut` in which `this.connection` of transport 1 is
set. -/
def worldWebRTCConnected : World :=
  { vs := { transports := [0, 1], connectionRV := 0 },
    conns := fun c => if c = 1
      then { kind := ConnKind.webrtc, connectionType := "WebRTC", prio := 100,
             reconnectTimer := some 1, reconnectCountdownTimer := some 2, connection := true }
      else {},
    timers := [{ id := 1, action := TimerAction.start 1, delay := 1500 },
               { id := 2, action := TimerAction.countdown 1, delay := 1000, repeating := true }],
    lastTimer := 2 }

/-- The armed reconnect timers and countdown timers of transport `self` are the
ones whose handles its fields `reconnectTimer` and `reconnectCountdownTimer`
hold. -/
def TimersRecorded (self : ConnId) (w : World) : Prop :=
  (∀ t ∈ w.timers, t.action = TimerAction.start self →
      (w.conns self).reconnectTimer = some t.id) ∧
    (∀ t ∈ w.timers, t.action = TimerAction.countdown self →
      (w.conns self).reconnectCountdownTimer = some t.id)

/-- An effect list in which no continuation of any call is invoked. -/
def noTerminations (effects : List Effect) : Prop :=
  ∀ e ∈ effects, ∀ i, isTermination i e = false

/-- A turn that leaves the call table alone, arms no call timer and invokes no
continuation. -/
def Quiet (w w' : World) (effects : List Effect) : Prop :=
  w'.vs.rpc_pending = w.vs.rpc_pending ∧
    (∀ t ∈ w'.timers, t ∈ w.timers ∨ ∀ r, t.action ≠ TimerAction.rpcTimeout r) ∧
    noTerminations effects

/-- A turn that leaves the call `rpcid` alone: its entry is unchanged, no timer
is armed for it and its continuation is not invoked. -/
def CallFrame (rpcid : Int) (w w' : World) (effects : List Effect) : Prop :=
  w'.vs.rpc_pending rpcid = w.vs.rpc_pending rpcid ∧
    (∀ t ∈ w'.timers, t ∈ w.timers ∨ t.action ≠ TimerAction.rpcTimeout (some rpcid)) ∧
    terminations rpcid effects = 0

/-- The call `rpcid` is pending, and every armed timer of the call is one-shot
and is the one recorded in the entry. -/
def CallPending (rpcid : Int) (w : World) : Prop :=
  ∃ pc, w.vs.rpc_pending rpcid = some pc ∧
    ∀ t ∈ w.timers, t.action = TimerAction.rpcTimeout (some rpcid) →
      pc.timer = some t.id ∧ t.repeating = false

/-- The call `rpcid` is gone: no entry in the call table and no armed timer. -/
def CallDone (rpcid : Int) (w : World) : Prop :=
  w.vs.rpc_pending rpcid = none ∧
    ∀ t ∈ w.timers, t.action ≠ TimerAction.rpcTimeout (some rpcid)

/-- What one turn of the event loop may do to the call `rpcid`: while the call is
pending, either its continuation is not invoked and it stays pending, or it is
invoked once and the call is gone; once the call is gone nothing more happens
to it. -/
def CallStep (rpcid : Int) (w w' : World) (effects : List Effect) : Prop :=
  (CallPending rpcid w →
      (terminations rpcid effects = 0 ∧ CallPending rpcid w') ∨
      (terminations rpcid effects = 1 ∧ CallDone rpcid w')) ∧
    (CallDone rpcid w → terminations rpcid effects = 0 ∧ CallDone rpcid w')

/-- The pending call 7 of `worldCallPending` receives a progress report, then its
reply, then a second reply, and finally its first timer handle expires. -/
def callHistory : List Event :=
  [Event.input 0 (Data.text progressReport), Event.input 0 (Data.text replyOk),
   Event.input 0 (Data.text replyFailed), Event.fire 1, Event.fire 2]

/-! ## `stripCodecs` (`src/public/main.js`)

Strings are lists of characters.  A regular-expression match that fails makes
the JavaScript throw (`null[1]`); the functions then return `none`. -/

/-- JavaScript white space and line terminators: what `trim` removes and what
`\s` matches. -/
def isJsSpace (c : Char) : Bool :=
  decide (c.toNat ∈ [9, 10, 11, 12, 13, 32, 160, 5760, 8232, 8233, 8239, 8287, 12288, 65279])
    || (decide (8192 ≤ c.toNat) && decide (c.toNat ≤ 8202))

/-- Line terminators, which `.` does not match. -/
def isLineTerminator (c : Char) : Bool := decide (c.toNat ∈ [10, 13, 8232, 8233])

/-- The class `[0-9]`. -/
def isDigit (c : Char) : Bool := decide (48 ≤ c.toNat) && decide (c.toNat ≤ 57)

/-- The method `String.prototype.trim`. -/
def jsTrim (s : List Char) : List Char :=
  ((s.dropWhile isJsSpace).reverse.dropWhile isJsSpace).reverse

/-- The method `split(sep)` for a one-character separator. -/
def jsSplit (sep : Char) : List Char → List (List Char)
  | [] => [[]]
  | c :: cs =>
    if c = sep then [] :: jsSplit sep cs
    else
      match jsSplit sep cs with
      | [] => [[c]]
      | p :: ps => (c :: p) :: ps

/-- The method `join(sep)` for a one-character separator. -/
def jsJoin (sep : Char) : List (List Char) → List Char
  | [] => []
  | [p] => p
  | p :: q :: ps => p ++ sep :: jsJoin sep (q :: ps)

/-- The method `startsWith`. -/
def startsWith (s : List Char) (p : String) : Bool := p.toList.isPrefixOf s

/-- The expression `s.match(/^.* (.*)\/.*$/)[1]`.  The pattern covers the whole
string, so `s` holds no line terminator; the greedy `.*` in front leaves the
group between the last space that has a slash after it and the last slash. -/
def matchCodecName (s : List Char) : Option (List Char) :=
  if s.any isLineTerminator then none
  else
    match s.reverse.dropWhile (fun c => c != Char.ofNat 47) with
    | [] => none
    | _ :: front =>
      if front.any (fun c => c == Char.ofNat 32)
      then some (front.takeWhile (fun c => c != Char.ofNat 32)).reverse
      else none

/-- The expression `s.match(/(?::)([0-9]*)(?=\s)/)[1]`: the digits after the
first colon whose run of digits is followed by white space. -/
def matchCodecId : List Char → Option (List Char)
  | [] => none
  | c :: cs =>
    if c = Char.ofNat 58 then
      match cs.dropWhile isDigit with
      | d :: _ => if isJsSpace d then some (cs.takeWhile isDigit) else matchCodecId cs
      | [] => matchCodecId cs
    else matchCodecId cs

/-- The first `reduce` of `stripCodecs`: the retransmission (`rtx`) declarations
are removed and their payload ids collected, and the `a=fmtp` lines of collected
ids are removed.  The state is `(acc, blacklistedCodecIds)`. -/
def stripRtx : List (List Char) → List (List Char) × List (List Char) →
    Option (List (List Char) × List (List Char))
  | [], st => some st
  | field :: rest, (acc, ids) =>
    if startsWith field "a=rtpmap:" then
      match matchCodecName (jsTrim field) with
      | none => none
      | some codecName =>
        if codecName ≠ "rtx".toList then stripRtx rest (acc ++ [field], ids)
        else
          match matchCodecId (jsTrim field) with
          | none => none
          | some codecId => stripRtx rest (acc, ids ++ [codecId])
    else if startsWith field "a=fmtp:" then
      match matchCodecId (jsTrim field) with
      | none => none
      | some codecId =>
        if ids.contains codecId then stripRtx rest (acc, ids)
        else stripRtx rest (acc ++ [field], ids)
    else stripRtx rest (acc ++ [field], ids)

/-- The function returned by `makeStripMVideoField(blacklistedCodecIds)`. -/
def stripMVideoField (blacklistedCodecIds : List (List Char)) (field : List Char) : List Char :=
  if !startsWith field "m=video" then field
  else
    jsJoin (Char.ofNat 32)
      ((jsSplit (Char.ofNat 32) field).filter (fun piece => !blacklistedCodecIds.contains piece))

/-- The variables the second `reduce` of `stripCodecs` closes over. -/
structure CodecScan where
  acc : List (List Char) := []
  isCodecAttr : Bool := false
  currentCodec : Option (List Char) := none
  ignoreField : Bool := false
  blacklistedCodecIds : List (List Char) := []

/-- The second `reduce` of `stripCodecs`: the `a=rtpmap` and `a=rtcp-fb` lines of
the blacklisted codecs are removed and their payload ids collected. -/
def stripBlacklisted (blacklistedCodecs : List (List Char)) :
    List (List Char) → CodecScan → Option CodecScan
  | [], st => some st
  | field :: rest, st =>
    if !startsWith field "a=" then
      stripBlacklisted blacklistedCodecs rest { st with acc := st.acc ++ [field] }
    else
      let isRtpMapAttribute := startsWith field "a=rtpmap:"
      let isRtcpAttribute := startsWith field "a=rtcp-fb:"
      if !(isRtpMapAttribute || isRtcpAttribute) then
        stripBlacklisted blacklistedCodecs rest
          { st with isCodecAttr := false, ignoreField := false, acc := st.acc ++ [field] }
      else
        let st := { st with isCodecAttr := true }
        let parsed : Option (Option (List Char) × Option (List Char)) :=
          if isRtpMapAttribute then
            match matchCodecName (jsTrim field), matchCodecId (jsTrim field) with
            | some codecName, some codecId => some (some codecId, some codecName)
            | _, _ => none
          else some (none, st.currentCodec)
        match parsed with
        | none => none
        | some (codecId, currentCodec) =>
          let st := { st with currentCodec := currentCodec }
          let ignoreField :=
            match currentCodec with
            | none => false
            | some name => blacklistedCodecs.contains name
          let st := { st with ignoreField := ignoreField }
          if !ignoreField then
            stripBlacklisted blacklistedCodecs rest { st with acc := st.acc ++ [field] }
          else
            match codecId with
            | some (d :: ds) =>
              if isRtpMapAttribute then
                stripBlacklisted blacklistedCodecs rest
                  { st with blacklistedCodecIds := st.blacklistedCodecIds ++ [d :: ds] }
              else stripBlacklisted blacklistedCodecs rest st
            | _ => stripBlacklisted blacklistedCodecs rest st

/-- The function `stripCodecs(sdpString, codecs)`: the first `reduce`, then the
`map` over its result with the ids collected so far, then the second `reduce`,
then `join('\n')`. -/
def stripCodecs (sdpString : String) (codecs : List String) : Option String :=
  let fields := jsSplit (Char.ofNat 10) sdpString.toList
  match stripRtx fields ([], []) with
  | none => none
  | some (kept, blacklistedCodecIds) =>
    let mapped := kept.map (stripMVideoField blacklistedCodecIds)
    match stripBlacklisted (codecs.map String.toList) mapped
        { blacklistedCodecIds := blacklistedCodecIds } with
    | none => none
    | some st => some (String.mk (jsJoin (Char.ofNat 10) st.acc))

/-- An offer with the payload types 96 (VP8), 97 (rtx for 96) and 98 (H264). -/
def sampleSdp : String :=
  "m=video 9 UDP/TLS/RTP/SAVPF 96 97 98\na=rtpmap:96 VP8/90000\na=rtpmap:97 rtx/90000\na=fmtp:97 apt=96\na=rtpmap:98 H264/90000"

/-! # Theorems -/

/-! ## 32-bit header fields -/

theorem toUint32_lt (x : Int) : toUint32 x < 4294967296 := by
  unfold toUint32; omega

theorem toUint32_toInt32 (x : Int) : toUint32 (toInt32 x) = toUint32 x := by
  unfold toUint32 toInt32
  simp only
  split <;> omega

theorem toUint32_ofNat (n : Nat) (h : n < 4294967296) : toUint32 (Int.ofNat n) = n := by
  unfold toUint32
  simp only [Int.ofNat_eq_coe]
  omega

theorem toInt32_ofNat_toUint32 (x : Int) : toInt32 (Int.ofNat (toUint32 x)) = toInt32 x := by
  unfold toUint32 toInt32
  simp only [Int.ofNat_eq_coe]
  have : ((x % 4294967296).toNat : Int) = x % 4294967296 := by omega
  rw [this]
  simp

theorem or_bytes (a b c d : Nat) (hb : b < 256) (hc : c < 256) (hd : d < 256) :
    ((a * 16777216 ||| b * 65536) ||| c * 256) ||| d
      = a * 16777216 + b * 65536 + c * 256 + d := by
  have h1 : a * 16777216 ||| b * 65536 = a * 16777216 + b * 65536 := by
    have := Nat.mul_add_lt_is_or (i := 24) (b := b * 65536) (by omega) a
    rw [show 2 ^ 24 * a = a * 16777216 by ring] at this
    exact this.symm
  have h2 : (a * 16777216 + b * 65536) ||| c * 256 = a * 16777216 + b * 65536 + c * 256 := by
    have := Nat.mul_add_lt_is_or (i := 16) (b := c * 256) (by omega) (a * 256 + b)
    rw [show 2 ^ 16 * (a * 256 + b) = a * 16777216 + b * 65536 by ring] at this
    exact this.symm
  have h3 : (a * 16777216 + b * 65536 + c * 256) ||| d
      = a * 16777216 + b * 65536 + c * 256 + d := by
    have := Nat.mul_add_lt_is_or (i := 8) (b := d) (by omega) (a * 65536 + b * 256 + c)
    rw [show 2 ^ 8 * (a * 65536 + b * 256 + c) = a * 16777216 + b * 65536 + c * 256 by ring]
      at this
    exact this.symm
  rw [h1, h2, h3]

theorem toUint32_shl (a k : Nat) (h : a * 2 ^ k < 4294967296) :
    toUint32 (jsShl (Int.ofNat a) k) = a * 2 ^ k := by
  unfold jsShl
  rw [toUint32_toInt32]
  have : (Int.ofNat a) * 2 ^ k = Int.ofNat (a * 2 ^ k) := by
    simp only [Int.ofNat_eq_coe]; push_cast; ring
  rw [this]
  exact toUint32_ofNat _ h

theorem toUint32_jsOr (x y : Int) : toUint32 (jsOr x y) = toUint32 x ||| toUint32 y := by
  unfold jsOr
  rw [toUint32_toInt32]
  apply toUint32_ofNat
  exact Nat.or_lt_two_pow (n := 32) (toUint32_lt x) (toUint32_lt y)

theorem readInt32_bytes (u8 : List Nat) (i : Nat) (a b c d : Nat)
    (ha : a < 256) (hb : b < 256) (hc : c < 256) (hd : d < 256)
    (h0 : u8.getD i 0 = a) (h1 : u8.getD (i + 1) 0 = b) (h2 : u8.getD (i + 2) 0 = c)
    (h3 : u8.getD (i + 3) 0 = d) :
    readInt32 u8 i = toInt32 (Int.ofNat (a * 16777216 + b * 65536 + c * 256 + d)) := by
  unfold readInt32 u8at
  rw [h0, h1, h2, h3]
  rw [jsOr, toUint32_jsOr, toUint32_jsOr, toUint32_shl a 24 (by omega),
    toUint32_shl b 16 (by omega), toUint32_shl c 8 (by omega), toUint32_ofNat d (by omega)]
  norm_num only
  rw [or_bytes a b c d hb hc hd]

theorem setUint32_toUint32 (n : Int) :
    ∃ a b c d : Nat, setUint32 n = [a, b, c, d] ∧ a < 256 ∧ b < 256 ∧ c < 256 ∧ d < 256 ∧
      a * 16777216 + b * 65536 + c * 256 + d = toUint32 n := by
  refine ⟨_, _, _, _, rfl, ?_, ?_, ?_, ?_, ?_⟩
  · have := toUint32_lt n; omega
  · omega
  · omega
  · omega
  · have := toUint32_lt n; omega

theorem getD_append_add (pre l : List Nat) (k : Nat) :
    (pre ++ l).getD (pre.length + k) 0 = l.getD k 0 := by
  induction pre with
  | nil => simp
  | cons x xs ih =>
    have e : (x :: xs).length + k = (xs.length + k) + 1 := by simp; omega
    rw [List.cons_append, e, List.getD_cons_succ]
    exact ih

/-- Reading back, with the signed 32-bit operators of `input`, a field written by
`setUint32` gives the signed reading of the value written. -/
theorem readInt32_setUint32 (pre rest : List Nat) (n : Int) :
    readInt32 (pre ++ setUint32 n ++ rest) pre.length = toInt32 n := by
  obtain ⟨a, b, c, d, hs, ha, hb, hc, hd, hv⟩ := setUint32_toUint32 n
  rw [hs]
  rw [List.append_assoc,
    readInt32_bytes _ _ a b c d ha hb hc hd
      (by simpa using getD_append_add pre ([a, b, c, d] ++ rest) 0)
      (by simpa using getD_append_add pre ([a, b, c, d] ++ rest) 1)
      (by simpa using getD_append_add pre ([a, b, c, d] ++ rest) 2)
      (by simpa using getD_append_add pre ([a, b, c, d] ++ rest) 3), hv]
  exact toInt32_ofNat_toUint32 n

theorem toInt32_of_lt (n : Int) (h0 : 0 ≤ n) (h : n < 2147483648) : toInt32 n = n := by
  unfold toInt32
  simp only
  split <;> omega

/-! ## Sender loop -/

/-- Number of iterations of the sender loop entered at `offset`. -/
theorem rpcFramesFrom_eq_map (rpcid : Int) (reply : List Nat) :
    ∀ (fuel offset : Nat), reply.length ≤ offset + fuel * MAX_CHUNK_SIZE →
      rpcFramesFrom rpcid reply fuel offset
        = (List.range ((reply.length - offset + 15999) / 16000)).map
            (fun i => rpcFrame rpcid reply (offset + i * MAX_CHUNK_SIZE)) := by
  intro fuel
  induction fuel with
  | zero =>
    intro offset h
    have h0 : (reply.length - offset + 15999) / 16000 = 0 := by
      simp only [MAX_CHUNK_SIZE] at h; omega
    simp [rpcFramesFrom, h0]
  | succ fuel ih =>
    intro offset h
    unfold rpcFramesFrom
    by_cases hlt : offset < reply.length
    · rw [if_pos hlt, ih (offset + MAX_CHUNK_SIZE) (by simp only [MAX_CHUNK_SIZE] at h ⊢; omega)]
      have hk : (reply.length - offset + 15999) / 16000
          = (reply.length - (offset + MAX_CHUNK_SIZE) + 15999) / 16000 + 1 := by
        simp only [MAX_CHUNK_SIZE]; omega
      rw [hk, List.range_succ_eq_map, List.map_cons, List.map_map]
      congr 1
      apply List.map_congr_left
      intro i _
      simp only [Function.comp]
      congr 1
      simp only [MAX_CHUNK_SIZE]
      omega
    · rw [if_neg hlt]
      have h0 : (reply.length - offset + 15999) / 16000 = 0 := by omega
      simp [h0]

theorem rpcFrames_eq_map (rpcid : Int) (reply : List Nat) :
    rpcFrames rpcid reply
      = (List.range ((reply.length + 15999) / 16000)).map
          (fun i => rpcFrame rpcid reply (i * MAX_CHUNK_SIZE)) := by
  unfold rpcFrames
  rw [rpcFramesFrom_eq_map rpcid reply reply.length 0 (by simp only [MAX_CHUNK_SIZE]; omega)]
  simp

/-- Any amount of fuel that covers the reply gives the same frames. -/
theorem rpcFramesFrom_fuel (rpcid : Int) (reply : List Nat) (fuel : Nat)
    (h : reply.length ≤ fuel * MAX_CHUNK_SIZE) :
    rpcFramesFrom rpcid reply fuel 0 = rpcFrames rpcid reply := by
  rw [rpcFrames_eq_map, rpcFramesFrom_eq_map rpcid reply fuel 0 (by omega)]
  simp

theorem rpcFrame_eq (rpcid : Int) (reply : List Nat) (offset : Nat) :
    rpcFrame rpcid reply offset
      = [if reply.length - offset > 16000 then 2 else 1] ++ setUint32 rpcid
          ++ setUint32 (Int.ofNat reply.length) ++ (reply.drop offset).take 16000 := by
  unfold rpcFrame
  simp only [MAX_CHUNK_SIZE]
  by_cases h : reply.length - offset > 16000
  · simp [h]
  · simp only [h, if_false]
    have e1 : (reply.drop offset).take (reply.length - offset) = reply.drop offset := by
      apply List.take_of_length_le; simp
    have e2 : (reply.drop offset).take 16000 = reply.drop offset := by
      apply List.take_of_length_le; simp; omega
    rw [e1, e2]

theorem setUint32_length (n : Int) : (setUint32 n).length = 4 := rfl

theorem setUint32_lt (n : Int) : ∀ b ∈ setUint32 n, b < 256 := by
  intro b hb
  simp only [setUint32, List.mem_cons, List.mem_singleton, List.not_mem_nil, or_false] at hb
  omega

theorem bigEndianValue_setUint32 (n : Int) : bigEndianValue (setUint32 n) = toUint32 n := by
  have := toUint32_lt n
  simp only [bigEndianValue, setUint32, List.foldl]
  omega

theorem toUint32_of_lt (n : Int) (h0 : 0 ≤ n) (h : n < 4294967296) :
    Int.ofNat (toUint32 n) = n := by
  unfold toUint32
  simp only [Int.ofNat_eq_coe]
  omega

theorem join_frames_payload (rpcid : Int) (reply : List Nat) :
    ∀ (fuel offset : Nat), reply.length ≤ offset + fuel * MAX_CHUNK_SIZE →
      ((rpcFramesFrom rpcid reply fuel offset).map (List.drop 9)).flatten = reply.drop offset := by
  intro fuel
  induction fuel with
  | zero =>
    intro offset h
    simp only [rpcFramesFrom, List.map_nil, List.flatten_nil]
    symm
    apply List.drop_eq_nil_of_le
    omega
  | succ fuel ih =>
    intro offset h
    unfold rpcFramesFrom
    by_cases hlt : offset < reply.length
    · rw [if_pos hlt, List.map_cons, List.flatten_cons,
        ih (offset + MAX_CHUNK_SIZE) (by simp only [MAX_CHUNK_SIZE] at h ⊢; omega), rpcFrame_eq]
      have : ([if reply.length - offset > 16000 then 2 else 1] ++ setUint32 rpcid
          ++ setUint32 (Int.ofNat reply.length) ++ (reply.drop offset).take 16000).drop 9
          = (reply.drop offset).take 16000 := by
        simp [setUint32]
      rw [this]
      simp only [MAX_CHUNK_SIZE]
      rw [← List.drop_drop]
      exact List.take_append_drop 16000 (reply.drop offset)
    · rw [if_neg hlt]
      simp only [List.map_nil, List.flatten_nil]
      symm
      apply List.drop_eq_nil_of_le
      omega

theorem rpcFrames_getElem? (rpcid : Int) (reply : List Nat) (i : Nat) (out : List Nat)
    (h : (rpcFrames rpcid reply)[i]? = some out) :
    i * 16000 < reply.length ∧
      out = [if reply.length - i * 16000 > 16000 then 2 else 1] ++ setUint32 rpcid
          ++ setUint32 (Int.ofNat reply.length) ++ (reply.drop (i * 16000)).take 16000 := by
  rw [rpcFrames_eq_map, List.getElem?_map] at h
  by_cases hi : i < (reply.length + 15999) / 16000
  · rw [List.getElem?_range hi] at h
    simp only [Option.map_some', Option.some.injEq, MAX_CHUNK_SIZE] at h
    refine ⟨by omega, ?_⟩
    rw [← h, rpcFrame_eq]
  · rw [List.getElem?_eq_none (by simpa using hi)] at h
    simp at h

theorem rpcFrames_length (rpcid : Int) (reply : List Nat) :
    (rpcFrames rpcid reply).length = (reply.length + 15999) / 16000 := by
  rw [rpcFrames_eq_map]; simp

/-- C2 (sender framing).  For a request with a defined `rpcid` whose handler
answers with an `ArrayBuffer` of length `L ≥ 1`, `DeviceConnection.rpc` sends
exactly `ceil(L / 16000)` frames (at least one) and nothing else.  Every frame
but the last starts with opcode 2 and carries exactly 16000 payload bytes; the
last starts with opcode 1 and carries between 1 and 16000 payload bytes.  Each
frame is a 9-byte header (bytes below 256: the opcode, the call id as a 4-byte
big-endian number, the total length `L` as a 4-byte big-endian number) followed
by its payload, which is the slice of the reply at offset `16000 * i`; the
concatenation of the payloads is the reply.  The call id and `L` are taken in the
range of the 4-byte fields. -/
theorem rpc_sender_framing (self : ConnId) (msg : Msg) (w : World) (handler : Val → Reply)
    (reply : List Nat) (id : Int)
    (hm : w.vs.rpcmethods msg.method = some handler)
    (hr : handler msg.args = Reply.buffer reply)
    (hid : msg.rpcid = some id) (hid0 : 0 ≤ id) (hid1 : id < 4294967296)
    (hL : 1 ≤ reply.length) (hL2 : reply.length < 4294967296) :
    ∃ frames : List (List Nat),
      (DeviceConnection.rpc self msg w).2
        = Effect.callHandler msg.method msg.args
            :: frames.map (fun out => Effect.send self (OutMsg.frame out)) ∧
      frames ≠ [] ∧
      frames.length = (reply.length + 15999) / 16000 ∧
      (∀ i out, frames[i]? = some out →
        out.take 1 = [if i + 1 < frames.length then 2 else 1] ∧
        (∀ b ∈ out.take 9, b < 256) ∧
        Int.ofNat (bigEndianValue ((out.drop 1).take 4)) = id ∧
        bigEndianValue ((out.drop 5).take 4) = reply.length ∧
        out.length = 9 + (out.drop 9).length ∧
        out.drop 9 = (reply.drop (i * 16000)).take 16000 ∧
        (i + 1 < frames.length → (out.drop 9).length = 16000) ∧
        (i + 1 = frames.length → 1 ≤ (out.drop 9).length ∧ (out.drop 9).length ≤ 16000)) ∧
      (frames.map (List.drop 9)).flatten = reply := by
  refine ⟨rpcFrames id reply, ?_, ?_, rpcFrames_length id reply, ?_, ?_⟩
  · simp [DeviceConnection.rpc, hm, hr, hid, andThen]
  · intro hnil
    have := rpcFrames_length id reply
    rw [hnil, List.length_nil] at this
    omega
  · intro i out hout
    obtain ⟨hi, rfl⟩ := rpcFrames_getElem? id reply i out hout
    rw [rpcFrames_length]
    have hlen4 := setUint32_length id
    have hlen4' := setUint32_length (Int.ofNat reply.length)
    have hd9 : ([if reply.length - i * 16000 > 16000 then 2 else 1] ++ setUint32 id
          ++ setUint32 (Int.ofNat reply.length) ++ (reply.drop (i * 16000)).take 16000).drop 9
          = (reply.drop (i * 16000)).take 16000 := by
      simp [setUint32]
    have hplen : ((reply.drop (i * 16000)).take 16000).length
        = min 16000 (reply.length - i * 16000) := by simp
    refine ⟨?_, ?_, ?_, ?_, ?_, hd9, ?_, ?_⟩
    · have : (reply.length - i * 16000 > 16000) ↔ (i + 1 < (reply.length + 15999) / 16000) := by
        omega
      simp [this]
    · intro b hb
      have : ([if reply.length - i * 16000 > 16000 then 2 else 1] ++ setUint32 id
          ++ setUint32 (Int.ofNat reply.length) ++ (reply.drop (i * 16000)).take 16000).take 9
          = [if reply.length - i * 16000 > 16000 then 2 else 1] ++ setUint32 id
          ++ setUint32 (Int.ofNat reply.length) := by
        simp [setUint32]
      rw [this] at hb
      simp only [List.mem_append, List.mem_singleton] at hb
      rcases hb with (hb | hb) | hb
      · subst hb; split <;> omega
      · exact setUint32_lt _ _ hb
      · exact setUint32_lt _ _ hb
    · have : (([if reply.length - i * 16000 > 16000 then 2 else 1] ++ setUint32 id
          ++ setUint32 (Int.ofNat reply.length) ++ (reply.drop (i * 16000)).take 16000).drop 1).take 4
          = setUint32 id := by
        simp [setUint32]
      rw [this, bigEndianValue_setUint32]
      exact toUint32_of_lt id hid0 hid1
    · have : (([if reply.length - i * 16000 > 16000 then 2 else 1] ++ setUint32 id
          ++ setUint32 (Int.ofNat reply.length) ++ (reply.drop (i * 16000)).take 16000).drop 5).take 4
          = setUint32 (Int.ofNat reply.length) := by
        simp [setUint32]
      rw [this, bigEndianValue_setUint32]
      exact toUint32_ofNat _ hL2
    · rw [hd9]
      simp only [List.length_append, List.length_singleton, hlen4, hlen4']
    · intro hlast
      rw [hd9, hplen]; omega
    · intro hlast
      rw [hd9, hplen]; omega
  · have := join_frames_payload id reply reply.length 0 (by simp only [MAX_CHUNK_SIZE]; omega)
    simpa [rpcFrames] using this

/-! ## Receiver: reassembly -/

@[simp] theorem setPending_conns (w : World) (k : Int) (v : Option PendingCall) :
    (w.setPending k v).conns = w.conns := rfl

@[simp] theorem setPending_get (w : World) (k : Int) (v : Option PendingCall) :
    (w.setPending k v).vs.rpc_pending k = v := by
  simp [World.setPending, World.modVs]

theorem setPending_get_ne (w : World) (k j : Int) (v : Option PendingCall) (h : j ≠ k) :
    (w.setPending k v).vs.rpc_pending j = w.vs.rpc_pending j := by
  simp [World.setPending, World.modVs, Function.update_noteq h]

@[simp] theorem setPending_setPending (w : World) (k : Int) (a b : Option PendingCall) :
    (w.setPending k a).setPending k b = w.setPending k b := by
  simp [World.setPending, World.modVs]

theorem clearTimer_setPending (w : World) (k : Int) (a : Option PendingCall)
    (t : Option TimerId) :
    (w.setPending k a).clearTimer t = (w.clearTimer t).setPending k a := by
  cases t <;> rfl

theorem setPending_self (w : World) (k : Int) : w.setPending k (w.vs.rpc_pending k) = w := by
  simp [World.setPending, World.modVs]

theorem setBytes_chunk_gen (reply : List Nat) (offset m : Nat) (h : offset ≤ reply.length) :
    setBytes (reply.take offset ++ List.replicate (reply.length - offset) 0)
        ((reply.drop offset).take m) offset
      = reply.take (offset + m) ++ List.replicate (reply.length - (offset + m)) 0 := by
  unfold setBytes
  have hl : (reply.take offset).length = offset := by simp; omega
  have e1 : (reply.take offset ++ List.replicate (reply.length - offset) 0).take offset
      = reply.take offset := List.take_left' hl
  have e2 : (reply.take offset ++ List.replicate (reply.length - offset) 0).drop
        (offset + ((reply.drop offset).take m).length)
      = List.replicate (reply.length - (offset + m)) 0 := by
    have := @List.drop_append _ (reply.take offset)
      (List.replicate (reply.length - offset) 0) ((reply.drop offset).take m).length
    rw [hl] at this
    rw [this, List.drop_replicate]
    congr 1
    simp only [List.length_take, List.length_drop]
    omega
  rw [e1, e2, List.take_add]

theorem setBytes_chunk (reply : List Nat) (offset : Nat) (h : offset ≤ reply.length) :
    setBytes (reply.take offset ++ List.replicate (reply.length - offset) 0)
        ((reply.drop offset).take 16000) offset
      = reply.take (offset + 16000) ++ List.replicate (reply.length - (offset + 16000)) 0 :=
  setBytes_chunk_gen reply offset 16000 h

theorem filledBuf_length (reply : List Nat) (offset : Nat) :
    (filledBuf reply offset).length = reply.length := by
  simp [filledBuf]; omega

theorem filledBuf_full (reply : List Nat) (offset : Nat) (h : reply.length ≤ offset) :
    filledBuf reply offset = reply := by
  simp [filledBuf, List.take_of_length_le h, Nat.sub_eq_zero_of_le h]

theorem inputChunk_step (opcode : Nat) (u8 : List Nat) (w : World) (pc : PendingCall)
    (id : Int) (reply : List Nat) (offset : Nat)
    (hoff : offset < reply.length)
    (h1 : readInt32 u8 1 = id) (h5 : readInt32 u8 5 = Int.ofNat reply.length)
    (hd : u8.drop 9 = (reply.drop offset).take 16000)
    (hp : w.vs.rpc_pending id = some pc)
    (inv : (pc.accbuf = none ∧ offset = 0) ∨
           (pc.accbuf = some (filledBuf reply offset) ∧ pc.offset = some offset)) :
    DeviceConnection.inputChunk opcode u8 w
      = if opcode = 1 then
          ((w.clearTimer pc.timer).setPending id none,
            [Effect.resolve id (Resolved.buffer (filledBuf reply (offset + 16000)))])
        else
          (w.setPending id (some { pc with
              accbuf := some (filledBuf reply (offset + 16000)),
              offset := some (offset + ((reply.drop offset).take 16000).length) }), []) := by
  unfold DeviceConnection.inputChunk
  simp only [h1, hp, h5, hd]
  rcases inv with ⟨hacc, h0⟩ | ⟨hacc, ho⟩
  · subst h0
    have hw : setBytes (List.replicate reply.length 0) (List.take 16000 reply) 0
        = filledBuf reply (0 + 16000) := by
      have := setBytes_chunk reply 0 (by omega)
      simpa [filledBuf] using this
    have hlen : ¬ (List.take 16000 reply).length > reply.length := by simp
    simp only [hacc, List.drop_zero, Int.ofNat_eq_coe, Int.toNat_ofNat, List.length_replicate]
    simp only [hw, hlen, if_false, Nat.zero_add, show ¬ ((reply.length : Int) < 0) by omega]
    split
    · simp [andThen, clearTimer_setPending]
    · simp
  · have hw := setBytes_chunk reply offset (by omega)
    have hlen : ¬ (offset + ((reply.drop offset).take 16000).length
        > (filledBuf reply offset).length) := by
      rw [filledBuf_length]; simp; omega
    simp only [hacc, ho, Option.getD_some, Option.map_some', hlen, if_false]
    rw [show setBytes (filledBuf reply offset) ((reply.drop offset).take 16000) offset
        = filledBuf reply (offset + 16000) from hw]
    split
    · simp [andThen, clearTimer_setPending]
    · simp

theorem input_rpcFrame (self : ConnId) (w : World) (pc : PendingCall)
    (id : Int) (reply : List Nat) (offset : Nat)
    (hlog : (w.conns self).loggedin = true)
    (hid0 : 0 ≤ id) (hid1 : id < 2147483648) (hL : reply.length < 2147483648)
    (hoff : offset < reply.length)
    (hp : w.vs.rpc_pending id = some pc)
    (inv : (pc.accbuf = none ∧ offset = 0) ∨
           (pc.accbuf = some (filledBuf reply offset) ∧ pc.offset = some offset)) :
    DeviceConnection.input self (Data.binary (rpcFrame id reply offset)) w
      = if reply.length - offset > 16000 then
          (w.setPending id (some { pc with
              accbuf := some (filledBuf reply (offset + 16000)),
              offset := some (offset + 16000) }), [])
        else
          ((w.clearTimer pc.timer).setPending id none,
            [Effect.resolve id (Resolved.buffer reply)]) := by
  rw [rpcFrame_eq]
  have h1 : readInt32 ([if reply.length - offset > 16000 then 2 else 1] ++ setUint32 id
      ++ setUint32 (Int.ofNat reply.length) ++ (reply.drop offset).take 16000) 1 = id := by
    have := readInt32_setUint32 [if reply.length - offset > 16000 then 2 else 1]
      (setUint32 (Int.ofNat reply.length) ++ (reply.drop offset).take 16000) id
    rw [toInt32_of_lt id hid0 hid1] at this
    simpa [List.append_assoc] using this
  have h5 : readInt32 ([if reply.length - offset > 16000 then 2 else 1] ++ setUint32 id
      ++ setUint32 (Int.ofNat reply.length) ++ (reply.drop offset).take 16000) 5
      = Int.ofNat reply.length := by
    have := readInt32_setUint32 ([if reply.length - offset > 16000 then 2 else 1] ++ setUint32 id)
      ((reply.drop offset).take 16000) (Int.ofNat reply.length)
    rw [toInt32_of_lt _ (by simp) (by simp only [Int.ofNat_eq_coe]; omega)] at this
    simpa [setUint32_length] using this
  have hd : ([if reply.length - offset > 16000 then 2 else 1] ++ setUint32 id
      ++ setUint32 (Int.ofNat reply.length) ++ (reply.drop offset).take 16000).drop 9
      = (reply.drop offset).take 16000 := by
    simp [setUint32]
  by_cases hbig : reply.length - offset > 16000
  · have hstep := inputChunk_step 2 _ w pc id reply offset hoff h1 h5 hd hp inv
    simp only [hbig, if_true] at hstep ⊢
    have hlen : ((reply.drop offset).take 16000).length = 16000 := by simp; omega
    simp only [DeviceConnection.input, hlog, Bool.not_true, Bool.false_eq_true, if_false,
      List.singleton_append, List.cons_append, List.head?_cons]
    simp only [List.singleton_append, List.cons_append] at hstep
    rw [hstep]
    simp [hlen]
  · have hstep := inputChunk_step 1 _ w pc id reply offset hoff h1 h5 hd hp inv
    simp only [hbig, if_false] at hstep ⊢
    simp only [DeviceConnection.input, hlog, Bool.not_true, Bool.false_eq_true, if_false,
      List.singleton_append, List.cons_append, List.head?_cons]
    simp only [List.singleton_append, List.cons_append] at hstep
    rw [hstep, filledBuf_full reply _ (by omega)]
    simp

theorem rpcFramesFrom_done (rpcid : Int) (reply : List Nat) (fuel offset : Nat)
    (h : reply.length ≤ offset) : rpcFramesFrom rpcid reply fuel offset = [] := by
  cases fuel with
  | zero => rfl
  | succ n => simp [rpcFramesFrom, Nat.not_lt.mpr h]

/-- Feeding the frames of the sender loop entered at `offset` to a receiver that
holds the bytes before `offset`. -/
theorem inputs_rpcFramesFrom (self : ConnId) (id : Int) (reply : List Nat)
    (hid0 : 0 ≤ id) (hid1 : id < 2147483648) (hL : reply.length < 2147483648) :
    ∀ (fuel offset : Nat) (w : World) (pc : PendingCall),
      reply.length ≤ offset + fuel * MAX_CHUNK_SIZE →
      offset < reply.length →
      (w.conns self).loggedin = true →
      w.vs.rpc_pending id = some pc →
      ((pc.accbuf = none ∧ offset = 0) ∨
        (pc.accbuf = some (filledBuf reply offset) ∧ pc.offset = some offset)) →
      DeviceConnection.inputs self ((rpcFramesFrom id reply fuel offset).map Data.binary) w
        = ((w.clearTimer pc.timer).setPending id none,
            [Effect.resolve id (Resolved.buffer reply)]) := by
  intro fuel
  induction fuel with
  | zero => intro offset w pc h hoff; omega
  | succ fuel ih =>
    intro offset w pc h hoff hlog hp inv
    unfold rpcFramesFrom
    rw [if_pos hoff, List.map_cons, DeviceConnection.inputs,
      input_rpcFrame self w pc id reply offset hlog hid0 hid1 hL hoff hp inv]
    by_cases hbig : reply.length - offset > 16000
    · rw [if_pos hbig]
      simp only [andThen, List.nil_append]
      rw [ih (offset + MAX_CHUNK_SIZE) _ _ (by simp only [MAX_CHUNK_SIZE] at h ⊢; omega)
        (by simp only [MAX_CHUNK_SIZE]; omega) (by simpa using hlog) (setPending_get _ _ _)
        (Or.inr ⟨rfl, rfl⟩)]
      simp [clearTimer_setPending]
    · rw [if_neg hbig, rpcFramesFrom_done id reply fuel _ (by simp only [MAX_CHUNK_SIZE]; omega)]
      simp [andThen, DeviceConnection.inputs]

/-! ## Backoff -/

@[simp] theorem modConn_conns_self (w : World) (c : ConnId) (f : DeviceConnection → DeviceConnection) :
    (w.modConn c f).conns c = f (w.conns c) := by
  simp [World.modConn]

@[simp] theorem modConn_vs (w : World) (c : ConnId) (f : DeviceConnection → DeviceConnection) :
    (w.modConn c f).vs = w.vs := rfl

@[simp] theorem modConn_random (w : World) (c : ConnId) (f : DeviceConnection → DeviceConnection) :
    (w.modConn c f).random = w.random := rfl

@[simp] theorem modConn_randomCalls (w : World) (c : ConnId) (f : DeviceConnection → DeviceConnection) :
    (w.modConn c f).randomCalls = w.randomCalls := rfl

@[simp] theorem modVs_conns (w : World) (f : ViewShare → ViewShare) :
    (w.modVs f).conns = w.conns := rfl

@[simp] theorem modVs_vs (w : World) (f : ViewShare → ViewShare) :
    (w.modVs f).vs = f w.vs := rfl

@[simp] theorem clearTimer_conns (w : World) (t : Option TimerId) :
    (w.clearTimer t).conns = w.conns := by cases t <;> rfl

@[simp] theorem clearTimer_vs (w : World) (t : Option TimerId) :
    (w.clearTimer t).vs = w.vs := by cases t <;> rfl

@[simp] theorem clearTimer_random (w : World) (t : Option TimerId) :
    (w.clearTimer t).random = w.random := by cases t <;> rfl

@[simp] theorem clearTimer_randomCalls (w : World) (t : Option TimerId) :
    (w.clearTimer t).randomCalls = w.randomCalls := by cases t <;> rfl

@[simp] theorem setTimer_conns (w : World) (a : TimerAction) (d : ℚ) (r : Bool) :
    (w.setTimer a d r).1.conns = w.conns := rfl

@[simp] theorem setTimer_vs (w : World) (a : TimerAction) (d : ℚ) (r : Bool) :
    (w.setTimer a d r).1.vs = w.vs := rfl

@[simp] theorem setTimer_random (w : World) (a : TimerAction) (d : ℚ) (r : Bool) :
    (w.setTimer a d r).1.random = w.random := rfl

@[simp] theorem setTimer_randomCalls (w : World) (a : TimerAction) (d : ℚ) (r : Bool) :
    (w.setTimer a d r).1.randomCalls = w.randomCalls := rfl

@[simp] theorem selectPrimaryConnection_conns (w : World) :
    (selectPrimaryConnection w).1.conns = w.conns := by
  unfold selectPrimaryConnection
  split
  · rfl
  · split <;> rfl

@[simp] theorem selectPrimaryConnection_random (w : World) :
    (selectPrimaryConnection w).1.random = w.random := by
  unfold selectPrimaryConnection
  split
  · rfl
  · split <;> rfl

@[simp] theorem selectPrimaryConnection_randomCalls (w : World) :
    (selectPrimaryConnection w).1.randomCalls = w.randomCalls := by
  unfold selectPrimaryConnection
  split
  · rfl
  · split <;> rfl

theorem disconnect_world (self : ConnId) (w : World) :
    (DeviceConnection.disconnect self w).2.1 = w ∨
      (DeviceConnection.disconnect self w).2.1
        = w.modConn self (fun d => { d with connection := false }) := by
  unfold DeviceConnection.disconnect
  split
  · split
    · right; rfl
    · left; rfl
  · left; rfl

/-- When `this.connection` is set on a WebRTC transport, `disconnect()` deletes
it and throws. -/
theorem disconnect_throws (self : ConnId) (w : World)
    (hk : (w.conns self).kind = ConnKind.webrtc) (hc : (w.conns self).connection = true) :
    DeviceConnection.disconnect self w
      = (none, w.modConn self (fun d => { d with connection := false }),
          [Effect.unsubscribeStats self, Effect.throw "TypeError"]) := by
  unfold DeviceConnection.disconnect
  simp [hk, hc]

/-- Otherwise `disconnect()` returns and leaves the fields alone. -/
theorem disconnect_returns (self : ConnId) (w : World)
    (hc : (w.conns self).kind = ConnKind.webrtc → (w.conns self).connection = false) :
    ∃ retry effects, DeviceConnection.disconnect self w = (some retry, w, effects) := by
  unfold DeviceConnection.disconnect
  cases hk : (w.conns self).kind with
  | webrtc =>
    refine ⟨(w.conns w.vs.connectionRV).loggedin, [Effect.unsubscribeStats self], ?_⟩
    simp [hc hk]
  | other => exact ⟨_, _, rfl⟩

@[simp] theorem disconnect_backoff (self : ConnId) (w : World) :
    ((DeviceConnection.disconnect self w).2.1.conns self).backoff = (w.conns self).backoff := by
  rcases disconnect_world self w with h | h <;> rw [h]
  simp

@[simp] theorem disconnect_suspended (self : ConnId) (w : World) :
    ((DeviceConnection.disconnect self w).2.1.conns self).suspended
      = (w.conns self).suspended := by
  rcases disconnect_world self w with h | h <;> rw [h]
  simp

@[simp] theorem disconnect_kind (self : ConnId) (w : World) :
    ((DeviceConnection.disconnect self w).2.1.conns self).kind = (w.conns self).kind := by
  rcases disconnect_world self w with h | h <;> rw [h]
  simp

@[simp] theorem disconnect_random (self : ConnId) (w : World) :
    (DeviceConnection.disconnect self w).2.1.random = w.random := by
  rcases disconnect_world self w with h | h <;> rw [h]
  rfl

@[simp] theorem disconnect_randomCalls (self : ConnId) (w : World) :
    (DeviceConnection.disconnect self w).2.1.randomCalls = w.randomCalls := by
  rcases disconnect_world self w with h | h <;> rw [h]
  rfl

@[simp] theorem growBackoff_backoff (self : ConnId) (w : World) :
    ((DeviceConnection.growBackoff self w).conns self).backoff
      = min (w.conns self).backoff 10000 * randomFactor w w.randomCalls := by
  unfold DeviceConnection.growBackoff World.mathRandom randomFactor
  by_cases h : (w.conns self).backoff > 10000
  · simp [h, min_eq_right (le_of_lt h)]
  · simp [h, min_eq_left (not_lt.mp h)]

@[simp] theorem growBackoff_suspended (self : ConnId) (w : World) :
    ((DeviceConnection.growBackoff self w).conns self).suspended = (w.conns self).suspended := by
  unfold DeviceConnection.growBackoff World.mathRandom
  simp only
  split <;> simp

@[simp] theorem growBackoff_kind (self : ConnId) (w : World) :
    ((DeviceConnection.growBackoff self w).conns self).kind = (w.conns self).kind := by
  unfold DeviceConnection.growBackoff World.mathRandom
  simp only
  split <;> simp

@[simp] theorem growBackoff_random (self : ConnId) (w : World) :
    (DeviceConnection.growBackoff self w).random = w.random := by
  unfold DeviceConnection.growBackoff World.mathRandom
  split <;> rfl

@[simp] theorem growBackoff_randomCalls (self : ConnId) (w : World) :
    (DeviceConnection.growBackoff self w).randomCalls = w.randomCalls + 1 := by
  unfold DeviceConnection.growBackoff World.mathRandom
  split <;> rfl

@[simp] theorem cancelReconnect_backoff (self : ConnId) (w : World) :
    ((DeviceConnection.cancelReconnect self w).conns self).backoff = (w.conns self).backoff := by
  unfold DeviceConnection.cancelReconnect
  simp only
  split <;> split <;> simp

@[simp] theorem cancelReconnect_suspended (self : ConnId) (w : World) :
    ((DeviceConnection.cancelReconnect self w).conns self).suspended
      = (w.conns self).suspended := by
  unfold DeviceConnection.cancelReconnect
  simp only
  split <;> split <;> simp

@[simp] theorem cancelReconnect_kind (self : ConnId) (w : World) :
    ((DeviceConnection.cancelReconnect self w).conns self).kind = (w.conns self).kind := by
  unfold DeviceConnection.cancelReconnect
  simp only
  split <;> split <;> simp

@[simp] theorem cancelReconnect_random (self : ConnId) (w : World) :
    (DeviceConnection.cancelReconnect self w).random = w.random := by
  unfold DeviceConnection.cancelReconnect
  simp only
  split <;> split <;> simp

@[simp] theorem cancelReconnect_randomCalls (self : ConnId) (w : World) :
    (DeviceConnection.cancelReconnect self w).randomCalls = w.randomCalls := by
  unfold DeviceConnection.cancelReconnect
  simp only
  split <;> split <;> simp

@[simp] theorem scheduleReconnect_backoff (self : ConnId) (retry : Bool) (w : World) :
    ((DeviceConnection.scheduleReconnect self retry w).conns self).backoff
      = (w.conns self).backoff := by
  unfold DeviceConnection.scheduleReconnect
  split <;> simp

@[simp] theorem scheduleReconnect_suspended (self : ConnId) (retry : Bool) (w : World) :
    ((DeviceConnection.scheduleReconnect self retry w).conns self).suspended
      = (w.conns self).suspended := by
  unfold DeviceConnection.scheduleReconnect
  split <;> simp

@[simp] theorem scheduleReconnect_kind (self : ConnId) (retry : Bool) (w : World) :
    ((DeviceConnection.scheduleReconnect self retry w).conns self).kind
      = (w.conns self).kind := by
  unfold DeviceConnection.scheduleReconnect
  split <;> simp

@[simp] theorem scheduleReconnect_random (self : ConnId) (retry : Bool) (w : World) :
    (DeviceConnection.scheduleReconnect self retry w).random = w.random := by
  unfold DeviceConnection.scheduleReconnect
  split <;> simp

@[simp] theorem scheduleReconnect_randomCalls (self : ConnId) (retry : Bool) (w : World) :
    (DeviceConnection.scheduleReconnect self retry w).randomCalls = w.randomCalls := by
  unfold DeviceConnection.scheduleReconnect
  split <;> simp

/-- A non-suspended `connectionFailed` whose `msg` cannot be converted to a
string: the template literal of the `vs.log` call throws; the transport is marked
logged out and nothing else changes. -/
theorem connectionFailed_log_thrown (self : ConnId) (msg : Val) (code : Int) (w : World)
    (hs : (w.conns self).suspended = false) (hm : msg.stringThrows = true) :
    DeviceConnection.connectionFailed self msg code w
      = (w.modConn self (fun d => { d with loggedin := false }),
          [Effect.updateState "localstate" "connecting" (Val.bool false),
           Effect.throw "TypeError"]) := by
  unfold DeviceConnection.connectionFailed
  simp only [andThen, updateState, modConn_conns_self, hs, hm]
  simp

/-- A non-suspended `connectionFailed` in which `disconnect()` throws: the
transport is marked logged out, `this.connection` is deleted, and nothing else
changes. -/
theorem connectionFailed_thrown (self : ConnId) (msg : Val) (code : Int) (w : World)
    (hs : (w.conns self).suspended = false) (hm : msg.stringThrows = false)
    (hk : (w.conns self).kind = ConnKind.webrtc) (hc : (w.conns self).connection = true) :
    DeviceConnection.connectionFailed self msg code w
      = ((w.modConn self (fun d => { d with loggedin := false })).modConn self
            (fun d => { d with connection := false }),
          [Effect.updateState "localstate" "connecting" (Val.bool false),
           Effect.log (w.conns self).connectionType msg code,
           Effect.unsubscribeStats self, Effect.throw "TypeError"]) := by
  unfold DeviceConnection.connectionFailed
  simp only [andThen, updateState, modConn_conns_self, hs, hm]
  simp only [Bool.false_eq_true, if_false]
  rw [disconnect_throws self _ (by simpa using hk) (by simpa using hc)]
  simp

/-- A non-suspended `connectionFailed` that runs to its end: the backoff is
capped at 10000 and then multiplied by `1.5 + Math.random() * 0.5`; one random
number is consumed. -/
theorem connectionFailed_backoff (self : ConnId) (msg : Val) (code : Int) (w : World)
    (hs : (w.conns self).suspended = false) (hm : msg.stringThrows = false)
    (hc : (w.conns self).kind = ConnKind.webrtc → (w.conns self).connection = false) :
    ((DeviceConnection.connectionFailed self msg code w).1.conns self).backoff
        = min (w.conns self).backoff 10000 * randomFactor w w.randomCalls ∧
      ((DeviceConnection.connectionFailed self msg code w).1.conns self).suspended = false ∧
      (DeviceConnection.connectionFailed self msg code w).1.random = w.random ∧
      (DeviceConnection.connectionFailed self msg code w).1.randomCalls = w.randomCalls + 1 ∧
      ((DeviceConnection.connectionFailed self msg code w).1.conns self).kind
        = (w.conns self).kind := by
  obtain ⟨retry, effects, hd⟩ :=
    disconnect_returns self (w.modConn self (fun d => { d with loggedin := false }))
      (by simpa using hc)
  unfold DeviceConnection.connectionFailed
  simp only [andThen, updateState, modConn_conns_self, hs, hm,
    DeviceConnection.removeSubscriptions]
  simp only [Bool.false_eq_true, if_false, hd]
  refine ⟨?_, ?_, ?_, ?_, ?_⟩
  · simp [randomFactor]
  · simp [hs]
  · simp
  · simp
  · simp

/-- A non-suspended `connectionFailed`, whether or not it runs to its end. -/
theorem connectionFailed_backoff_cases (self : ConnId) (msg : Val) (code : Int) (w : World)
    (hs : (w.conns self).suspended = false) :
    ((DeviceConnection.connectionFailed self msg code w).1.conns self).suspended = false ∧
      (DeviceConnection.connectionFailed self msg code w).1.random = w.random ∧
      (((DeviceConnection.connectionFailed self msg code w).1.conns self).backoff
          = (w.conns self).backoff ∨
        ((DeviceConnection.connectionFailed self msg code w).1.conns self).backoff
          = min (w.conns self).backoff 10000 * randomFactor w w.randomCalls) := by
  cases hm : msg.stringThrows with
  | true =>
    rw [connectionFailed_log_thrown self msg code w hs hm]
    exact ⟨by simpa using hs, rfl, Or.inl (by simp)⟩
  | false =>
    by_cases hc : (w.conns self).kind = ConnKind.webrtc → (w.conns self).connection = false
    · obtain ⟨h1, h2, h3, _, _⟩ := connectionFailed_backoff self msg code w hs hm hc
      exact ⟨h2, h3, Or.inr h1⟩
    · have hk : (w.conns self).kind = ConnKind.webrtc := by
        by_contra h; exact hc (fun h2 => absurd h2 h)
      have hcon : (w.conns self).connection = true := by
        by_contra h; exact hc (fun _ => by simpa using h)
      rw [connectionFailed_thrown self msg code w hs hm hk hcon]
      refine ⟨by simpa using hs, rfl, Or.inl (by simp)⟩

/-- The world after a non-suspended `connectionFailed` in which `disconnect()`
returns `retry`. -/
theorem connectionFailed_completed (self : ConnId) (msg : Val) (code : Int) (w : World)
    (retry : Bool) (effects : List Effect)
    (hs : (w.conns self).suspended = false) (hm : msg.stringThrows = false)
    (hd : DeviceConnection.disconnect self (w.modConn self (fun d => { d with loggedin := false }))
      = (some retry, w.modConn self (fun d => { d with loggedin := false }), effects)) :
    (DeviceConnection.connectionFailed self msg code w).1
      = DeviceConnection.scheduleReconnect self retry
          ((DeviceConnection.cancelReconnect self (DeviceConnection.growBackoff self
            (selectPrimaryConnection
              ((w.modConn self (fun d => { d with loggedin := false })).modConn self
                (fun d => { d with error := msg, errorcode := Val.num code }))).1)).modConn self
            (fun d => { d with active := false })) := by
  unfold DeviceConnection.connectionFailed
  simp only [andThen, updateState, modConn_conns_self, hs, hm,
    DeviceConnection.removeSubscriptions]
  simp only [Bool.false_eq_true, if_false, hd]

/-- The four ways through `connectionFailed`: the suspended path, the exception
of the `vs.log` call, the exception of `disconnect()`, and the run to the end. -/
theorem connectionFailed_paths (self : ConnId) (msg : Val) (w : World) :
    (w.conns self).suspended = true ∨
      ((w.conns self).suspended = false ∧ msg.stringThrows = true) ∨
      ((w.conns self).suspended = false ∧ msg.stringThrows = false ∧
        (w.conns self).kind = ConnKind.webrtc ∧ (w.conns self).connection = true) ∨
      ((w.conns self).suspended = false ∧ msg.stringThrows = false ∧ ∃ retry effects,
        DeviceConnection.disconnect self (w.modConn self (fun d => { d with loggedin := false }))
          = (some retry, w.modConn self (fun d => { d with loggedin := false }), effects)) := by
  by_cases hs : (w.conns self).suspended = true
  · exact Or.inl hs
  · have hs2 : (w.conns self).suspended = false := by simpa using hs
    cases hm : msg.stringThrows with
    | true => exact Or.inr (Or.inl ⟨hs2, rfl⟩)
    | false =>
      by_cases hc : (w.conns self).kind = ConnKind.webrtc → (w.conns self).connection = false
      · exact Or.inr (Or.inr (Or.inr ⟨hs2, rfl, disconnect_returns self _ (by simpa using hc)⟩))
      · have hk : (w.conns self).kind = ConnKind.webrtc := by
          by_contra h; exact hc (fun h2 => absurd h2 h)
        have hcon : (w.conns self).connection = true := by
          by_contra h; exact hc (fun _ => by simpa using h)
        exact Or.inr (Or.inr (Or.inl ⟨hs2, rfl, hk, hcon⟩))

theorem connectionFailedAll_invariant (self : ConnId) (calls : List (Val × Int)) :
    ∀ w : World, (w.conns self).suspended = false →
      ((connectionFailedAll self calls w).conns self).suspended = false ∧
      (connectionFailedAll self calls w).random = w.random := by
  induction calls with
  | nil => intro w hs; exact ⟨hs, rfl⟩
  | cons c cs ih =>
    intro w hs
    obtain ⟨h2, h3, _⟩ := connectionFailed_backoff_cases self c.1 c.2 w hs
    obtain ⟨i1, i2⟩ := ih _ h2
    exact ⟨i1, by rw [connectionFailedAll, i2, h3]⟩

/-- Consecutive failures of a transport whose class is not WebRTC, with messages
that convert to strings, all run to their end: each consumes one random
number. -/
theorem connectionFailedAll_other (self : ConnId) (calls : List (Val × Int))
    (hm : ∀ c ∈ calls, c.1.stringThrows = false) :
    ∀ w : World, (w.conns self).suspended = false → (w.conns self).kind = ConnKind.other →
      ((connectionFailedAll self calls w).conns self).suspended = false ∧
      (connectionFailedAll self calls w).random = w.random ∧
      (connectionFailedAll self calls w).randomCalls = w.randomCalls + calls.length ∧
      ((connectionFailedAll self calls w).conns self).kind = ConnKind.other := by
  induction calls with
  | nil => intro w hs hk; exact ⟨hs, rfl, rfl, hk⟩
  | cons c cs ih =>
    intro w hs hk
    obtain ⟨_, h2, h3, h4, h5⟩ :=
      connectionFailed_backoff self c.1 c.2 w hs (hm c (List.mem_cons_self _ _))
        (fun h => by rw [hk] at h; cases h)
    obtain ⟨i1, i2, i3, i4⟩ :=
      ih (fun d hd => hm d (List.mem_cons_of_mem _ hd)) _ h2 (by rw [h5, hk])
    refine ⟨i1, ?_, ?_, i4⟩
    · rw [connectionFailedAll, i2, h3]
    · rw [connectionFailedAll, i3, h4, List.length_cons]; omega

theorem randomFactor_bounds (w : World) (k : Nat) (h : 0 ≤ w.random k ∧ w.random k < 1) :
    3 / 2 ≤ randomFactor w k ∧ randomFactor w k < 2 := by
  unfold randomFactor
  constructor <;> norm_num <;> linarith [h.1, h.2]

theorem connectionFailedAll_backoff_nonneg (self : ConnId) (calls : List (Val × Int)) :
    ∀ w : World, (w.conns self).suspended = false →
      (∀ k, 0 ≤ w.random k ∧ w.random k < 1) →
      0 ≤ (w.conns self).backoff →
      0 ≤ ((connectionFailedAll self calls w).conns self).backoff := by
  induction calls with
  | nil => intro w _ _ hb; exact hb
  | cons c cs ih =>
    intro w hs hr hb
    obtain ⟨h2, h3, h1⟩ := connectionFailed_backoff_cases self c.1 c.2 w hs
    rw [connectionFailedAll]
    apply ih _ h2 (by rw [h3]; exact hr)
    rcases h1 with h1 | h1
    · rw [h1]; exact hb
    · rw [h1]
      have := randomFactor_bounds w w.randomCalls (hr _)
      apply mul_nonneg
      · exact le_min hb (by norm_num)
      · linarith [this.1]

/-- The capped backoff times a random factor is below 20000. -/
theorem capped_backoff_lt (w : World) (b : ℚ) (k : Nat)
    (hr : 0 ≤ w.random k ∧ w.random k < 1) :
    min b 10000 * randomFactor w k ≤ 10000 * randomFactor w k ∧
      min b 10000 * randomFactor w k < 20000 := by
  have hf := randomFactor_bounds w k hr
  have hle : min b 10000 * randomFactor w k ≤ 10000 * randomFactor w k :=
    mul_le_mul_of_nonneg_right (min_le_right _ _) (by linarith [hf.1])
  exact ⟨hle, by linarith [hf.2]⟩

theorem connectionFailedAll_backoff_lt (self : ConnId) (calls : List (Val × Int)) :
    ∀ w : World, (w.conns self).suspended = false →
      (∀ k, 0 ≤ w.random k ∧ w.random k < 1) →
      (w.conns self).backoff < 20000 →
      ((connectionFailedAll self calls w).conns self).backoff < 20000 := by
  induction calls with
  | nil => intro w _ _ hb; exact hb
  | cons c cs ih =>
    intro w hs hr hb
    obtain ⟨h2, h3, h1⟩ := connectionFailed_backoff_cases self c.1 c.2 w hs
    rw [connectionFailedAll]
    apply ih _ h2 (by rw [h3]; exact hr)
    rcases h1 with h1 | h1
    · rw [h1]; exact hb
    · rw [h1]; exact (capped_backoff_lt w _ _ (hr _)).2

/-- C3 (backoff cap), amended.  Starting from a backoff below 20000 (the initial
value is 1000), after any number of consecutive non-suspended `connectionFailed`
calls, with every `Math.random()` in `[0, 1)`, the backoff after one more call is
below 20000.  When that call runs to its end (its `msg` converts to a string,
and the transport is not a WebRTC transport whose `this.connection` is set, for
which `disconnect()` throws), the backoff it stores is the backoff carried into
the call, capped at 10000, times the call's random factor, hence at most 10000
times the factor: the cap applies to the value carried into the call, not to the
value stored. -/
theorem backoff_after_failure_bound (self : ConnId) (w : World) (calls : List (Val × Int))
    (msg : Val) (code : Int)
    (hb : (w.conns self).backoff < 20000)
    (hs : (w.conns self).suspended = false)
    (hr : ∀ k, 0 ≤ w.random k ∧ w.random k < 1) :
    ((DeviceConnection.connectionFailed self msg code
        (connectionFailedAll self calls w)).1.conns self).backoff < 20000 ∧
    (msg.stringThrows = false →
      (((connectionFailedAll self calls w).conns self).kind = ConnKind.webrtc →
        ((connectionFailedAll self calls w).conns self).connection = false) →
      ((DeviceConnection.connectionFailed self msg code
          (connectionFailedAll self calls w)).1.conns self).backoff
        = min ((connectionFailedAll self calls w).conns self).backoff 10000
            * randomFactor w (connectionFailedAll self calls w).randomCalls ∧
      ((DeviceConnection.connectionFailed self msg code
          (connectionFailedAll self calls w)).1.conns self).backoff
        ≤ 10000 * randomFactor w (connectionFailedAll self calls w).randomCalls) := by
  obtain ⟨i1, i2⟩ := connectionFailedAll_invariant self calls w hs
  have hlt := connectionFailedAll_backoff_lt self calls w hs hr hb
  have hrf : randomFactor (connectionFailedAll self calls w)
      (connectionFailedAll self calls w).randomCalls
      = randomFactor w (connectionFailedAll self calls w).randomCalls := by
    unfold randomFactor; rw [i2]
  constructor
  · obtain ⟨_, _, h1⟩ := connectionFailed_backoff_cases self msg code _ i1
    rcases h1 with h1 | h1
    · rw [h1]; exact hlt
    · rw [h1, hrf]; exact (capped_backoff_lt w _ _ (hr _)).2
  · intro hm hc
    obtain ⟨h1, _⟩ := connectionFailed_backoff self msg code _ i1 hm hc
    rw [hrf] at h1
    exact ⟨h1, by rw [h1]; exact (capped_backoff_lt w _ _ (hr _)).1⟩

theorem connectionFailedAll_snoc (self : ConnId) (calls : List (Val × Int)) (c : Val × Int) :
    ∀ w : World, connectionFailedAll self (calls ++ [c]) w
      = (DeviceConnection.connectionFailed self c.1 c.2 (connectionFailedAll self calls w)).1 := by
  induction calls with
  | nil => intro w; rfl
  | cons d ds ih => intro w; rw [List.cons_append, connectionFailedAll, ih]; rfl

theorem backoff_snoc (self : ConnId) (calls : List (Val × Int)) (c : Val × Int) (w : World)
    (hs : (w.conns self).suspended = false) (hk : (w.conns self).kind = ConnKind.other)
    (hm : ∀ d ∈ calls ++ [c], d.1.stringThrows = false) :
    ((connectionFailedAll self (calls ++ [c]) w).conns self).backoff
      = min ((connectionFailedAll self calls w).conns self).backoff 10000
          * randomFactor w (w.randomCalls + calls.length) := by
  obtain ⟨i1, i2, i3, i4⟩ := connectionFailedAll_other self calls
    (fun d hd => hm d (List.mem_append_left _ hd)) w hs hk
  rw [connectionFailedAll_snoc,
    (connectionFailed_backoff self c.1 c.2 _ i1 (hm c (by simp))
      (fun h => by rw [i4] at h; cases h)).1]
  unfold randomFactor
  rw [i2, i3]

/-- C3 (backoff cap) fails as stated: starting from backoff 1000, four
non-suspended failures with `Math.random() = 0.8` (factor 1.9) leave the backoff
at 13032.1, above 10000. -/
theorem backoff_cap_counterexample :
    (∀ k, 0 ≤ worldRandomHigh.random k ∧ worldRandomHigh.random k < 1) ∧
    (worldRandomHigh.conns 0).suspended = false ∧
    (worldRandomHigh.conns 0).backoff = 1000 ∧
    ¬ ((connectionFailedAll 0 fourFailures worldRandomHigh).conns 0).backoff ≤ 10000 := by
  refine ⟨fun k => by norm_num [worldRandomHigh], rfl, rfl, ?_⟩
  have e : ((connectionFailedAll 0 fourFailures worldRandomHigh).conns 0).backoff
      = 130321 / 10 := by
    have hl : fourFailures = [] ++ [(Val.str "ICE failed", 1000)] ++ [(Val.str "ICE failed", 1000)]
        ++ [(Val.str "ICE failed", 1000)] ++ [(Val.str "ICE failed", 1000)] := rfl
    rw [hl, backoff_snoc _ _ _ _ rfl rfl (by decide), backoff_snoc _ _ _ _ rfl rfl (by decide),
      backoff_snoc _ _ _ _ rfl rfl (by decide), backoff_snoc _ _ _ _ rfl rfl (by decide)]
    simp only [connectionFailedAll, randomFactor, worldRandomHigh]
    norm_num
  rw [e]; norm_num

/-- C4 (backoff monotonicity), amended.  Starting from a non-negative backoff (in
particular 1000), after any number of consecutive non-suspended failures the
backoff after the next failure is at least the smaller of the current backoff
and 15000: the backoff does not decrease while it is at most 15000, and once it
has passed the cap it stays at 15000 or above. -/
theorem backoff_min_le_next (self : ConnId) (w : World) (calls : List (Val × Int))
    (msg : Val) (code : Int)
    (hb : 0 ≤ (w.conns self).backoff)
    (hs : (w.conns self).suspended = false)
    (hr : ∀ k, 0 ≤ w.random k ∧ w.random k < 1) :
    min ((connectionFailedAll self calls w).conns self).backoff 15000
      ≤ ((DeviceConnection.connectionFailed self msg code
          (connectionFailedAll self calls w)).1.conns self).backoff := by
  obtain ⟨i1, i2⟩ := connectionFailedAll_invariant self calls w hs
  have hnn := connectionFailedAll_backoff_nonneg self calls w hs hr hb
  obtain ⟨_, _, h1⟩ := connectionFailed_backoff_cases self msg code _ i1
  have hf := randomFactor_bounds (connectionFailedAll self calls w)
    (connectionFailedAll self calls w).randomCalls (by rw [i2]; exact hr _)
  rcases h1 with h1 | h1
  · rw [h1]; exact min_le_left _ _
  · rw [h1]
    rcases le_total ((connectionFailedAll self calls w).conns self).backoff 10000 with h | h
    · rw [min_eq_left h]
      calc min ((connectionFailedAll self calls w).conns self).backoff 15000
          ≤ ((connectionFailedAll self calls w).conns self).backoff := min_le_left _ _
        _ ≤ _ := by nlinarith [hf.1]
    · rw [min_eq_right h]
      calc min ((connectionFailedAll self calls w).conns self).backoff 15000
          ≤ 15000 := min_le_right _ _
        _ ≤ _ := by nlinarith [hf.1]

/-- C4 (backoff monotonicity) fails as stated: starting from backoff 1000, five
failures with `Math.random() = 0.8` leave the backoff at 19000, and a sixth
failure with `Math.random() = 0` sets it to 15000, which is smaller. -/
theorem backoff_monotone_counterexample :
    (∀ k, 0 ≤ worldRandomDrop.random k ∧ worldRandomDrop.random k < 1) ∧
    (worldRandomDrop.conns 0).suspended = false ∧
    (worldRandomDrop.conns 0).backoff = 1000 ∧
    ((DeviceConnection.connectionFailed 0 (Val.str "ICE failed") 1000
        (connectionFailedAll 0 fiveFailures worldRandomDrop)).1.conns 0).backoff
      < ((connectionFailedAll 0 fiveFailures worldRandomDrop).conns 0).backoff := by
  refine ⟨fun k => ?_, rfl, rfl, ?_⟩
  · simp only [worldRandomDrop]; split <;> norm_num
  · have e5 : ((connectionFailedAll 0 fiveFailures worldRandomDrop).conns 0).backoff = 19000 := by
      have hl : fiveFailures = [] ++ [(Val.str "ICE failed", 1000)]
          ++ [(Val.str "ICE failed", 1000)] ++ [(Val.str "ICE failed", 1000)]
          ++ [(Val.str "ICE failed", 1000)] ++ [(Val.str "ICE failed", 1000)] := rfl
      rw [hl, backoff_snoc _ _ _ _ rfl rfl (by decide), backoff_snoc _ _ _ _ rfl rfl (by decide),
        backoff_snoc _ _ _ _ rfl rfl (by decide), backoff_snoc _ _ _ _ rfl rfl (by decide),
        backoff_snoc _ _ _ _ rfl rfl (by decide)]
      simp only [connectionFailedAll, randomFactor, worldRandomDrop]
      norm_num
    have e6 : ((DeviceConnection.connectionFailed 0 (Val.str "ICE failed") 1000
        (connectionFailedAll 0 fiveFailures worldRandomDrop)).1.conns 0).backoff = 15000 := by
      have := backoff_snoc 0 fiveFailures (Val.str "ICE failed", 1000) worldRandomDrop rfl rfl
        (by decide)
      rw [connectionFailedAll_snoc] at this
      rw [this, e5]
      simp only [randomFactor, worldRandomDrop, fiveFailures]
      norm_num
    rw [e5, e6]; norm_num

/-! ## Login handshake -/

theorem established_conns (self : ConnId) (w : World) :
    (DeviceConnection.established self w).1.conns
      = (w.modConn self (fun d => { d with loggedin := true })).conns := by
  unfold DeviceConnection.established
  simp only [andThen]
  split <;> simp

theorem input_login_conns (self : ConnId) (w : World) (msg : Msg)
    (hl : (w.conns self).loggedin = false) (hop : msg.op = "loginresponse")
    (herr : msg.error.truthy = false) :
    (DeviceConnection.input self (Data.text msg) w).1.conns
      = (w.modConn self (fun d => { d with loggedin := true })).conns := by
  unfold DeviceConnection.input
  simp only [hl, hop, herr, andThen, updateState]
  simp only [Bool.not_false, if_true, ne_eq, not_true_eq_false, if_false, Bool.false_eq_true]
  rw [established_conns]
  simp only [World.modConn]
  split <;> split <;> rfl

theorem connected_conns (self : ConnId) (w : World) :
    (DeviceConnection.connected self w).1.conns
      = ((w.modConn self (fun d => { d with backoff := 1000 })).modConn self
          (fun d => { d with inflight := 0 })).conns := by
  unfold DeviceConnection.connected
  simp only [andThen, updateState, DeviceConnection.login]
  split <;> rfl

/-- C5 (backoff reset on authentication), amended.  Processing a successful login
acknowledgment marks the transport logged in and leaves its backoff unchanged;
the reset to 1000 is made by `connected()`, when the link opens and before the
login request is sent, so an acknowledgment processed right after `connected()`
finds and leaves the backoff at 1000. -/
theorem login_ack_keeps_backoff (self : ConnId) (w : World) (msg : Msg)
    (hl : (w.conns self).loggedin = false) (hop : msg.op = "loginresponse")
    (herr : msg.error.truthy = false) :
    ((DeviceConnection.input self (Data.text msg) w).1.conns self).loggedin = true ∧
    ((DeviceConnection.input self (Data.text msg) w).1.conns self).backoff
      = (w.conns self).backoff ∧
    ((DeviceConnection.connected self w).1.conns self).backoff = 1000 ∧
    ((DeviceConnection.input self (Data.text msg)
        (DeviceConnection.connected self w).1).1.conns self).backoff = 1000 := by
  have hc : ((DeviceConnection.connected self w).1.conns self).loggedin = false := by
    rw [connected_conns]; simpa using hl
  refine ⟨?_, ?_, ?_, ?_⟩
  · rw [input_login_conns self w msg hl hop herr]; simp
  · rw [input_login_conns self w msg hl hop herr]; simp
  · rw [connected_conns]; simp
  · rw [input_login_conns self _ msg hc hop herr, modConn_conns_self, connected_conns]; simp

/-- A successful acknowledgment on a transport whose backoff is 5000. -/
theorem login_ack_keeps_backoff_witness :
    ((DeviceConnection.input 0 (Data.text loginOk) worldAwaitingLogin).1.conns 0).loggedin = true ∧
    ((DeviceConnection.input 0 (Data.text loginOk) worldAwaitingLogin).1.conns 0).backoff
      = (worldAwaitingLogin.conns 0).backoff ∧
    ((DeviceConnection.connected 0 worldAwaitingLogin).1.conns 0).backoff = 1000 ∧
    ((DeviceConnection.input 0 (Data.text loginOk)
        (DeviceConnection.connected 0 worldAwaitingLogin).1).1.conns 0).backoff = 1000 :=
  login_ack_keeps_backoff 0 worldAwaitingLogin loginOk rfl rfl rfl

/-- C5 (backoff reset on authentication) fails as stated: a transport with
backoff 5000 that processes a successful login acknowledgment becomes logged in
and still has backoff 5000. -/
theorem login_ack_backoff_counterexample :
    (worldAwaitingLogin.conns 0).loggedin = false ∧
    loginOk.op = "loginresponse" ∧ loginOk.error.truthy = false ∧
    ((DeviceConnection.input 0 (Data.text loginOk) worldAwaitingLogin).1.conns 0).loggedin = true ∧
    ((DeviceConnection.input 0 (Data.text loginOk) worldAwaitingLogin).1.conns 0).backoff
      ≠ 1000 := by
  refine ⟨rfl, rfl, rfl, ?_, ?_⟩
  · rw [input_login_conns 0 worldAwaitingLogin loginOk rfl rfl rfl]; simp
  · rw [input_login_conns 0 worldAwaitingLogin loginOk rfl rfl rfl]
    simp only [modConn_conns_self, worldAwaitingLogin]
    norm_num

/-! ## Requests, handshake violations and unknown ids -/

/-- An `rpc` request for a method without handler: the error reply is sent
exactly when `rpcid` is undefined. -/
theorem rpc_unknown_method (self : ConnId) (msg : Msg) (w : World)
    (hm : w.vs.rpcmethods msg.method = none) :
    DeviceConnection.rpc self msg w
      = (w, if msg.rpcid = none
            then [Effect.send self
                    (OutMsg.rpcreplyError none ("Not a valid RPC method: " ++ msg.method))]
            else []) := by
  unfold DeviceConnection.rpc
  simp only [hm, DeviceConnection.rpcError]
  split
  · next h => rw [h]
  · rfl

/-- C7 (unknown RPC method) at the failing inputs.  No handler is registered for
`nosuch`.  The request with `rpcid` 7, which expects a reply, gets no reply at
all; the request without `rpcid`, which expects none, makes the transport send an
`rpcreply` error whose `rpcid` is undefined.  The test `rpcid === undefined` in
`rpc` is the inverse of what the claim states. -/
theorem rpc_unknown_method_reply_inverted :
    worldLoggedIn.vs.rpcmethods unknownCall.method = none ∧
    unknownCall.rpcid = some 7 ∧
    (DeviceConnection.input 0 (Data.text unknownCall) worldLoggedIn).2 = [] ∧
    unknownNotify.rpcid = none ∧
    (DeviceConnection.input 0 (Data.text unknownNotify) worldLoggedIn).2
      = [Effect.send 0 (OutMsg.rpcreplyError none "Not a valid RPC method: nosuch")] := by
  refine ⟨rfl, rfl, ?_, rfl, ?_⟩
  · have : DeviceConnection.input 0 (Data.text unknownCall) worldLoggedIn
        = DeviceConnection.rpc 0 unknownCall worldLoggedIn := by
      simp [DeviceConnection.input, worldLoggedIn, unknownCall, mutationOps]
    rw [this, rpc_unknown_method 0 unknownCall worldLoggedIn rfl]
    rfl
  · have : DeviceConnection.input 0 (Data.text unknownNotify) worldLoggedIn
        = DeviceConnection.rpc 0 unknownNotify worldLoggedIn := by
      simp [DeviceConnection.input, worldLoggedIn, unknownNotify, mutationOps]
    rw [this, rpc_unknown_method 0 unknownNotify worldLoggedIn rfl]
    rfl

/-- C8 (handshake violation), amended.  On a transport that is not logged in, a
text message whose `op` is not `loginresponse` is dropped: the world is
unchanged (the transport stays as active as it was, the backoff is untouched, no
primary re-selection) and nothing is called or sent. -/
theorem unexpected_first_message_ignored (self : ConnId) (w : World) (msg : Msg)
    (hl : (w.conns self).loggedin = false) (hop : msg.op ≠ "loginresponse") :
    DeviceConnection.input self (Data.text msg) w = (w, []) := by
  unfold DeviceConnection.input
  simp [hl, hop]

/-- An `rpc` message received before the login acknowledgment. -/
theorem unexpected_first_message_ignored_witness :
    DeviceConnection.input 0 (Data.text unknownCall) worldAwaitingLogin
      = (worldAwaitingLogin, []) :=
  unexpected_first_message_ignored 0 worldAwaitingLogin unknownCall rfl (by decide)

theorem connectionFailed_effects_ne_nil (self : ConnId) (msg : Val) (code : Int) (w : World) :
    (DeviceConnection.connectionFailed self msg code w).2 ≠ [] := by
  unfold DeviceConnection.connectionFailed
  simp [andThen, updateState]

/-- C8 (handshake violation) fails as stated: an active transport awaiting the
login acknowledgment receives an `rpc` message; it stays active, its backoff is
unchanged, no call is made, and the outcome differs from that of every
`connectionFailed(msg, code)`. -/
theorem handshake_violation_counterexample :
    (worldAwaitingLogin.conns 0).loggedin = false ∧
    unknownCall.op ≠ "loginresponse" ∧
    ((DeviceConnection.input 0 (Data.text unknownCall) worldAwaitingLogin).1.conns 0).active
      = true ∧
    ((DeviceConnection.input 0 (Data.text unknownCall) worldAwaitingLogin).1.conns 0).backoff
      = (worldAwaitingLogin.conns 0).backoff ∧
    (DeviceConnection.input 0 (Data.text unknownCall) worldAwaitingLogin).2 = [] ∧
    ∀ (msg : Val) (code : Int),
      DeviceConnection.input 0 (Data.text unknownCall) worldAwaitingLogin
        ≠ DeviceConnection.connectionFailed 0 msg code worldAwaitingLogin := by
  have h : DeviceConnection.input 0 (Data.text unknownCall) worldAwaitingLogin
      = (worldAwaitingLogin, []) := by
    unfold DeviceConnection.input
    simp [worldAwaitingLogin, unknownCall]
  refine ⟨rfl, by decide, ?_, ?_, ?_, ?_⟩
  · rw [h]; rfl
  · rw [h]
  · rw [h]
  · intro msg code hEq
    have := connectionFailed_effects_ne_nil 0 msg code worldAwaitingLogin
    rw [← hEq, h] at this
    exact this rfl

/-- C9 (rejected login).  On a transport that is not logged in, a `loginresponse`
whose `error` is truthy makes exactly one call,
`updateState('localstate', 'authstatus', 'badlogin')`, and leaves the world
unchanged: `loggedin` stays false, the session token and `sendq` are unchanged,
and no message is sent. -/
theorem rejected_login_sets_badlogin (self : ConnId) (w : World) (msg : Msg)
    (hl : (w.conns self).loggedin = false) (hop : msg.op = "loginresponse")
    (herr : msg.error.truthy = true) :
    (DeviceConnection.input self (Data.text msg) w).2
        = [Effect.updateState "localstate" "authstatus" (Val.str "badlogin")] ∧
      (DeviceConnection.input self (Data.text msg) w).1 = w ∧
      ((DeviceConnection.input self (Data.text msg) w).1.conns self).loggedin = false ∧
      (DeviceConnection.input self (Data.text msg) w).1.vs.token = w.vs.token ∧
      (DeviceConnection.input self (Data.text msg) w).1.vs.sendq = w.vs.sendq ∧
      ∀ c m, Effect.send c m ∉ (DeviceConnection.input self (Data.text msg) w).2 := by
  have h : DeviceConnection.input self (Data.text msg) w
      = (w, [Effect.updateState "localstate" "authstatus" (Val.str "badlogin")]) := by
    unfold DeviceConnection.input
    simp [hl, hop, herr, updateState]
  rw [h]
  exact ⟨rfl, rfl, hl, rfl, rfl, by simp⟩

/-- A `loginresponse` with the error `bad token`. -/
theorem rejected_login_sets_badlogin_witness :
    (DeviceConnection.input 0 (Data.text loginBad) worldAwaitingLogin).2
        = [Effect.updateState "localstate" "authstatus" (Val.str "badlogin")] ∧
      (DeviceConnection.input 0 (Data.text loginBad) worldAwaitingLogin).1 = worldAwaitingLogin ∧
      ((DeviceConnection.input 0 (Data.text loginBad) worldAwaitingLogin).1.conns 0).loggedin
        = false ∧
      (DeviceConnection.input 0 (Data.text loginBad) worldAwaitingLogin).1.vs.token
        = worldAwaitingLogin.vs.token ∧
      (DeviceConnection.input 0 (Data.text loginBad) worldAwaitingLogin).1.vs.sendq
        = worldAwaitingLogin.vs.sendq ∧
      ∀ c m, Effect.send c m
        ∉ (DeviceConnection.input 0 (Data.text loginBad) worldAwaitingLogin).2 :=
  rejected_login_sets_badlogin 0 worldAwaitingLogin loginBad rfl rfl (by decide)

/-- Unknown ids that are dropped silently.  On a logged-in transport, a binary
chunk (opcode 1 or 2) whose decoded call id is not in `rpc_pending`, or a
mutation message (`additem`, `delitem`, `moveitem`, `updatefield`, `subsync`)
whose `subid` is neither among the transport's subscriptions nor the name of a
property inherited from `Object.prototype`, leaves the whole world unchanged
(`rpc_pending`, `sendq`, subscriptions, every transport field) and calls
nothing: no continuation, no handler, no send. -/
theorem unknown_ids_are_noops (self : ConnId) (w : World) (data : Data)
    (hl : (w.conns self).loggedin = true)
    (h : (∃ u8, data = Data.binary u8 ∧ (u8.head? = some 1 ∨ u8.head? = some 2) ∧
            w.vs.rpc_pending (readInt32 u8 1) = none) ∨
         (∃ msg, data = Data.text msg ∧ msg.op ∈ mutationOps ∧
            msg.subid ∉ (w.conns self).subscriptions ∧ msg.subid ∉ objectPrototypeKeys)) :
    DeviceConnection.input self data w = (w, []) := by
  rcases h with ⟨u8, rfl, hop, hp⟩ | ⟨msg, rfl, hop, hsub, hinh⟩
  · unfold DeviceConnection.input
    rcases hop with hop | hop <;>
      simp [hl, hop, DeviceConnection.inputChunk, hp]
  · unfold DeviceConnection.input
    simp [hl, hop, hsub, hinh]

/-- A mutation message whose `subid` is not among the transport's subscriptions
but names a property inherited from `Object.prototype`: the lookup gives the
inherited value, the call of its `input` throws, and the world is unchanged. -/
theorem inherited_subid_throws (self : ConnId) (w : World) (msg : Msg)
    (hl : (w.conns self).loggedin = true) (hop : msg.op ∈ mutationOps)
    (hsub : msg.subid ∉ (w.conns self).subscriptions)
    (hinh : msg.subid ∈ objectPrototypeKeys) :
    DeviceConnection.input self (Data.text msg) w = (w, [Effect.throw "TypeError"]) := by
  unfold DeviceConnection.input
  simp [hl, hop, hsub, hinh]

/-- C10 (unknown ids are no-ops) at the failing input.  Transport 0 is logged in
and its only subscription is `s1`.  The mutation message
`{op: 'additem', subid: 'constructor'}` names no subscription of the transport,
yet `input` does not drop it silently: `subscriptions['constructor']` is the
inherited `Object`, the guard `if (sub)` passes, and `sub.input(msg)` throws a
`TypeError` out of `input`.  The world is unchanged. -/
theorem unknown_subid_constructor_throws :
    (worldLoggedIn.conns 0).loggedin = true ∧
    inheritedMutation.op ∈ mutationOps ∧
    inheritedMutation.subid ∉ (worldLoggedIn.conns 0).subscriptions ∧
    DeviceConnection.input 0 (Data.text inheritedMutation) worldLoggedIn
      = (worldLoggedIn, [Effect.throw "TypeError"]) :=
  ⟨rfl, by decide, by decide,
    inherited_subid_throws 0 worldLoggedIn inheritedMutation rfl (by decide) (by decide)
      (by decide)⟩

/-! ## Outbound queue -/

theorem modConn_conns (w : World) (self c : ConnId) (f : DeviceConnection → DeviceConnection) :
    (w.modConn self f).conns c = if c = self then f (w.conns self) else w.conns c := by
  unfold World.modConn
  by_cases h : c = self
  · subst h; simp
  · simp [h, Function.update_noteq h]

theorem modConn_loggedin (w : World) (self c : ConnId) (f : DeviceConnection → DeviceConnection)
    (hf : ∀ d, (f d).loggedin = d.loggedin) :
    ((w.modConn self f).conns c).loggedin = (w.conns c).loggedin := by
  rw [modConn_conns]
  split
  · next h => rw [hf, h]
  · rfl

@[simp] theorem mathRandom_conns (w : World) : w.mathRandom.1.conns = w.conns := rfl

@[simp] theorem mathRandom_vs (w : World) : w.mathRandom.1.vs = w.vs := rfl

@[simp] theorem growBackoff_vs (self : ConnId) (w : World) :
    (DeviceConnection.growBackoff self w).vs = w.vs := by
  unfold DeviceConnection.growBackoff World.mathRandom
  simp only
  split <;> rfl

@[simp] theorem cancelReconnect_vs (self : ConnId) (w : World) :
    (DeviceConnection.cancelReconnect self w).vs = w.vs := by
  unfold DeviceConnection.cancelReconnect
  simp only
  split <;> split <;> simp

@[simp] theorem scheduleReconnect_vs (self : ConnId) (retry : Bool) (w : World) :
    (DeviceConnection.scheduleReconnect self retry w).vs = w.vs := by
  unfold DeviceConnection.scheduleReconnect
  split <;> simp

@[simp] theorem disconnect_vs (self : ConnId) (w : World) :
    (DeviceConnection.disconnect self w).2.1.vs = w.vs := by
  rcases disconnect_world self w with h | h <;> rw [h]
  simp

@[simp] theorem growBackoff_loggedin (self c : ConnId) (w : World) :
    ((DeviceConnection.growBackoff self w).conns c).loggedin = (w.conns c).loggedin := by
  unfold DeviceConnection.growBackoff
  simp only
  split <;> simp [modConn_loggedin]

@[simp] theorem cancelReconnect_loggedin (self c : ConnId) (w : World) :
    ((DeviceConnection.cancelReconnect self w).conns c).loggedin = (w.conns c).loggedin := by
  unfold DeviceConnection.cancelReconnect
  simp only
  split <;> split <;> simp [modConn_loggedin]

@[simp] theorem scheduleReconnect_loggedin (self c : ConnId) (retry : Bool) (w : World) :
    ((DeviceConnection.scheduleReconnect self retry w).conns c).loggedin
      = (w.conns c).loggedin := by
  unfold DeviceConnection.scheduleReconnect
  split
  · simp [modConn_loggedin]
  · rfl

@[simp] theorem disconnect_loggedin (self c : ConnId) (w : World) :
    ((DeviceConnection.disconnect self w).2.1.conns c).loggedin = (w.conns c).loggedin := by
  rcases disconnect_world self w with h | h <;> rw [h]
  simp [modConn_loggedin]

theorem bestConnection_none (w : World)
    (h : ∀ c ∈ w.vs.transports, (w.conns c).loggedin = false) : bestConnection w = none := by
  unfold bestConnection
  generalize w.vs.transports = ts at h
  induction ts with
  | nil => rfl
  | cons t ts ih =>
    rw [List.foldl_cons]
    have ht : (w.conns t).loggedin = false := h t (List.mem_cons_self _ _)
    simp only [ht, Bool.false_eq_true, if_false]
    exact ih (fun c hc => h c (List.mem_cons_of_mem _ hc))

theorem selectPrimaryConnection_of_loggedOut (w : World)
    (h : ∀ c ∈ w.vs.transports, (w.conns c).loggedin = false) :
    selectPrimaryConnection w
      = (w.modVs (fun vs => { vs with primaryConnection := none }), []) := by
  unfold selectPrimaryConnection
  rw [bestConnection_none w h]

theorem modConn_loggedin_false (w : World) (self c : ConnId)
    (h : (w.conns c).loggedin = false) :
    ((w.modConn self (fun d => { d with loggedin := false })).conns c).loggedin = false := by
  rw [modConn_conns]
  split
  · rfl
  · exact h

theorem vs_primary_none_eta (vs : ViewShare) (h : vs.primaryConnection = none) :
    { vs with primaryConnection := none } = vs := by
  cases vs
  simp only at h
  subst h
  rfl

theorem connectionFailed_of_loggedOut (self : ConnId) (msg : Val) (code : Int) (w : World)
    (hp : w.vs.primaryConnection = none)
    (h : ∀ c ∈ w.vs.transports, (w.conns c).loggedin = false) :
    (DeviceConnection.connectionFailed self msg code w).1.vs = w.vs ∧
      ∀ c ∈ w.vs.transports,
        ((DeviceConnection.connectionFailed self msg code w).1.conns c).loggedin = false := by
  have he : ({ w.vs with primaryConnection := none } : ViewShare) = w.vs :=
    vs_primary_none_eta _ hp
  rcases connectionFailed_paths self msg w with
    hs | ⟨hs, hm⟩ | ⟨hs, hm, hk, hc⟩ | ⟨hs, hm, retry, effects, hd⟩
  · unfold DeviceConnection.connectionFailed
    simp only [andThen, updateState, modConn_conns_self, hs, if_true]
    rw [selectPrimaryConnection_of_loggedOut]
    · refine ⟨he, fun c hc => ?_⟩
      simp [modConn_loggedin, modConn_loggedin_false _ _ _ (h c hc)]
    · intro c hc
      simp [modConn_loggedin, modConn_loggedin_false _ _ _ (h c hc)]
  · rw [connectionFailed_log_thrown self msg code w hs hm]
    exact ⟨rfl, fun c hc2 => modConn_loggedin_false _ _ _ (h c hc2)⟩
  · rw [connectionFailed_thrown self msg code w hs hm hk hc]
    refine ⟨rfl, fun c hc2 => ?_⟩
    simp [modConn_loggedin, modConn_loggedin_false _ _ _ (h c hc2)]
  · rw [connectionFailed_completed self msg code w retry effects hs hm hd]
    simp only [scheduleReconnect_vs, modConn_vs, cancelReconnect_vs, growBackoff_vs,
      scheduleReconnect_loggedin, cancelReconnect_loggedin, growBackoff_loggedin]
    rw [selectPrimaryConnection_of_loggedOut]
    · refine ⟨by simpa using he, fun c hc => ?_⟩
      simp [modConn_loggedin, modConn_loggedin_false _ _ _ (h c hc)]
    · intro c hc
      simp [modConn_loggedin, modConn_loggedin_false _ _ _ (h c (by simpa using hc))]

theorem connect_of_loggedOut (self : ConnId) (w : World)
    (hp : w.vs.primaryConnection = none)
    (h : ∀ c ∈ w.vs.transports, (w.conns c).loggedin = false) :
    (DeviceConnection.connect self w).1.vs = w.vs ∧
      ∀ c ∈ w.vs.transports, ((DeviceConnection.connect self w).1.conns c).loggedin = false := by
  unfold DeviceConnection.connect
  split
  · split
    · refine ⟨rfl, fun c hc => ?_⟩
      simp [modConn_loggedin, h c hc]
    · split
      · exact connectionFailed_of_loggedOut self (Val.str "No login token") 1001 w hp h
      · exact ⟨rfl, h⟩
  · exact ⟨rfl, h⟩

theorem start_of_loggedOut (self : ConnId) (w : World)
    (hp : w.vs.primaryConnection = none)
    (h : ∀ c ∈ w.vs.transports, (w.conns c).loggedin = false) :
    (DeviceConnection.start self w).1.vs = w.vs ∧
      ∀ c ∈ w.vs.transports, ((DeviceConnection.start self w).1.conns c).loggedin = false := by
  unfold DeviceConnection.start
  split
  · exact ⟨rfl, h⟩
  · simp only [andThen, updateState]
    split
    · have := connect_of_loggedOut self
        (((((w.modConn self fun d => { d with suspended := false }).modConn self
            fun d => { d with active := true }).clearTimer
              (((w.modConn self fun d => { d with suspended := false }).modConn self
                fun d => { d with active := true }).conns self).reconnectTimer).clearTimer
              ((((w.modConn self fun d => { d with suspended := false }).modConn self
                fun d => { d with active := true }).clearTimer
                  (((w.modConn self fun d => { d with suspended := false }).modConn self
                    fun d => { d with active := true }).conns self).reconnectTimer).conns
                      self).reconnectCountdownTimer).modConn self
                fun d => { d with reconnectTimer := none })
        (by simpa using hp) (by intro c hc; simp [modConn_loggedin, h c (by simpa using hc)])
      refine ⟨by rw [this.1]; simp, fun c hc => this.2 c (by simpa using hc)⟩
    · have := connect_of_loggedOut self
        ((w.modConn self fun d => { d with suspended := false }).modConn self
            fun d => { d with active := true })
        (by simpa using hp) (by intro c hc; simp [modConn_loggedin, h c (by simpa using hc)])
      refine ⟨by rw [this.1]; simp, fun c hc => this.2 c (by simpa using hc)⟩

theorem send_of_loggedOut (m : OutMsg) (w : World)
    (hp : w.vs.primaryConnection = none)
    (h : ∀ c ∈ w.vs.transports, (w.conns c).loggedin = false) :
    (ViewShare.send m w).1.vs = { w.vs with sendq := w.vs.sendq ++ [m] } ∧
      ∀ c ∈ w.vs.transports, ((ViewShare.send m w).1.conns c).loggedin = false := by
  unfold ViewShare.send
  rw [hp]
  simp only
  split
  · have := start_of_loggedOut (w.modVs fun vs => { vs with sendq := vs.sendq ++ [m] }).vs.connectionRV
      (w.modVs fun vs => { vs with sendq := vs.sendq ++ [m] }) (by simpa using hp)
      (by intro c hc; simpa using h c (by simpa using hc))
    exact ⟨by rw [this.1]; rfl, fun c hc => this.2 c (by simpa using hc)⟩
  · exact ⟨rfl, fun c hc => by simpa using h c hc⟩

theorem sendAll_of_loggedOut (msgs : List OutMsg) :
    ∀ w : World, w.vs.primaryConnection = none →
      (∀ c ∈ w.vs.transports, (w.conns c).loggedin = false) →
      (ViewShare.sendAll msgs w).1.vs = { w.vs with sendq := w.vs.sendq ++ msgs } := by
  induction msgs with
  | nil => intro w _ _; simp [ViewShare.sendAll]
  | cons m ms ih =>
    intro w hp h
    obtain ⟨h1, h2⟩ := send_of_loggedOut m w hp h
    simp only [ViewShare.sendAll, andThen]
    rw [ih _ (by rw [h1]; exact hp) (by intro c hc; rw [h1] at hc; exact h2 c hc), h1]
    simp

/-- When `established()` finds its transport selected as primary, the calls it
makes are the sends of the queue, in order, and the queue ends empty. -/
theorem established_flush (self : ConnId) (w : World)
    (hsel : (DeviceConnection.established self w).1.vs.primaryConnection = some self) :
    (DeviceConnection.established self w).2 = w.vs.sendq.map (Effect.send self) ∧
      (DeviceConnection.established self w).1.vs.sendq = [] := by
  unfold DeviceConnection.established at hsel ⊢
  simp only [andThen] at hsel ⊢
  unfold selectPrimaryConnection at hsel ⊢
  cases hb : bestConnection (w.modConn self fun d => { d with loggedin := true }) with
  | none => simp [hb] at hsel
  | some c =>
    simp only [hb] at hsel ⊢
    by_cases hcur : (w.modConn self fun d => { d with loggedin := true }).vs.primaryConnection
        = some c
    · simp only [hcur, if_true] at hsel ⊢
      by_cases hc : c = self
      · subst hc; simp
      · simp [hc] at hsel
        have hcur2 : w.vs.primaryConnection = some c := hcur
        rw [hcur2] at hsel
        exact absurd (Option.some.inj hsel) hc
    · simp only [hcur, if_false] at hsel ⊢
      by_cases hc : c = self
      · subst hc; simp
      · simp [hc] at hsel

/-- C6 (queue order).  From a world with no primary connection, no transport
logged in and an empty `sendq`, successive calls `ViewShare.send m1 .. mn` leave
`sendq = [m1, .., mn]` and still no primary.  When `established()` then runs, in
any world holding that queue, and finds its transport selected as primary, the
calls made are exactly `send(m1), .., send(mn)` on that transport, in the
original order, and `sendq` is empty afterwards. -/
theorem queued_messages_flushed_in_order (msgs : List OutMsg) (w w2 : World) (self : ConnId)
    (hp : w.vs.primaryConnection = none)
    (hq : w.vs.sendq = [])
    (hout : ∀ c ∈ w.vs.transports, (w.conns c).loggedin = false)
    (hw2 : w2.vs.sendq = (ViewShare.sendAll msgs w).1.vs.sendq)
    (hsel : (DeviceConnection.established self w2).1.vs.primaryConnection = some self) :
    (ViewShare.sendAll msgs w).1.vs.sendq = msgs ∧
      (ViewShare.sendAll msgs w).1.vs.primaryConnection = none ∧
      (DeviceConnection.established self w2).2 = msgs.map (Effect.send self) ∧
      (DeviceConnection.established self w2).1.vs.sendq = [] := by
  have h1 := sendAll_of_loggedOut msgs w hp hout
  have hs : (ViewShare.sendAll msgs w).1.vs.sendq = msgs := by rw [h1]; simp [hq]
  obtain ⟨e1, e2⟩ := established_flush self w2 hsel
  refine ⟨hs, by rw [h1]; exact hp, ?_, e2⟩
  rw [e1, hw2, hs]

/-! ## Chunking round trip and witnesses -/

/-- Chunking round trip for a non-empty payload.  On a logged-in transport, for
a call id below `2^31` that is pending without reassembly buffer and a payload of
length between 1 and `2^31 - 1`, feeding the frames of the sender loop to `input`,
in order, cancels the call's timer, resolves the continuation exactly once with
the original payload and removes the call id from `rpc_pending`; nothing else
changes. -/
theorem chunking_round_trip (self : ConnId) (w : World) (pc : PendingCall) (id : Int)
    (reply : List Nat)
    (hlog : (w.conns self).loggedin = true)
    (hid0 : 0 ≤ id) (hid1 : id < 2147483648)
    (hL1 : 1 ≤ reply.length) (hL : reply.length < 2147483648)
    (hp : w.vs.rpc_pending id = some pc) (hacc : pc.accbuf = none) :
    DeviceConnection.inputs self ((rpcFrames id reply).map Data.binary) w
        = ((w.clearTimer pc.timer).setPending id none,
            [Effect.resolve id (Resolved.buffer reply)]) ∧
      (DeviceConnection.inputs self ((rpcFrames id reply).map Data.binary) w).1.vs.rpc_pending id
        = none := by
  have h := inputs_rpcFramesFrom self id reply hid0 hid1 hL reply.length 0 w pc
    (by simp only [MAX_CHUNK_SIZE]; omega) (by omega) hlog hp (Or.inl ⟨hacc, rfl⟩)
  unfold rpcFrames
  rw [h]
  exact ⟨rfl, setPending_get _ _ _⟩

/-- The round trip at the payload `[1, 2, 3]` for the pending call 7. -/
theorem chunking_round_trip_witness :
    DeviceConnection.inputs 0 ((rpcFrames 7 [1, 2, 3]).map Data.binary) worldLoggedIn
        = ((worldLoggedIn.clearTimer none).setPending 7 none,
            [Effect.resolve 7 (Resolved.buffer [1, 2, 3])]) ∧
      (DeviceConnection.inputs 0 ((rpcFrames 7 [1, 2, 3]).map Data.binary)
        worldLoggedIn).1.vs.rpc_pending 7 = none :=
  chunking_round_trip 0 worldLoggedIn {} 7 [1, 2, 3] rfl (by decide) (by decide) (by decide)
    (by decide) rfl rfl

/-- Chunks after a first chunk that did not fit.  The call 7 is pending.  A first
chunk announces a total length of 2 and carries three bytes: the buffer is
allocated, `set` throws a `RangeError`, and `offset` stays undefined.  The next
chunk `[5]` is written at position 0 and `offset` becomes `NaN`; the last chunk
`[6]` is again written at position 0, and the call is resolved with `[6, 0]`. -/
theorem chunks_after_range_error :
    (DeviceConnection.inputs 0
        [Data.binary [2, 0, 0, 0, 7, 0, 0, 0, 2, 1, 2, 3],
         Data.binary [2, 0, 0, 0, 7, 0, 0, 0, 2, 5],
         Data.binary [1, 0, 0, 0, 7, 0, 0, 0, 2, 6]] worldLoggedIn).2
      = [Effect.throw "RangeError", Effect.resolve 7 (Resolved.buffer [6, 0])] := by
  rfl

/-- C1 (chunking round trip) at the failing input, a payload of length 0.  The
sender loop `for (offset = 0; offset < length; ...)` produces no frame for an
empty reply, so feeding its frames to `input` changes nothing and resolves
nothing: a pending call stays in `rpc_pending`, its continuation is not invoked.
The last conjunct evaluates `DeviceConnection.rpc` itself on a handler that
answers request 7 with an empty buffer: the handler is called and nothing is
sent. -/
theorem empty_buffer_reply_is_never_delivered (self : ConnId) (id : Int) (w : World) :
    rpcFrames id [] = [] ∧
      DeviceConnection.inputs self ((rpcFrames id []).map Data.binary) w = (w, []) ∧
      (DeviceConnection.rpc 0 { op := "rpc", method := "snap", rpcid := some 7 }
          { vs := { rpcmethods := fun _ => some (fun _ => Reply.buffer []) } }).2
        = [Effect.callHandler "snap" Val.undefined] := by
  refine ⟨rfl, rfl, ?_⟩
  simp [DeviceConnection.rpc, andThen, rpcFrames, rpcFramesFrom]

/-- The framing of the reply `[1, 2, 3]` to the request 7 for the method `snap`. -/
theorem rpc_sender_framing_witness :
    ∃ frames : List (List Nat),
      (DeviceConnection.rpc 0 snapCall worldWithHandler).2
        = Effect.callHandler snapCall.method snapCall.args
            :: frames.map (fun out => Effect.send 0 (OutMsg.frame out)) ∧
      frames ≠ [] ∧
      frames.length = (([1, 2, 3] : List Nat).length + 15999) / 16000 ∧
      (∀ i out, frames[i]? = some out →
        out.take 1 = [if i + 1 < frames.length then 2 else 1] ∧
        (∀ b ∈ out.take 9, b < 256) ∧
        Int.ofNat (bigEndianValue ((out.drop 1).take 4)) = 7 ∧
        bigEndianValue ((out.drop 5).take 4) = ([1, 2, 3] : List Nat).length ∧
        out.length = 9 + (out.drop 9).length ∧
        out.drop 9 = (([1, 2, 3] : List Nat).drop (i * 16000)).take 16000 ∧
        (i + 1 < frames.length → (out.drop 9).length = 16000) ∧
        (i + 1 = frames.length → 1 ≤ (out.drop 9).length ∧ (out.drop 9).length ≤ 16000)) ∧
      (frames.map (List.drop 9)).flatten = [1, 2, 3] :=
  rpc_sender_framing 0 snapCall worldWithHandler (fun _ => Reply.buffer [1, 2, 3]) [1, 2, 3] 7
    rfl rfl rfl (by decide) (by decide) (by decide) (by decide)

/-- Two messages queued in a fresh world, then flushed when transport 0
authenticates and becomes primary. -/
theorem queued_messages_flushed_in_order_witness :
    (ViewShare.sendAll twoMessages worldFresh).1.vs.sendq = twoMessages ∧
      (ViewShare.sendAll twoMessages worldFresh).1.vs.primaryConnection = none ∧
      (DeviceConnection.established 0 (ViewShare.sendAll twoMessages worldFresh).1).2
        = twoMessages.map (Effect.send 0) ∧
      (DeviceConnection.established 0 (ViewShare.sendAll twoMessages worldFresh).1).1.vs.sendq
        = [] :=
  queued_messages_flushed_in_order twoMessages worldFresh
    (ViewShare.sendAll twoMessages worldFresh).1 0 rfl rfl (by decide) rfl rfl

/-- A chunk for the call id 9, which is not pending, and a mutation for the
subscription `s9`, which the transport does not have. -/
theorem unknown_ids_are_noops_witness :
    DeviceConnection.input 0 (Data.binary [2, 0, 0, 0, 9, 0, 0, 0, 1, 5]) worldLoggedIn
        = (worldLoggedIn, []) ∧
      DeviceConnection.input 0 (Data.text strayMutation) worldLoggedIn = (worldLoggedIn, []) :=
  ⟨unknown_ids_are_noops 0 worldLoggedIn (Data.binary [2, 0, 0, 0, 9, 0, 0, 0, 1, 5]) rfl
      (Or.inl ⟨[2, 0, 0, 0, 9, 0, 0, 0, 1, 5], rfl, Or.inr rfl, by decide⟩),
    unknown_ids_are_noops 0 worldLoggedIn (Data.text strayMutation) rfl
      (Or.inr ⟨strayMutation, rfl, by decide, by decide, by decide⟩)⟩

/-- The bound at the fifth failure in a row, with `Math.random() = 0.8`. -/
theorem backoff_after_failure_bound_witness :
    ((DeviceConnection.connectionFailed 0 (Val.str "ICE failed") 1000
        (connectionFailedAll 0 fourFailures worldRandomHigh)).1.conns 0).backoff < 20000 ∧
    ((Val.str "ICE failed").stringThrows = false →
      (((connectionFailedAll 0 fourFailures worldRandomHigh).conns 0).kind = ConnKind.webrtc →
        ((connectionFailedAll 0 fourFailures worldRandomHigh).conns 0).connection = false) →
      ((DeviceConnection.connectionFailed 0 (Val.str "ICE failed") 1000
          (connectionFailedAll 0 fourFailures worldRandomHigh)).1.conns 0).backoff
        = min ((connectionFailedAll 0 fourFailures worldRandomHigh).conns 0).backoff 10000
            * randomFactor worldRandomHigh
                (connectionFailedAll 0 fourFailures worldRandomHigh).randomCalls ∧
      ((DeviceConnection.connectionFailed 0 (Val.str "ICE failed") 1000
          (connectionFailedAll 0 fourFailures worldRandomHigh)).1.conns 0).backoff
        ≤ 10000 * randomFactor worldRandomHigh
            (connectionFailedAll 0 fourFailures worldRandomHigh).randomCalls) :=
  backoff_after_failure_bound 0 worldRandomHigh fourFailures (Val.str "ICE failed") 1000
    (by norm_num [worldRandomHigh]) rfl (fun k => by norm_num [worldRandomHigh])

/-- The sixth failure in a row, after five with `Math.random() = 0.8`. -/
theorem backoff_min_le_next_witness :
    min ((connectionFailedAll 0 fiveFailures worldRandomDrop).conns 0).backoff 15000
      ≤ ((DeviceConnection.connectionFailed 0 (Val.str "ICE failed") 1000
          (connectionFailedAll 0 fiveFailures worldRandomDrop)).1.conns 0).backoff :=
  backoff_min_le_next 0 worldRandomDrop fiveFailures (Val.str "ICE failed") 1000
    (by norm_num [worldRandomDrop]) rfl
    (fun k => by simp only [worldRandomDrop]; split <;> norm_num)

/-! ## Replies, progress reports and flow control -/

@[simp] theorem clearTimer_timers_some (w : World) (h : TimerId) :
    (w.clearTimer (some h)).timers = w.timers.filter (fun t => t.id != h) := rfl

@[simp] theorem clearTimer_timers_none (w : World) : (w.clearTimer none).timers = w.timers := rfl

@[simp] theorem setPending_timers (w : World) (k : Int) (v : Option PendingCall) :
    (w.setPending k v).timers = w.timers := rfl

theorem input_rpcreply (self : ConnId) (w : World) (msg : Msg) (id : Int) (rpc : PendingCall)
    (hl : (w.conns self).loggedin = true) (hop : msg.op = "rpcreply")
    (hid : msg.rpcid = some id) (hp : w.vs.rpc_pending id = some rpc)
    (hconv : msg.error.stringThrows = false) :
    DeviceConnection.input self (Data.text msg) w
      = ((w.clearTimer rpc.timer).setPending id none,
          [if msg.error.truthy then Effect.reject id (Rejection.remote msg.error)
           else Effect.resolve id (Resolved.value msg.result)]) := by
  unfold DeviceConnection.input
  simp only [hl, hop, hid, hp, andThen]
  by_cases he : msg.error.truthy = true <;> simp [he, hconv, mutationOps]

/-- An `rpcreply` for a pending call whose `error` cannot be converted to a
string: `'Remote: ' + msg.error` throws after the call's timer has been cleared;
`reject` is not called and the entry stays in `rpc_pending`. -/
theorem input_rpcreply_unprintable (self : ConnId) (w : World) (msg : Msg) (id : Int)
    (rpc : PendingCall)
    (hl : (w.conns self).loggedin = true) (hop : msg.op = "rpcreply")
    (hid : msg.rpcid = some id) (hp : w.vs.rpc_pending id = some rpc)
    (hconv : msg.error.stringThrows = true) :
    DeviceConnection.input self (Data.text msg) w
      = (w.clearTimer rpc.timer, [Effect.throw "TypeError"]) := by
  have ht : msg.error.truthy = true := by
    cases he : msg.error <;> simp [he, Val.stringThrows] at hconv
    rfl
  unfold DeviceConnection.input
  simp [hl, hop, hid, hp, ht, hconv, mutationOps]

/-- Terminal reply.  On a logged-in transport, an `rpcreply` whose `rpcid` is in
`rpc_pending` and whose `error` converts to a string makes exactly one call:
`resolve(msg.result)` when `msg.error` is falsy, and otherwise `reject` with the
error built from the remote-supplied value, `new Error('Remote: ' + msg.error)`.
In both cases the call's timer is cancelled (no timer with its handle stays
armed), the entry is removed from `rpc_pending`, and every transport, in
particular its `loggedin`, `active` and `backoff`, is unchanged. -/
theorem terminal_reply (self : ConnId) (w : World) (msg : Msg) (id : Int) (rpc : PendingCall)
    (hl : (w.conns self).loggedin = true) (hop : msg.op = "rpcreply")
    (hid : msg.rpcid = some id) (hp : w.vs.rpc_pending id = some rpc)
    (hconv : msg.error.stringThrows = false) :
    (DeviceConnection.input self (Data.text msg) w).2
        = [if msg.error.truthy then Effect.reject id (Rejection.remote msg.error)
           else Effect.resolve id (Resolved.value msg.result)] ∧
      (DeviceConnection.input self (Data.text msg) w).1.vs.rpc_pending id = none ∧
      (∀ h, rpc.timer = some h →
        ∀ t ∈ (DeviceConnection.input self (Data.text msg) w).1.timers, t.id ≠ h) ∧
      (DeviceConnection.input self (Data.text msg) w).1.conns = w.conns ∧
      ((DeviceConnection.input self (Data.text msg) w).1.conns self).loggedin
        = (w.conns self).loggedin ∧
      ((DeviceConnection.input self (Data.text msg) w).1.conns self).active
        = (w.conns self).active ∧
      ((DeviceConnection.input self (Data.text msg) w).1.conns self).backoff
        = (w.conns self).backoff := by
  rw [input_rpcreply self w msg id rpc hl hop hid hp hconv]
  refine ⟨rfl, setPending_get _ _ _, ?_, by simp, by simp, by simp, by simp⟩
  intro h hh t ht
  rw [hh] at ht
  simp only [setPending_timers, clearTimer_timers_some, List.mem_filter, bne_iff_ne] at ht
  exact ht.2

/-- A successful and a failed reply to the pending call 7. -/
theorem terminal_reply_witness :
    (DeviceConnection.input 0 (Data.text replyOk) worldCallPending).2
        = [Effect.resolve 7 (Resolved.value (Val.str "pong"))] ∧
      (DeviceConnection.input 0 (Data.text replyOk) worldCallPending).1.vs.rpc_pending 7 = none ∧
      (DeviceConnection.input 0 (Data.text replyFailed) worldCallPending).2
        = [Effect.reject 7 (Rejection.remote (Val.str "no such file"))] ∧
      (DeviceConnection.input 0 (Data.text replyFailed) worldCallPending).1.vs.rpc_pending 7
        = none :=
  have h1 := terminal_reply 0 worldCallPending replyOk 7
    { timer := some 1, timeout := 60000, hasProgress := true } rfl rfl rfl rfl rfl
  have h2 := terminal_reply 0 worldCallPending replyFailed 7
    { timer := some 1, timeout := 60000, hasProgress := true } rfl rfl rfl rfl rfl
  ⟨h1.1, h1.2.1, h2.1, h2.2.1⟩

/-- C11 (terminal reply) at the failing input.  Transport 0 is logged in and the
call 7 is pending with its timer (handle 1) armed.  The reply
`{op: 'rpcreply', rpcid: 7, error: {"toString": 1}}` carries an error, but the
call is not rejected: the timer is cleared, then `'Remote: ' + msg.error` throws
a `TypeError` before `reject` is called and before the entry is deleted.  The
call stays in `rpc_pending` with no timer armed, and its continuation has not
been invoked. -/
theorem unprintable_error_reply_throws :
    (worldCallPending.conns 0).loggedin = true ∧
    worldCallPending.vs.rpc_pending 7
      = some { timer := some 1, timeout := 60000, hasProgress := true } ∧
    replyUnprintable.error.truthy = true ∧
    (DeviceConnection.input 0 (Data.text replyUnprintable) worldCallPending).2
      = [Effect.throw "TypeError"] ∧
    terminations 7 (DeviceConnection.input 0 (Data.text replyUnprintable) worldCallPending).2
      = 0 ∧
    (DeviceConnection.input 0 (Data.text replyUnprintable) worldCallPending).1.vs.rpc_pending 7
      = some { timer := some 1, timeout := 60000, hasProgress := true } ∧
    (DeviceConnection.input 0 (Data.text replyUnprintable) worldCallPending).1.timers = [] := by
  have h := input_rpcreply_unprintable 0 worldCallPending replyUnprintable 7
    { timer := some 1, timeout := 60000, hasProgress := true } rfl rfl rfl rfl rfl
  rw [h]
  exact ⟨rfl, rfl, rfl, rfl, rfl, rfl, rfl⟩

theorem input_rpcprogress (self : ConnId) (w : World) (msg : Msg) (id : Int)
    (rpc : PendingCall)
    (hl : (w.conns self).loggedin = true) (hop : msg.op = "rpcprogress")
    (hid : msg.rpcid = some id) (hp : w.vs.rpc_pending id = some rpc) :
    DeviceConnection.input self (Data.text msg) w
      = (((w.clearTimer rpc.timer).setTimer (TimerAction.rpcTimeout (some id))
              rpc.timeout false).1.setPending id
            (some { rpc with timer := some (w.lastTimer + 1) }),
          if rpc.hasProgress then [Effect.progress id msg.status msg.value] else []) := by
  unfold DeviceConnection.input
  simp only [hl, hop, hid, hp]
  have hlast : ((w.clearTimer rpc.timer).setTimer (TimerAction.rpcTimeout (some id))
      rpc.timeout false).2 = w.lastTimer + 1 := by
    cases rpc.timer <;> rfl
  by_cases hpr : rpc.hasProgress = true <;> simp [hpr, mutationOps, hlast]

/-- C12 (progress is not terminal).  On a logged-in transport, an `rpcprogress`
whose `rpcid` is in `rpc_pending` keeps the entry (only its `timer` field
changes), invokes neither `resolve` nor `reject`, cancels the call's timer and
arms a new one-shot timer of duration `rpc.timeout` whose handle is recorded in
the entry, and calls the progress sink exactly once, with
`(msg.status, msg.value)`, when one was supplied (no call otherwise). -/
theorem progress_rearms_timeout (self : ConnId) (w : World) (msg : Msg) (id : Int)
    (rpc : PendingCall)
    (hl : (w.conns self).loggedin = true) (hop : msg.op = "rpcprogress")
    (hid : msg.rpcid = some id) (hp : w.vs.rpc_pending id = some rpc) :
    (DeviceConnection.input self (Data.text msg) w).1.vs.rpc_pending id
        = some { rpc with timer := some (w.lastTimer + 1) } ∧
      terminations id (DeviceConnection.input self (Data.text msg) w).2 = 0 ∧
      (DeviceConnection.input self (Data.text msg) w).1.timers
        = (w.clearTimer rpc.timer).timers
            ++ [{ id := w.lastTimer + 1, action := TimerAction.rpcTimeout (some id),
                  delay := rpc.timeout, repeating := false }] ∧
      (∀ h, rpc.timer = some h → ∀ t ∈ (w.clearTimer rpc.timer).timers, t.id ≠ h) ∧
      (DeviceConnection.input self (Data.text msg) w).2
        = (if rpc.hasProgress then [Effect.progress id msg.status msg.value] else []) := by
  rw [input_rpcprogress self w msg id rpc hl hop hid hp]
  refine ⟨setPending_get _ _ _, ?_, ?_, ?_, rfl⟩
  · unfold terminations
    split <;> simp [isTermination]
  · cases rpc.timer <;> rfl
  · intro h hh t ht
    rw [hh] at ht
    simp only [clearTimer_timers_some, List.mem_filter, bne_iff_ne] at ht
    exact ht.2

/-- A progress report for the pending call 7, which has a progress sink. -/
theorem progress_rearms_timeout_witness :
    (DeviceConnection.input 0 (Data.text progressReport) worldCallPending).1.vs.rpc_pending 7
        = some { timer := some 2, timeout := 60000, hasProgress := true } ∧
      terminations 7 (DeviceConnection.input 0 (Data.text progressReport) worldCallPending).2
        = 0 ∧
      (DeviceConnection.input 0 (Data.text progressReport) worldCallPending).1.timers
        = [{ id := 2, action := TimerAction.rpcTimeout (some 7), delay := 60000,
             repeating := false }] ∧
      (DeviceConnection.input 0 (Data.text progressReport) worldCallPending).2
        = [Effect.progress 7 (Val.str "copying") (Val.num 40)] :=
  have h := progress_rearms_timeout 0 worldCallPending progressReport 7
    { timer := some 1, timeout := 60000, hasProgress := true } rfl rfl rfl rfl
  ⟨h.1, h.2.1, h.2.2.1, h.2.2.2.2⟩

/-- An opcode-3 frame on a logged-in transport subtracts the decoded count. -/
theorem input_ack_inflight (self : ConnId) (w : World) (u8 : List Nat)
    (hl : (w.conns self).loggedin = true) (hop : u8.head? = some 3) :
    ((DeviceConnection.input self (Data.binary u8) w).1.conns self).inflight
      = (w.conns self).inflight - readInt32 u8 1 := by
  unfold DeviceConnection.input
  simp only [hl, hop, Bool.not_true, Bool.false_eq_true, if_false, modConn_conns_self]
  split <;> simp

/-- The count of an opcode-3 frame, read with `<<` and `|`, is the big-endian
value of its bytes 1..4 when that value is below `2^31`. -/
theorem readInt32_ack_count (a b c d : Nat) (rest : List Nat)
    (ha : a < 256) (hb : b < 256) (hc : c < 256) (hd : d < 256)
    (hcount : bigEndianValue [a, b, c, d] < 2147483648) :
    readInt32 (3 :: a :: b :: c :: d :: rest) 1 = Int.ofNat (bigEndianValue [a, b, c, d]) := by
  have hv : bigEndianValue [a, b, c, d] = a * 16777216 + b * 65536 + c * 256 + d := by
    simp only [bigEndianValue, List.foldl_cons, List.foldl_nil]; ring
  rw [readInt32_bytes (3 :: a :: b :: c :: d :: rest) 1 a b c d ha hb hc hd rfl rfl rfl rfl,
    ← hv]
  exact toInt32_of_lt _ (by simp) (by simp only [Int.ofNat_eq_coe]; omega)

/-- C14 (in-flight counter), amended.  On a logged-in transport, an opcode-3
frame whose 4-byte big-endian byte count is below `2^31` makes `input` subtract
that count from `inflight`, without any clamping: the result is
`inflight - count`, which is non-negative exactly when the count does not exceed
`inflight`. -/
theorem ack_subtracts_count (self : ConnId) (w : World) (a b c d : Nat) (rest : List Nat)
    (hl : (w.conns self).loggedin = true)
    (ha : a < 256) (hb : b < 256) (hc : c < 256) (hd : d < 256)
    (hcount : bigEndianValue [a, b, c, d] < 2147483648) :
    ((DeviceConnection.input self (Data.binary (3 :: a :: b :: c :: d :: rest)) w).1.conns
          self).inflight
        = (w.conns self).inflight - Int.ofNat (bigEndianValue [a, b, c, d]) ∧
      (0 ≤ ((DeviceConnection.input self (Data.binary (3 :: a :: b :: c :: d :: rest))
              w).1.conns self).inflight
        ↔ Int.ofNat (bigEndianValue [a, b, c, d]) ≤ (w.conns self).inflight) := by
  rw [input_ack_inflight self w (3 :: a :: b :: c :: d :: rest) hl rfl,
    readInt32_ack_count a b c d rest ha hb hc hd hcount]
  exact ⟨rfl, by omega⟩

/-- An acknowledgment of 5 bytes on a transport with nothing in flight. -/
theorem ack_subtracts_count_witness :
    ((DeviceConnection.input 0 (Data.binary [3, 0, 0, 0, 5]) worldJustLoggedIn).1.conns 0).inflight
        = (worldJustLoggedIn.conns 0).inflight - Int.ofNat (bigEndianValue [0, 0, 0, 5]) ∧
      (0 ≤ ((DeviceConnection.input 0 (Data.binary [3, 0, 0, 0, 5])
              worldJustLoggedIn).1.conns 0).inflight
        ↔ Int.ofNat (bigEndianValue [0, 0, 0, 5]) ≤ (worldJustLoggedIn.conns 0).inflight) :=
  ack_subtracts_count 0 worldJustLoggedIn 0 0 0 5 [] rfl (by decide) (by decide) (by decide)
    (by decide) (by decide)

/-- C14 (in-flight counter) fails as stated: a transport is connected (which sets
`inflight` to 0), logs in, and receives an opcode-3 frame acknowledging 5 bytes;
its in-flight counter is then -5. -/
theorem inflight_negative_counterexample :
    ((DeviceConnection.connected 0 worldFresh).1.conns 0).inflight = 0 ∧
    ((DeviceConnection.input 0 (Data.text loginOk)
        (DeviceConnection.connected 0 worldFresh).1).1.conns 0).loggedin = true ∧
    ((DeviceConnection.input 0 (Data.binary [3, 0, 0, 0, 5])
        (DeviceConnection.input 0 (Data.text loginOk)
          (DeviceConnection.connected 0 worldFresh).1).1).1.conns 0).inflight = -5 ∧
    ¬ (0 ≤ ((DeviceConnection.input 0 (Data.binary [3, 0, 0, 0, 5])
        (DeviceConnection.input 0 (Data.text loginOk)
          (DeviceConnection.connected 0 worldFresh).1).1).1.conns 0).inflight) := by
  have h0 : ((DeviceConnection.connected 0 worldFresh).1.conns 0).inflight = 0 := by
    rw [connected_conns]; simp
  have h1 : ((DeviceConnection.input 0 (Data.text loginOk)
      (DeviceConnection.connected 0 worldFresh).1).1.conns 0).loggedin = true := by
    rw [input_login_conns 0 _ loginOk (by rw [connected_conns]; rfl) rfl rfl]; simp
  have h2 : ((DeviceConnection.input 0 (Data.text loginOk)
      (DeviceConnection.connected 0 worldFresh).1).1.conns 0).inflight = 0 := by
    rw [input_login_conns 0 _ loginOk (by rw [connected_conns]; rfl) rfl rfl]
    simp only [modConn_conns_self]
    exact h0
  have h3 := input_ack_inflight 0 _ [3, 0, 0, 0, 5] h1 rfl
  rw [h2] at h3
  have h4 : readInt32 [3, 0, 0, 0, 5] 1 = 5 := by decide
  rw [h4] at h3
  refine ⟨h0, h1, by rw [h3]; rfl, by rw [h3]; decide⟩

/-- Reading back a field written by `setUint32` gives the value written when it
is below `2^31`, and the value minus `2^32` from `2^31` on. -/
theorem readInt32_setUint32_cases (pre rest : List Nat) (n : Int)
    (h0 : 0 ≤ n) (h1 : n < 4294967296) :
    readInt32 (pre ++ setUint32 n ++ rest) pre.length
      = if n < 2147483648 then n else n - 4294967296 := by
  rw [readInt32_setUint32]
  unfold toInt32
  simp only
  split <;> split <;> omega

/-- C18 (call-id header decoding) at the failing input, the call id `2^31`.  The
sender writes the header bytes `80 00 00 00`; `input` decodes them with `<<` and
`|` to `-2^31`, finds no pending call under that key, and drops the frame: the
call `2^31` stays pending and nothing is resolved.  The same reading applies to
the total length at bytes 5..8. -/
theorem high_call_id_decodes_negative :
    rpcFrames 2147483648 [1, 2, 3] = [[1, 128, 0, 0, 0, 0, 0, 0, 3, 1, 2, 3]] ∧
    readInt32 [1, 128, 0, 0, 0, 0, 0, 0, 3, 1, 2, 3] 1 = -2147483648 ∧
    readInt32 ([1, 0, 0, 0, 7] ++ setUint32 2147483648) 5 = -2147483648 ∧
    DeviceConnection.inputs 0 ((rpcFrames 2147483648 [1, 2, 3]).map Data.binary)
        worldHighCallId = (worldHighCallId, []) ∧
    worldHighCallId.vs.rpc_pending 2147483648 = some {} := by
  have hf : rpcFrames 2147483648 [1, 2, 3] = [[1, 128, 0, 0, 0, 0, 0, 0, 3, 1, 2, 3]] := by
    decide
  have hr : readInt32 [1, 128, 0, 0, 0, 0, 0, 0, 3, 1, 2, 3] 1 = -2147483648 := by decide
  refine ⟨hf, hr, by decide, ?_, rfl⟩
  rw [hf]
  simp only [List.map_cons, List.map_nil, DeviceConnection.inputs, andThen]
  have : DeviceConnection.input 0 (Data.binary [1, 128, 0, 0, 0, 0, 0, 0, 3, 1, 2, 3])
      worldHighCallId = (worldHighCallId, []) := by
    unfold DeviceConnection.input
    simp [worldHighCallId, DeviceConnection.inputChunk, hr]
  rw [this]
  rfl

/-! ## Reconnect timers -/

@[simp] theorem modConn_timers (w : World) (c : ConnId) (f : DeviceConnection → DeviceConnection) :
    (w.modConn c f).timers = w.timers := rfl

@[simp] theorem modVs_timers (w : World) (f : ViewShare → ViewShare) :
    (w.modVs f).timers = w.timers := rfl

@[simp] theorem selectPrimaryConnection_timers (w : World) :
    (selectPrimaryConnection w).1.timers = w.timers := by
  unfold selectPrimaryConnection
  split
  · rfl
  · split <;> rfl

@[simp] theorem disconnect_timers (self : ConnId) (w : World) :
    (DeviceConnection.disconnect self w).2.1.timers = w.timers := by
  rcases disconnect_world self w with h | h <;> rw [h]
  rfl

@[simp] theorem growBackoff_timers (self : ConnId) (w : World) :
    (DeviceConnection.growBackoff self w).timers = w.timers := by
  unfold DeviceConnection.growBackoff World.mathRandom
  simp only
  split <;> rfl

@[simp] theorem disconnect_reconnectTimer (self : ConnId) (w : World) :
    ((DeviceConnection.disconnect self w).2.1.conns self).reconnectTimer
      = (w.conns self).reconnectTimer := by
  rcases disconnect_world self w with h | h <;> rw [h]
  simp

@[simp] theorem disconnect_reconnectCountdownTimer (self : ConnId) (w : World) :
    ((DeviceConnection.disconnect self w).2.1.conns self).reconnectCountdownTimer
      = (w.conns self).reconnectCountdownTimer := by
  rcases disconnect_world self w with h | h <;> rw [h]
  simp

@[simp] theorem growBackoff_reconnectTimer (self : ConnId) (w : World) :
    ((DeviceConnection.growBackoff self w).conns self).reconnectTimer
      = (w.conns self).reconnectTimer := by
  unfold DeviceConnection.growBackoff
  simp only
  split <;> simp

@[simp] theorem growBackoff_reconnectCountdownTimer (self : ConnId) (w : World) :
    ((DeviceConnection.growBackoff self w).conns self).reconnectCountdownTimer
      = (w.conns self).reconnectCountdownTimer := by
  unfold DeviceConnection.growBackoff
  simp only
  split <;> simp

theorem cancelReconnect_cases (self : ConnId) (w : World) :
    DeviceConnection.cancelReconnect self w
      = (match (w.conns self).reconnectTimer with
          | none => w
          | some a => (w.clearTimer (some a)).modConn self
              (fun d => { d with reconnectTimer := none })).clearTimer
          (w.conns self).reconnectCountdownTimer := by
  unfold DeviceConnection.cancelReconnect
  cases h1 : (w.conns self).reconnectTimer with
  | none =>
    cases h2 : (w.conns self).reconnectCountdownTimer with
    | none => simp [h1, h2, World.clearTimer]
    | some b => simp [h1, h2]
  | some a =>
    cases h2 : (w.conns self).reconnectCountdownTimer with
    | none => simp [h1, h2, World.clearTimer]
    | some b => simp [h1, h2]

theorem mem_clearTimer (w : World) (h : Option TimerId) (t : Timer) :
    t ∈ (w.clearTimer h).timers ↔ t ∈ w.timers ∧ h ≠ some t.id := by
  cases h with
  | none => simp
  | some a =>
    simp only [clearTimer_timers_some, List.mem_filter, bne_iff_ne, ne_eq, Option.some.injEq]
    constructor
    · rintro ⟨h1, h2⟩; exact ⟨h1, fun e => h2 e.symm⟩
    · rintro ⟨h1, h2⟩; exact ⟨h1, fun e => h2 e.symm⟩

/-- After the clearing statements of `connectionFailed` the armed timers are
those whose handle is in neither of the two fields. -/
theorem cancelReconnect_timers (self : ConnId) (w : World) (t : Timer) :
    t ∈ (DeviceConnection.cancelReconnect self w).timers ↔
      t ∈ w.timers ∧ (w.conns self).reconnectTimer ≠ some t.id ∧
        (w.conns self).reconnectCountdownTimer ≠ some t.id := by
  rw [cancelReconnect_cases, mem_clearTimer]
  cases h1 : (w.conns self).reconnectTimer with
  | none => simp
  | some a =>
    simp only [modConn_timers, mem_clearTimer]
    tauto

theorem cancelReconnect_fields (self : ConnId) (w : World) :
    ((DeviceConnection.cancelReconnect self w).conns self).reconnectTimer = none ∧
      ((DeviceConnection.cancelReconnect self w).conns self).reconnectCountdownTimer
        = (w.conns self).reconnectCountdownTimer := by
  rw [cancelReconnect_cases]
  cases h1 : (w.conns self).reconnectTimer with
  | none => simp [h1]
  | some a => simp

theorem scheduleReconnect_world (self : ConnId) (retry : Bool) (w : World) :
    (DeviceConnection.scheduleReconnect self retry w).timers
        = (if retry && !w.vs.pageHidden then
            w.timers ++ [{ id := w.lastTimer + 1, action := TimerAction.start self,
                           delay := (w.conns self).backoff, repeating := false },
                         { id := w.lastTimer + 2, action := TimerAction.countdown self,
                           delay := w.COUNTDOWN_INTERVAL, repeating := true }]
           else w.timers) ∧
      ((DeviceConnection.scheduleReconnect self retry w).conns self).reconnectTimer
        = (if retry && !w.vs.pageHidden then some (w.lastTimer + 1)
           else (w.conns self).reconnectTimer) ∧
      ((DeviceConnection.scheduleReconnect self retry w).conns self).reconnectCountdownTimer
        = (if retry && !w.vs.pageHidden then some (w.lastTimer + 2)
           else (w.conns self).reconnectCountdownTimer) := by
  unfold DeviceConnection.scheduleReconnect
  split
  · simp [World.setTimer, World.modConn]
  · exact ⟨rfl, rfl, rfl⟩

/-- The suspended path of `connectionFailed`: the transport is logged out and
deactivated, primary selection runs, and nothing else happens; in particular no
timer is cleared. -/
theorem connectionFailed_suspended (self : ConnId) (msg : Val) (code : Int) (w : World)
    (hs : (w.conns self).suspended = true) :
    (DeviceConnection.connectionFailed self msg code w).1.timers = w.timers ∧
      ((DeviceConnection.connectionFailed self msg code w).1.conns self)
        = { w.conns self with loggedin := false, active := false } := by
  unfold DeviceConnection.connectionFailed
  simp [andThen, updateState, hs]

/-- C16 (suspension schedules no retry) at the failing input: a suspended
transport whose reconnect timer and countdown timer are armed.  `connectionFailed`
leaves the transport inactive and logged out with its backoff unchanged, as
claimed, but it returns before the statements that clear the timers, so both
stay armed; when the reconnect timer then fires, `start()` clears the suspension,
reactivates the transport and reconnects, without any explicit `start()`. -/
theorem suspended_failure_keeps_timers_armed :
    (worldSuspendedArmed.conns 0).suspended = true ∧
    ((DeviceConnection.connectionFailed 0 (Val.str "closed") 1000
        worldSuspendedArmed).1.conns 0).active = false ∧
    ((DeviceConnection.connectionFailed 0 (Val.str "closed") 1000
        worldSuspendedArmed).1.conns 0).loggedin = false ∧
    ((DeviceConnection.connectionFailed 0 (Val.str "closed") 1000
        worldSuspendedArmed).1.conns 0).backoff = (worldSuspendedArmed.conns 0).backoff ∧
    (DeviceConnection.connectionFailed 0 (Val.str "closed") 1000 worldSuspendedArmed).1.timers
      = [{ id := 1, action := TimerAction.start 0, delay := 1500 },
         { id := 2, action := TimerAction.countdown 0, delay := 1000, repeating := true }] ∧
    ((fireTimer 1 (DeviceConnection.connectionFailed 0 (Val.str "closed") 1000
        worldSuspendedArmed).1).1.conns 0).active = true ∧
    ((fireTimer 1 (DeviceConnection.connectionFailed 0 (Val.str "closed") 1000
        worldSuspendedArmed).1).1.conns 0).suspended = false ∧
    (fireTimer 1 (DeviceConnection.connectionFailed 0 (Val.str "closed") 1000
        worldSuspendedArmed).1).2
      = [Effect.updateState "localstate" "connecting" (Val.bool true),
         Effect.updateState "localstate" "reconnectCountdown" Val.null,
         Effect.connect 0] := by
  obtain ⟨ht, hc⟩ := connectionFailed_suspended 0 (Val.str "closed") 1000 worldSuspendedArmed rfl
  refine ⟨rfl, by rw [hc], by rw [hc], by rw [hc], ht, ?_, ?_, ?_⟩
  · rfl
  · rfl
  · rfl

@[simp] theorem selectPrimaryConnection_pageHidden (w : World) :
    (selectPrimaryConnection w).1.vs.pageHidden = w.vs.pageHidden := by
  unfold selectPrimaryConnection
  split
  · rfl
  · split <;> rfl

@[simp] theorem selectPrimaryConnection_lastTimer (w : World) :
    (selectPrimaryConnection w).1.lastTimer = w.lastTimer := by
  unfold selectPrimaryConnection
  split
  · rfl
  · split <;> rfl

/-- What `WebRTCDeviceConnection.disconnect` returns when `this.connection` is
not set. -/
theorem disconnect_webrtc_result (self : ConnId) (w : World)
    (hk : (w.conns self).kind = ConnKind.webrtc) (hc : (w.conns self).connection = false) :
    DeviceConnection.disconnect self w
      = (some (w.conns w.vs.connectionRV).loggedin, w, [Effect.unsubscribeStats self]) := by
  unfold DeviceConnection.disconnect
  simp [hk, hc]

/-- The armed timers after a non-suspended `connectionFailed` that runs to its
end: those that survive the clearing statements, followed by the reconnect timer
and the countdown when a retry is scheduled. -/
theorem connectionFailed_timers (self : ConnId) (msg : Val) (code : Int) (w : World)
    (retry : Bool) (effects : List Effect)
    (hs : (w.conns self).suspended = false) (hm : msg.stringThrows = false)
    (hd : DeviceConnection.disconnect self (w.modConn self (fun d => { d with loggedin := false }))
      = (some retry, w.modConn self (fun d => { d with loggedin := false }), effects))
    (t : Timer)
    (ht : t ∈ (DeviceConnection.connectionFailed self msg code w).1.timers) :
    (t ∈ w.timers ∧ (w.conns self).reconnectTimer ≠ some t.id ∧
        (w.conns self).reconnectCountdownTimer ≠ some t.id) ∨
      (retry = true ∧ w.vs.pageHidden = false ∧
        ((t.action = TimerAction.start self ∧
            ((DeviceConnection.connectionFailed self msg code w).1.conns self).reconnectTimer
              = some t.id) ∨
          (t.action = TimerAction.countdown self ∧
            ((DeviceConnection.connectionFailed self msg code w).1.conns
                self).reconnectCountdownTimer = some t.id))) := by
  rw [connectionFailed_completed self msg code w retry effects hs hm hd] at ht ⊢
  obtain ⟨h1, h2, h3⟩ := scheduleReconnect_world self retry
    ((DeviceConnection.cancelReconnect self (DeviceConnection.growBackoff self
      (selectPrimaryConnection
        ((w.modConn self (fun d => { d with loggedin := false })).modConn self
          (fun d => { d with error := msg, errorcode := Val.num code }))).1)).modConn self
      (fun d => { d with active := false }))
  rw [h1] at ht
  rw [h2, h3]
  split at ht
  · next hret =>
    simp only [modConn_timers, List.mem_append, List.mem_cons, List.mem_singleton,
      List.not_mem_nil, or_false] at ht
    simp only [Bool.and_eq_true, Bool.not_eq_true', modConn_vs, cancelReconnect_vs,
      growBackoff_vs, selectPrimaryConnection_pageHidden] at hret
    rcases ht with ht | ht | ht
    · left
      rw [cancelReconnect_timers] at ht
      simpa using ht
    · right
      refine ⟨hret.1, hret.2, Or.inl ⟨by rw [ht], ?_⟩⟩
      simp [hret.1, hret.2, ht]
    · right
      refine ⟨hret.1, hret.2, Or.inr ⟨by rw [ht], ?_⟩⟩
      simp [hret.1, hret.2, ht]
  · left
    simp only [modConn_timers] at ht
    rw [cancelReconnect_timers] at ht
    simpa using ht

/-- The armed timers after any `connectionFailed` are timers that were armed
before, or the reconnect timer and the countdown of the transport. -/
theorem connectionFailed_timers_mem (self : ConnId) (msg : Val) (code : Int) (w : World)
    (t : Timer) (ht : t ∈ (DeviceConnection.connectionFailed self msg code w).1.timers) :
    t ∈ w.timers ∨ t.action = TimerAction.start self ∨ t.action = TimerAction.countdown self := by
  rcases connectionFailed_paths self msg w with
    hs | ⟨hs, hm⟩ | ⟨hs, hm, hk, hc⟩ | ⟨hs, hm, retry, effects, hd⟩
  · rw [(connectionFailed_suspended self msg code w hs).1] at ht
    exact Or.inl ht
  · rw [connectionFailed_log_thrown self msg code w hs hm] at ht
    exact Or.inl ht
  · rw [connectionFailed_thrown self msg code w hs hm hk hc] at ht
    exact Or.inl ht
  · rcases connectionFailed_timers self msg code w retry effects hs hm hd t ht
      with ⟨hm, _⟩ | ⟨_, _, ha⟩
    · exact Or.inl hm
    · rcases ha with ⟨ha, _⟩ | ⟨ha, _⟩
      · exact Or.inr (Or.inl ha)
      · exact Or.inr (Or.inr ha)

theorem timersRecorded_of_subset (self : ConnId) (w w2 : World)
    (ht : ∀ t ∈ w2.timers, t ∈ w.timers)
    (h1 : (w2.conns self).reconnectTimer = (w.conns self).reconnectTimer)
    (h2 : (w2.conns self).reconnectCountdownTimer = (w.conns self).reconnectCountdownTimer)
    (h : TimersRecorded self w) : TimersRecorded self w2 :=
  ⟨fun t hm ha => by rw [h1]; exact h.1 t (ht t hm) ha,
    fun t hm ha => by rw [h2]; exact h.2 t (ht t hm) ha⟩

/-- Every path through `connectionFailed` keeps the transport's armed reconnect
and countdown timers recorded in its fields. -/
theorem connectionFailed_timersRecorded (self : ConnId) (msg : Val) (code : Int) (w : World)
    (h : TimersRecorded self w) :
    TimersRecorded self (DeviceConnection.connectionFailed self msg code w).1 := by
  rcases connectionFailed_paths self msg w with
    hs | ⟨hs, hm⟩ | ⟨hs, hm, hk, hc⟩ | ⟨hs, hm, retry, effects, hd⟩
  · obtain ⟨ht, hc⟩ := connectionFailed_suspended self msg code w hs
    exact timersRecorded_of_subset self w _ (fun t hm => by rw [ht] at hm; exact hm)
      (by rw [hc]) (by rw [hc]) h
  · rw [connectionFailed_log_thrown self msg code w hs hm]
    exact timersRecorded_of_subset self w _ (fun t hm => hm) (by simp) (by simp) h
  · rw [connectionFailed_thrown self msg code w hs hm hk hc]
    exact timersRecorded_of_subset self w _ (fun t hm => hm) (by simp) (by simp) h
  · have hT := connectionFailed_timers self msg code w retry effects hs hm hd
    constructor
    · intro t ht ha
      rcases hT t ht with ⟨hm, h1, _⟩ | ⟨_, _, hn⟩
      · exact absurd (h.1 t hm ha) h1
      · rcases hn with ⟨_, hf⟩ | ⟨ha2, _⟩
        · exact hf
        · rw [ha] at ha2; cases ha2
    · intro t ht ha
      rcases hT t ht with ⟨hm, _, h2⟩ | ⟨_, _, hn⟩
      · exact absurd (h.2 t hm ha) h2
      · rcases hn with ⟨ha2, _⟩ | ⟨_, hf⟩
        · rw [ha] at ha2; cases ha2
        · exact hf

theorem connect_timersRecorded (self : ConnId) (w : World) (h : TimersRecorded self w) :
    TimersRecorded self (DeviceConnection.connect self w).1 := by
  unfold DeviceConnection.connect
  split
  · split
    · exact timersRecorded_of_subset self w _ (fun t hm => hm) (by simp) (by simp) h
    · split
      · exact connectionFailed_timersRecorded self _ _ w h
      · exact h
  · exact h

/-- The method `start` keeps the transport's armed reconnect and countdown timers
recorded in its fields. -/
theorem start_timersRecorded (self : ConnId) (w : World) (h : TimersRecorded self w) :
    TimersRecorded self (DeviceConnection.start self w).1 := by
  unfold DeviceConnection.start
  split
  · exact h
  · simp only [andThen, updateState]
    apply connect_timersRecorded
    split
    · constructor
      · intro t ht ha
        simp only [modConn_timers, mem_clearTimer, clearTimer_conns, modConn_conns_self] at ht
        exact absurd (h.1 t ht.1.1 ha) ht.1.2
      · intro t ht ha
        simp only [modConn_timers, mem_clearTimer, clearTimer_conns, modConn_conns_self] at ht
        exact absurd (h.2 t ht.1.1 ha) ht.2
    · exact timersRecorded_of_subset self w _ (fun t hm => hm) (by simp) (by simp) h

/-- Reconnect only while the main login is valid, for a WebRTC transport whose
`this.connection` is not set (as when the peer session closes, which deletes it
before the call).  `disconnect()` returns whether the session's main connection
`connectionRV` is logged in.  When the armed reconnect and countdown timers of
the transport are the ones recorded in its fields (`TimersRecorded`, which
`start()` and `connectionFailed` maintain), a reconnect timer or countdown timer
is armed after a non-suspended `connectionFailed` only if `connectionRV` is
logged in and the page is not hidden; when `connectionRV` is not logged in, no
reconnect timer and no countdown timer of the transport is armed after the
call. -/
theorem webrtc_retry_requires_main_login (self : ConnId) (msg : Val) (code : Int) (w : World)
    (hm : msg.stringThrows = false)
    (hk : (w.conns self).kind = ConnKind.webrtc)
    (hc : (w.conns self).connection = false)
    (hs : (w.conns self).suspended = false)
    (hrec : TimersRecorded self w) :
    (DeviceConnection.disconnect self w).1 = some (w.conns w.vs.connectionRV).loggedin ∧
      (∀ t ∈ (DeviceConnection.connectionFailed self msg code w).1.timers,
        (t.action = TimerAction.start self ∨ t.action = TimerAction.countdown self) →
          (w.conns w.vs.connectionRV).loggedin = true ∧ w.vs.pageHidden = false) ∧
      ((w.conns w.vs.connectionRV).loggedin = false →
        ∀ t ∈ (DeviceConnection.connectionFailed self msg code w).1.timers,
          t.action ≠ TimerAction.start self ∧ t.action ≠ TimerAction.countdown self) ∧
      TimersRecorded self (DeviceConnection.connectionFailed self msg code w).1 := by
  have hd := disconnect_webrtc_result self
    (w.modConn self (fun d => { d with loggedin := false })) (by simpa using hk)
    (by simpa using hc)
  have hret : ((w.modConn self (fun d => { d with loggedin := false })).conns
      (w.modConn self (fun d => { d with loggedin := false })).vs.connectionRV).loggedin = true →
      (w.conns w.vs.connectionRV).loggedin = true := by
    intro h
    simp only [modConn_vs, modConn_conns] at h
    split at h
    · simp at h
    · exact h
  have hT := connectionFailed_timers self msg code w _ _ hs hm hd
  have hB : ∀ t ∈ (DeviceConnection.connectionFailed self msg code w).1.timers,
      (t.action = TimerAction.start self ∨ t.action = TimerAction.countdown self) →
        (w.conns w.vs.connectionRV).loggedin = true ∧ w.vs.pageHidden = false := by
    intro t ht hact
    rcases hT t ht with ⟨hm, h1, h2⟩ | ⟨hr, hp, _⟩
    · rcases hact with ha | ha
      · exact absurd (hrec.1 t hm ha) h1
      · exact absurd (hrec.2 t hm ha) h2
    · exact ⟨hret hr, hp⟩
  refine ⟨by rw [disconnect_webrtc_result self w hk hc], hB, ?_,
    connectionFailed_timersRecorded self msg code w hrec⟩
  intro hlo t ht
  constructor
  · intro ha
    have := (hB t ht (Or.inl ha)).1
    rw [hlo] at this
    exact absurd this (by simp)
  · intro ha
    have := (hB t ht (Or.inr ha)).1
    rw [hlo] at this
    exact absurd this (by simp)

/-- A WebRTC transport with both timers armed and `this.connection` not set fails
while the main connection is logged out. -/
theorem webrtc_retry_requires_main_login_witness :
    (DeviceConnection.disconnect 1 worldMainLoggedOut).1
        = some (worldMainLoggedOut.conns worldMainLoggedOut.vs.connectionRV).loggedin ∧
      ((worldMainLoggedOut.conns worldMainLoggedOut.vs.connectionRV).loggedin = false →
        ∀ t ∈ (DeviceConnection.connectionFailed 1 (Val.str "ICE failed") 1000
            worldMainLoggedOut).1.timers,
          t.action ≠ TimerAction.start 1 ∧ t.action ≠ TimerAction.countdown 1) :=
  have h := webrtc_retry_requires_main_login 1 (Val.str "ICE failed") 1000 worldMainLoggedOut
    rfl rfl rfl rfl ⟨by decide, by decide⟩
  ⟨h.1, h.2.2.1⟩

/-- C15 (reconnect only while the main login is valid) at the failing input.
Transport 1 is a non-suspended WebRTC transport whose `this.connection` is set and
whose reconnect timer (handle 1) and countdown (handle 2) are armed; the main
connection `connectionRV` is not logged in.  `connectionFailed` marks the
transport logged out, logs, and calls `disconnect()`, which deletes
`this.connection` and throws a `TypeError` at `c.close()`; the statements that
clear the timers are not reached.  Both timers are still armed after the call
although `connectionRV` is not logged in. -/
theorem webrtc_failure_leaves_timers_armed :
    (worldWebRTCConnected.conns 1).kind = ConnKind.webrtc ∧
    (worldWebRTCConnected.conns 1).suspended = false ∧
    (worldWebRTCConnected.conns 1).connection = true ∧
    (worldWebRTCConnected.conns worldWebRTCConnected.vs.connectionRV).loggedin = false ∧
    (DeviceConnection.connectionFailed 1 (Val.str "ICE failed") 1000 worldWebRTCConnected).2
      = [Effect.updateState "localstate" "connecting" (Val.bool false),
         Effect.log "WebRTC" (Val.str "ICE failed") 1000,
         Effect.unsubscribeStats 1, Effect.throw "TypeError"] ∧
    (DeviceConnection.connectionFailed 1 (Val.str "ICE failed") 1000
        worldWebRTCConnected).1.timers
      = [{ id := 1, action := TimerAction.start 1, delay := 1500 },
         { id := 2, action := TimerAction.countdown 1, delay := 1000, repeating := true }] ∧
    ((DeviceConnection.connectionFailed 1 (Val.str "ICE failed") 1000
        worldWebRTCConnected).1.conns 1).reconnectTimer = some 1 ∧
    ((DeviceConnection.connectionFailed 1 (Val.str "ICE failed") 1000
        worldWebRTCConnected).1.conns 1).connection = false := by
  have h := connectionFailed_thrown 1 (Val.str "ICE failed") 1000 worldWebRTCConnected
    rfl rfl rfl rfl
  rw [h]
  exact ⟨rfl, rfl, rfl, rfl, rfl, rfl, rfl, rfl⟩

/-! ## Single termination of a call -/

theorem terminations_append (id : Int) (a b : List Effect) :
    terminations id (a ++ b) = terminations id a + terminations id b := by
  simp [terminations]

@[simp] theorem terminations_nil (id : Int) : terminations id [] = 0 := rfl

theorem terminations_of_noTerminations (id : Int) (effects : List Effect)
    (h : noTerminations effects) : terminations id effects = 0 := by
  unfold terminations
  rw [List.length_eq_zero, List.filter_eq_nil_iff]
  intro e he
  rw [h e he id]
  simp

@[simp] theorem noTerminations_nil : noTerminations [] := by
  intro e he; simp at he

theorem noTerminations_append (a b : List Effect) :
    noTerminations (a ++ b) ↔ noTerminations a ∧ noTerminations b := by
  unfold noTerminations
  simp only [List.mem_append]
  constructor
  · intro h; exact ⟨fun e he => h e (Or.inl he), fun e he => h e (Or.inr he)⟩
  · rintro ⟨h1, h2⟩ e (he | he)
    · exact h1 e he
    · exact h2 e he

theorem noTerminations_cons (e : Effect) (l : List Effect) :
    noTerminations (e :: l) ↔ (∀ i, isTermination i e = false) ∧ noTerminations l := by
  unfold noTerminations
  simp

theorem noTerminations_map_send (c : ConnId) (l : List OutMsg) :
    noTerminations (l.map (Effect.send c)) := by
  intro e he i
  rw [List.mem_map] at he
  obtain ⟨m, _, rfl⟩ := he
  rfl

theorem noTerminations_map_frames (c : ConnId) (l : List (List Nat)) :
    noTerminations (l.map (fun out => Effect.send c (OutMsg.frame out))) := by
  intro e he i
  rw [List.mem_map] at he
  obtain ⟨m, _, rfl⟩ := he
  rfl

theorem noTerminations_map_sub (c : ConnId) (l : List String) :
    noTerminations (l.map (Effect.subSetConnectionNull c)) := by
  intro e he i
  rw [List.mem_map] at he
  obtain ⟨m, _, rfl⟩ := he
  rfl

theorem Quiet.refl (w : World) : Quiet w w [] :=
  ⟨rfl, fun _ ht => Or.inl ht, noTerminations_nil⟩

theorem Quiet.trans {w w1 w2 : World} {e1 e2 : List Effect}
    (h1 : Quiet w w1 e1) (h2 : Quiet w1 w2 e2) : Quiet w w2 (e1 ++ e2) := by
  refine ⟨h2.1.trans h1.1, fun t ht => ?_, (noTerminations_append _ _).2 ⟨h1.2.2, h2.2.2⟩⟩
  rcases h2.2.1 t ht with h | h
  · exact h1.2.1 t h
  · exact Or.inr h

theorem Quiet.andThen {w : World} {r : World × List Effect} {f : World → World × List Effect}
    (h1 : Quiet w r.1 r.2) (h2 : Quiet r.1 (f r.1).1 (f r.1).2) :
    Quiet w (andThen r f).1 (andThen r f).2 :=
  Quiet.trans h1 h2

/-- A turn that only assigns transport fields and session fields other than the
call table, clears timers and arms reconnect timers is quiet. -/
theorem Quiet.of_parts {w w' : World} {effects : List Effect}
    (h1 : w'.vs.rpc_pending = w.vs.rpc_pending)
    (h2 : ∀ t ∈ w'.timers, t ∈ w.timers ∨ ∀ r, t.action ≠ TimerAction.rpcTimeout r)
    (h3 : noTerminations effects) : Quiet w w' effects := ⟨h1, h2, h3⟩

theorem Quiet.callFrame {w w' : World} {effects : List Effect} (id : Int)
    (h : Quiet w w' effects) : CallFrame id w w' effects := by
  refine ⟨by rw [h.1], fun t ht => ?_, terminations_of_noTerminations id _ h.2.2⟩
  rcases h.2.1 t ht with h' | h'
  · exact Or.inl h'
  · exact Or.inr (h' _)

@[simp] theorem selectPrimaryConnection_rpc_pending (w : World) :
    (selectPrimaryConnection w).1.vs.rpc_pending = w.vs.rpc_pending := by
  unfold selectPrimaryConnection
  split
  · rfl
  · split <;> rfl

theorem selectPrimaryConnection_noTerminations (w : World) :
    noTerminations (selectPrimaryConnection w).2 := by
  unfold selectPrimaryConnection
  split
  · exact noTerminations_nil
  · split
    · exact noTerminations_nil
    · exact noTerminations_map_send _ _

theorem disconnect_noTerminations (self : ConnId) (w : World) :
    noTerminations (DeviceConnection.disconnect self w).2.2 := by
  unfold DeviceConnection.disconnect
  split
  · split <;> simp [noTerminations, isTermination]
  · simp [noTerminations, isTermination]

theorem connectionFailed_rpc_pending (self : ConnId) (msg : Val) (code : Int) (w : World) :
    (DeviceConnection.connectionFailed self msg code w).1.vs.rpc_pending
      = w.vs.rpc_pending := by
  rcases connectionFailed_paths self msg w with
    hs | ⟨hs, hm⟩ | ⟨hs, hm, hk, hc⟩ | ⟨hs, hm, retry, effects, hd⟩
  · unfold DeviceConnection.connectionFailed
    simp [andThen, updateState, hs]
  · rw [connectionFailed_log_thrown self msg code w hs hm]
    rfl
  · rw [connectionFailed_thrown self msg code w hs hm hk hc]
    rfl
  · rw [connectionFailed_completed self msg code w retry effects hs hm hd]
    simp

theorem connectionFailed_noTerminations (self : ConnId) (msg : Val) (code : Int) (w : World) :
    noTerminations (DeviceConnection.connectionFailed self msg code w).2 := by
  rcases connectionFailed_paths self msg w with
    hs | ⟨hs, hm⟩ | ⟨hs, hm, hk, hc⟩ | ⟨hs, hm, retry, effects, hd⟩
  · unfold DeviceConnection.connectionFailed
    simp only [andThen, updateState, modConn_conns_self, hs, if_true]
    rw [noTerminations_append]
    exact ⟨by simp [noTerminations, isTermination], selectPrimaryConnection_noTerminations _⟩
  · rw [connectionFailed_log_thrown self msg code w hs hm]
    simp [noTerminations, isTermination]
  · rw [connectionFailed_thrown self msg code w hs hm hk hc]
    simp [noTerminations, isTermination]
  · have hde := disconnect_noTerminations self
      (w.modConn self (fun d => { d with loggedin := false }))
    rw [hd] at hde
    unfold DeviceConnection.connectionFailed
    simp only [andThen, updateState, modConn_conns_self, hs, hm,
      DeviceConnection.removeSubscriptions]
    simp only [Bool.false_eq_true, if_false, hd]
    simp only [noTerminations_append, List.append_nil]
    refine ⟨by simp [noTerminations, isTermination], by simp [noTerminations, isTermination],
      hde, by simp [noTerminations, isTermination],
      by simp [noTerminations, isTermination], selectPrimaryConnection_noTerminations _,
      noTerminations_map_sub _ _⟩

theorem connectionFailed_quiet (self : ConnId) (msg : Val) (code : Int) (w : World) :
    Quiet w (DeviceConnection.connectionFailed self msg code w).1
      (DeviceConnection.connectionFailed self msg code w).2 := by
  refine ⟨connectionFailed_rpc_pending self msg code w, fun t ht => ?_,
    connectionFailed_noTerminations self msg code w⟩
  rcases connectionFailed_timers_mem self msg code w t ht with hm | ha | ha
  · exact Or.inl hm
  · right; intro r; rw [ha]; simp
  · right; intro r; rw [ha]; simp

theorem quiet_modConn (w : World) (c : ConnId) (f : DeviceConnection → DeviceConnection)
    (effects : List Effect) (h : noTerminations effects) :
    Quiet w (w.modConn c f) effects :=
  ⟨rfl, fun _ ht => Or.inl ht, h⟩

theorem quiet_clearTimer (w : World) (h : Option TimerId) : Quiet w (w.clearTimer h) [] :=
  ⟨by simp, fun t ht => Or.inl ((mem_clearTimer w h t).1 ht).1, noTerminations_nil⟩

theorem connect_quiet (self : ConnId) (w : World) :
    Quiet w (DeviceConnection.connect self w).1 (DeviceConnection.connect self w).2 := by
  unfold DeviceConnection.connect
  split
  · split
    · exact quiet_modConn _ _ _ _ noTerminations_nil
    · split
      · exact connectionFailed_quiet _ _ _ _
      · exact ⟨rfl, fun _ ht => Or.inl ht, by simp [noTerminations, isTermination]⟩
  · exact ⟨rfl, fun _ ht => Or.inl ht, by simp [noTerminations, isTermination]⟩

theorem start_quiet (self : ConnId) (w : World) :
    Quiet w (DeviceConnection.start self w).1 (DeviceConnection.start self w).2 := by
  unfold DeviceConnection.start
  split
  · exact Quiet.refl w
  · simp only
    apply Quiet.andThen
    · split
      · simp only [andThen, updateState]
        refine ⟨by simp, fun t ht => ?_, by simp [noTerminations, isTermination]⟩
        simp only [modConn_timers, mem_clearTimer] at ht
        exact Or.inl ht.1.1
      · exact quiet_modConn _ _ _ _ noTerminations_nil |>.trans
          (quiet_modConn _ _ _ _ noTerminations_nil)
    · exact connect_quiet _ _

theorem established_quiet (self : ConnId) (w : World) :
    Quiet w (DeviceConnection.established self w).1 (DeviceConnection.established self w).2 := by
  unfold DeviceConnection.established
  simp only [andThen]
  split
  · refine ⟨by simp, fun t ht => Or.inl (by simpa using ht), ?_⟩
    simpa using selectPrimaryConnection_noTerminations _
  · refine ⟨by simp, fun t ht => Or.inl (by simpa using ht), ?_⟩
    rw [noTerminations_append]
    exact ⟨selectPrimaryConnection_noTerminations _, noTerminations_map_send _ _⟩

theorem rpc_quiet (self : ConnId) (msg : Msg) (w : World) :
    Quiet w (DeviceConnection.rpc self msg w).1 (DeviceConnection.rpc self msg w).2 := by
  unfold DeviceConnection.rpc
  simp only [andThen, DeviceConnection.rpcError]
  split
  · split
    · exact ⟨rfl, fun _ ht => Or.inl ht, by simp [noTerminations, isTermination]⟩
    · exact Quiet.refl w
  · split
    · split
      · exact ⟨rfl, fun _ ht => Or.inl ht, by simp [noTerminations, isTermination]⟩
      · refine ⟨rfl, fun _ ht => Or.inl ht, ?_⟩
        rw [noTerminations_append]
        exact ⟨by simp [noTerminations, isTermination], noTerminations_map_frames _ _⟩
    · split <;>
        exact ⟨rfl, fun _ ht => Or.inl ht, by simp [noTerminations, isTermination]⟩
    · split <;>
        exact ⟨rfl, fun _ ht => Or.inl ht, by simp [noTerminations, isTermination]⟩

/-- The text branch of `input` before login is quiet. -/
theorem input_text_loggedOut_quiet (self : ConnId) (msg : Msg) (w : World)
    (hl : (w.conns self).loggedin = false) :
    Quiet w (DeviceConnection.input self (Data.text msg) w).1
      (DeviceConnection.input self (Data.text msg) w).2 := by
  unfold DeviceConnection.input
  simp only [hl, andThen, updateState, Bool.not_false, if_true]
  split
  · exact Quiet.refl w
  · split
    · exact ⟨rfl, fun _ ht => Or.inl ht, by simp [noTerminations, isTermination]⟩
    · have he := established_quiet self
        (if msg.iceServers.truthy = true then
          ((if msg.token.truthy = true then w.modVs fun vs => { vs with token := msg.token }
            else w).modVs fun vs => { vs with myid := msg.id }).modVs
              fun vs => { vs with iceServers := msg.iceServers }
        else (if msg.token.truthy = true then w.modVs fun vs => { vs with token := msg.token }
            else w).modVs fun vs => { vs with myid := msg.id })
      refine ⟨?_, fun t ht => ?_, ?_⟩
      · rw [he.1]; split <;> split <;> rfl
      · rcases he.2.1 t ht with h | h
        · left
          revert h
          split <;> split <;> exact id
        · exact Or.inr h
      · simp only [noTerminations_append]
        exact ⟨by simp [noTerminations, isTermination],
          by simp [noTerminations, isTermination], he.2.2⟩

theorem callStep_of_frame {id : Int} {w w' : World} {effects : List Effect}
    (h : CallFrame id w w' effects) : CallStep id w w' effects := by
  obtain ⟨h1, h2, h3⟩ := h
  constructor
  · rintro ⟨pc, hp, ht⟩
    left
    refine ⟨h3, pc, by rw [h1, hp], fun t htm ha => ?_⟩
    rcases h2 t htm with h | h
    · exact ht t h ha
    · exact absurd ha h
  · rintro ⟨hp, ht⟩
    refine ⟨h3, by rw [h1, hp], fun t htm ha => ?_⟩
    rcases h2 t htm with h | h
    · exact ht t h ha
    · exact absurd ha h

theorem callStep_of_quiet {id : Int} {w w' : World} {effects : List Effect}
    (h : Quiet w w' effects) : CallStep id w w' effects :=
  callStep_of_frame (Quiet.callFrame id h)

/-- The call `k` terminates: its timer is cleared, its continuation is invoked
once and its entry is deleted. -/
theorem callStep_terminate (id k : Int) (w : World) (pc : PendingCall) (e : Effect)
    (hp : w.vs.rpc_pending k = some pc)
    (he : ∀ i, isTermination i e = decide (k = i)) :
    CallStep id w ((w.clearTimer pc.timer).setPending k none) [e] := by
  by_cases hk : k = id
  · subst hk
    constructor
    · rintro ⟨pc0, hp0, ht⟩
      right
      rw [hp] at hp0
      cases hp0
      refine ⟨by simp [terminations, he], setPending_get _ _ _, fun t htm ha => ?_⟩
      simp only [setPending_timers, mem_clearTimer] at htm
      exact htm.2 (ht t htm.1 ha).1
    · rintro ⟨hp0, _⟩
      rw [hp] at hp0
      cases hp0
  · apply callStep_of_frame
    refine ⟨?_, fun t htm => ?_, ?_⟩
    · rw [setPending_get_ne _ _ _ _ (fun h => hk h.symm), clearTimer_vs]
    · simp only [setPending_timers, mem_clearTimer] at htm
      exact Or.inl htm.1
    · simp [terminations, he, hk]

/-- The entry of the call `k` is updated without touching its timer. -/
theorem callStep_update (id k : Int) (w : World) (pc pc' : PendingCall)
    (effects : List Effect)
    (hp : w.vs.rpc_pending k = some pc) (htimer : pc'.timer = pc.timer)
    (he : noTerminations effects) :
    CallStep id w (w.setPending k (some pc')) effects := by
  by_cases hk : k = id
  · subst hk
    constructor
    · rintro ⟨pc0, hp0, ht⟩
      left
      rw [hp] at hp0
      cases hp0
      refine ⟨terminations_of_noTerminations _ _ he, pc', setPending_get _ _ _,
        fun t htm ha => ?_⟩
      rw [htimer]
      exact ht t htm ha
    · rintro ⟨hp0, _⟩
      rw [hp] at hp0
      cases hp0
  · apply callStep_of_frame
    exact ⟨setPending_get_ne _ _ _ _ (fun h => hk h.symm), fun t htm => Or.inl htm,
      terminations_of_noTerminations _ _ he⟩

/-- The timer of the call `k` is replaced by a new one-shot timer. -/
theorem callStep_rearm (id k : Int) (w : World) (pc : PendingCall) (effects : List Effect)
    (hp : w.vs.rpc_pending k = some pc) (he : noTerminations effects) :
    CallStep id w
      (((w.clearTimer pc.timer).setTimer (TimerAction.rpcTimeout (some k))
            pc.timeout false).1.setPending k
          (some { pc with timer := some (w.lastTimer + 1) })) effects := by
  have hmem : ∀ t, t ∈ (((w.clearTimer pc.timer).setTimer (TimerAction.rpcTimeout (some k))
            pc.timeout false).1.setPending k
          (some { pc with timer := some (w.lastTimer + 1) })).timers ↔
      (t ∈ w.timers ∧ pc.timer ≠ some t.id) ∨
        t = { id := w.lastTimer + 1, action := TimerAction.rpcTimeout (some k),
              delay := pc.timeout, repeating := false } := by
    intro t
    have hl : (w.clearTimer pc.timer).lastTimer = w.lastTimer := by cases pc.timer <;> rfl
    simp only [setPending_timers, World.setTimer, List.mem_append, List.mem_singleton,
      mem_clearTimer, hl]
  by_cases hk : k = id
  · subst hk
    constructor
    · rintro ⟨pc0, hp0, ht⟩
      left
      rw [hp] at hp0
      cases hp0
      refine ⟨terminations_of_noTerminations _ _ he, _, setPending_get _ _ _,
        fun t htm ha => ?_⟩
      rcases (hmem t).1 htm with ⟨h1, h2⟩ | h
      · exact absurd (ht t h1 ha).1 h2
      · subst h
        exact ⟨rfl, rfl⟩
    · rintro ⟨hp0, _⟩
      rw [hp] at hp0
      cases hp0
  · apply callStep_of_frame
    refine ⟨?_, fun t htm => ?_, terminations_of_noTerminations _ _ he⟩
    · rw [setPending_get_ne _ _ _ _ (fun h => hk h.symm), setTimer_vs, clearTimer_vs]
    rcases (hmem t).1 htm with ⟨h1, _⟩ | h
    · exact Or.inl h1
    · right
      subst h
      simp only [ne_eq, TimerAction.rpcTimeout.injEq, Option.some.injEq]
      exact hk

/-- The possible outcomes of one chunk. -/
theorem inputChunk_cases (opcode : Nat) (u8 : List Nat) (w : World) :
    (w.vs.rpc_pending (readInt32 u8 1) = none ∧
        DeviceConnection.inputChunk opcode u8 w = (w, [])) ∨
      ∃ pc, w.vs.rpc_pending (readInt32 u8 1) = some pc ∧
        (DeviceConnection.inputChunk opcode u8 w = (w, [Effect.throw "RangeError"]) ∨
          (∃ pc', pc'.timer = pc.timer ∧
            DeviceConnection.inputChunk opcode u8 w
              = (w.setPending (readInt32 u8 1) (some pc'), [Effect.throw "RangeError"])) ∨
          (∃ pc', pc'.timer = pc.timer ∧
            DeviceConnection.inputChunk opcode u8 w
              = (w.setPending (readInt32 u8 1) (some pc'), [])) ∨
          (∃ b, DeviceConnection.inputChunk opcode u8 w
              = ((w.clearTimer pc.timer).setPending (readInt32 u8 1) none,
                  [Effect.resolve (readInt32 u8 1) (Resolved.buffer b)]))) := by
  cases hp : w.vs.rpc_pending (readInt32 u8 1) with
  | none =>
    left
    refine ⟨rfl, ?_⟩
    unfold DeviceConnection.inputChunk
    simp [hp]
  | some pc =>
    right
    refine ⟨pc, rfl, ?_⟩
    unfold DeviceConnection.inputChunk
    simp only [hp]
    cases hacc : pc.accbuf with
    | none =>
      simp only
      by_cases hneg : readInt32 u8 5 < 0
      · left; simp [hneg]
      · simp only [hneg, if_false]
        by_cases hlen : (u8.drop 9).length > (List.replicate (readInt32 u8 5).toNat 0).length
        · right; left
          simp only [hlen, if_true]
          exact ⟨_, by rfl, rfl⟩
        · simp only [hlen, if_false]
          by_cases hop : opcode = 1
          · right; right; right
            simp only [hop, if_true, andThen, clearTimer_setPending, setPending_setPending]
            exact ⟨_, rfl⟩
          · right; right; left
            simp only [hop, if_false]
            exact ⟨_, by rfl, rfl⟩
    | some accbuf =>
      simp only
      by_cases hlen : pc.offset.getD 0 + (u8.drop 9).length > accbuf.length
      · left; rw [if_pos hlen]
      · rw [if_neg hlen]
        simp only
        by_cases hop : opcode = 1
        · right; right; right
          simp only [hop, if_true, andThen, clearTimer_setPending, setPending_setPending]
          exact ⟨_, rfl⟩
        · right; right; left
          simp only [hop, if_false]
          exact ⟨_, by rfl, rfl⟩

theorem inputChunk_callStep (id : Int) (opcode : Nat) (u8 : List Nat) (w : World) :
    CallStep id w (DeviceConnection.inputChunk opcode u8 w).1
      (DeviceConnection.inputChunk opcode u8 w).2 := by
  rcases inputChunk_cases opcode u8 w with ⟨_, h⟩ | ⟨pc, hp, h | ⟨pc', ht, h⟩ | ⟨pc', ht, h⟩ | ⟨b, h⟩⟩
  · rw [h]; exact callStep_of_quiet (Quiet.refl w)
  · rw [h]
    exact callStep_of_quiet ⟨rfl, fun _ ht => Or.inl ht, by simp [noTerminations, isTermination]⟩
  · rw [h]
    exact callStep_update id _ w pc pc' _ hp ht (by simp [noTerminations, isTermination])
  · rw [h]
    exact callStep_update id _ w pc pc' _ hp ht noTerminations_nil
  · rw [h]
    exact callStep_terminate id _ w pc _ hp (fun i => by simp [isTermination])

theorem input_callStep (id : Int) (c : ConnId) (d : Data) (w : World) :
    CallStep id w (DeviceConnection.input c d w).1 (DeviceConnection.input c d w).2 := by
  cases d with
  | binary u8 =>
    unfold DeviceConnection.input
    simp only
    split
    · exact callStep_of_quiet (Quiet.refl w)
    · split
      · split
        · exact callStep_of_quiet
            (quiet_modConn _ _ _ _ (by simp [noTerminations, isTermination]))
        · exact callStep_of_quiet (quiet_modConn _ _ _ _ noTerminations_nil)
      · exact inputChunk_callStep id 1 u8 w
      · exact inputChunk_callStep id 2 u8 w
      · exact callStep_of_quiet (Quiet.refl w)
  | text msg =>
    cases hl : (w.conns c).loggedin with
    | false => exact callStep_of_quiet (input_text_loggedOut_quiet c msg w hl)
    | true =>
      unfold DeviceConnection.input
      simp only [hl, Bool.not_true, Bool.false_eq_true, if_false]
      split
      · split
        · exact callStep_of_quiet
            ⟨rfl, fun _ ht => Or.inl ht, by simp [noTerminations, isTermination]⟩
        · split
          · exact callStep_of_quiet
              ⟨rfl, fun _ ht => Or.inl ht, by simp [noTerminations, isTermination]⟩
          · exact callStep_of_quiet (Quiet.refl w)
      · split
        · exact callStep_of_quiet (rpc_quiet c msg w)
        · split
          · cases hid : msg.rpcid with
            | none => exact callStep_of_quiet (Quiet.refl w)
            | some k =>
              cases hp : w.vs.rpc_pending k with
              | none => simp only [hp]; exact callStep_of_quiet (Quiet.refl w)
              | some rpc =>
                simp only [hp, andThen]
                split
                · exact callStep_of_quiet
                    ⟨by simp, fun t ht => Or.inl ((mem_clearTimer w rpc.timer t).1 ht).1,
                      by simp [noTerminations, isTermination]⟩
                · split
                  · simpa using callStep_terminate id k w rpc _ hp
                      (fun i => by simp [isTermination])
                  · simpa using callStep_terminate id k w rpc _ hp
                      (fun i => by simp [isTermination])
          · split
            · cases hid : msg.rpcid with
              | none => exact callStep_of_quiet (Quiet.refl w)
              | some k =>
                cases hp : w.vs.rpc_pending k with
                | none => simp only [hp]; exact callStep_of_quiet (Quiet.refl w)
                | some rpc =>
                  simp only [hp]
                  have hlast : ((w.clearTimer rpc.timer).setTimer
                      (TimerAction.rpcTimeout (some k)) rpc.timeout false).2
                      = w.lastTimer + 1 := by
                    cases rpc.timer <;> rfl
                  rw [hlast]
                  split
                  · exact callStep_rearm id k w rpc _ hp
                      (by simp [noTerminations, isTermination])
                  · exact callStep_rearm id k w rpc _ hp noTerminations_nil
            · split
              · exact callStep_of_quiet ⟨rfl, fun _ ht => Or.inl ht, noTerminations_nil⟩
              · exact callStep_of_quiet (Quiet.refl w)

theorem fireTimer_callStep (id : Int) (t : TimerId) (w : World) :
    CallStep id w (fireTimer t w).1 (fireTimer t w).2 := by
  unfold fireTimer
  cases hf : w.timers.find? (fun x => x.id == t) with
  | none => exact callStep_of_quiet (Quiet.refl w)
  | some tm =>
    have hmem : tm ∈ w.timers := List.mem_of_find?_eq_some hf
    have hid : tm.id = t := by
      have := List.find?_some hf
      simpa using this
    have hq1 : Quiet w (if tm.repeating then w else w.clearTimer (some t)) [] := by
      split
      · exact Quiet.refl w
      · exact quiet_clearTimer w (some t)
    simp only
    cases hact : tm.action with
    | start c =>
      simp only [runTimerAction]
      exact callStep_of_quiet (Quiet.trans hq1 (start_quiet c _))
    | countdown c =>
      simp only [runTimerAction]
      exact callStep_of_quiet (Quiet.trans hq1
        (quiet_modConn _ _ _ _ (by simp [noTerminations, isTermination])))
    | rpcTimeout r =>
      cases r with
      | none =>
        simp only [runTimerAction]
        exact callStep_of_quiet hq1
      | some k =>
        simp only [runTimerAction]
        by_cases hk : k = id
        · subst hk
          constructor
          · rintro ⟨pc, hp, ht⟩
            obtain ⟨h1, h2⟩ := ht tm hmem hact
            have hstep := callStep_terminate k k w pc (Effect.reject k Rejection.timeout) hp
              (fun i => by simp [isTermination])
            rw [h2]
            simp only [Bool.false_eq_true, if_false]
            rw [h1, hid] at hstep
            exact hstep.1 ⟨pc, hp, ht⟩
          · rintro ⟨_, ht⟩
            exact absurd hact (ht tm hmem)
        · apply callStep_of_frame
          refine ⟨?_, fun x hx => ?_, ?_⟩
          · rw [setPending_get_ne _ _ _ _ (fun h => hk h.symm), hq1.1]
          · rw [setPending_timers] at hx
            rcases hq1.2.1 x hx with h | h
            · exact Or.inl h
            · exact Or.inr (h _)
          · simp [terminations, isTermination, hk]

theorem step_callStep (id : Int) (e : Event) (w : World) :
    CallStep id w (step e w).1 (step e w).2 := by
  cases e with
  | input c d => exact input_callStep id c d w
  | fire t => exact fireTimer_callStep id t w

theorem run_callDone (id : Int) (events : List Event) :
    ∀ w : World, CallDone id w →
      terminations id (run events w).2 = 0 ∧ CallDone id (run events w).1 := by
  induction events with
  | nil => intro w h; exact ⟨rfl, h⟩
  | cons e es ih =>
    intro w h
    obtain ⟨h1, h2⟩ := (step_callStep id e w).2 h
    obtain ⟨h3, h4⟩ := ih _ h2
    simp only [run, andThen]
    exact ⟨by rw [terminations_append, h1, h3], h4⟩

theorem run_callPending (id : Int) (events : List Event) :
    ∀ w : World, CallPending id w →
      (terminations id (run events w).2 = 0 ∧ CallPending id (run events w).1) ∨
        (terminations id (run events w).2 = 1 ∧ CallDone id (run events w).1) := by
  induction events with
  | nil => intro w h; exact Or.inl ⟨rfl, h⟩
  | cons e es ih =>
    intro w h
    simp only [run, andThen]
    rcases (step_callStep id e w).1 h with ⟨h1, h2⟩ | ⟨h1, h2⟩
    · rcases ih _ h2 with ⟨h3, h4⟩ | ⟨h3, h4⟩
      · exact Or.inl ⟨by rw [terminations_append, h1, h3], h4⟩
      · exact Or.inr ⟨by rw [terminations_append, h1, h3], h4⟩
    · obtain ⟨h3, h4⟩ := run_callDone id es _ h2
      exact Or.inr ⟨by rw [terminations_append, h1, h3], h4⟩

/-- C13 (single termination).  Take a pending call whose armed timers are
one-shot and are the one recorded in its entry.  For every sequence of turns of
the event loop, each of them a message given to `input` on some transport
(binary chunk, `rpcreply`, `rpcprogress` or any other) or the expiry of a timer,
the continuation of the call (`resolve` or `reject`) is invoked at most once; and
once it has been invoked, the call id is absent from `rpc_pending` and no timer
of the call is armed. -/
theorem call_terminates_at_most_once (id : Int) (pc : PendingCall) (w : World)
    (events : List Event)
    (hp : w.vs.rpc_pending id = some pc)
    (ht : ∀ t ∈ w.timers, t.action = TimerAction.rpcTimeout (some id) →
      pc.timer = some t.id ∧ t.repeating = false) :
    terminations id (run events w).2 ≤ 1 ∧
      (1 ≤ terminations id (run events w).2 →
        (run events w).1.vs.rpc_pending id = none ∧ ¬ callTimerArmed id (run events w).1) := by
  rcases run_callPending id events w ⟨pc, hp, ht⟩ with ⟨h1, _⟩ | ⟨h1, h2, h3⟩
  · exact ⟨by omega, fun h => by omega⟩
  · refine ⟨by omega, fun _ => ⟨h2, ?_⟩⟩
    rintro ⟨t, htm, ha⟩
    exact h3 t htm ha

/-- The call 7 is resolved by its reply and by nothing else in `callHistory`. -/
theorem call_terminates_at_most_once_witness :
    (terminations 7 (run callHistory worldCallPending).2 ≤ 1 ∧
      (1 ≤ terminations 7 (run callHistory worldCallPending).2 →
        (run callHistory worldCallPending).1.vs.rpc_pending 7 = none ∧
          ¬ callTimerArmed 7 (run callHistory worldCallPending).1)) ∧
    (run callHistory worldCallPending).2
      = [Effect.progress 7 (Val.str "copying") (Val.num 40),
         Effect.resolve 7 (Resolved.value (Val.str "pong"))] :=
  ⟨call_terminates_at_most_once 7 { timer := some 1, timeout := 60000, hasProgress := true }
    worldCallPending callHistory rfl (by decide), rfl⟩

/-! ## Codec stripping -/

/-- C17 (codec stripping of the `m=video` line) at the failing input: an offer
with VP8 (96), its retransmission (97) and H264 (98), stripped of `H264`.  The
`a=rtpmap:98 H264/90000` line is removed and the id 97 of the `rtx` line is taken
out of the `m=video` line, but the id 98 of the blacklisted codec stays in it:
the `map` over the `m=video` line runs before the second `reduce`, which is
where the ids of the blacklisted codecs are collected. -/
theorem stripCodecs_keeps_blacklisted_id :
    (matchCodecName "a=rtpmap:98 H264/90000".toList = some "H264".toList ∧
      matchCodecId "a=rtpmap:98 H264/90000".toList = some "98".toList) ∧
    stripCodecs sampleSdp ["H264"]
      = some "m=video 9 UDP/TLS/RTP/SAVPF 96 98\na=rtpmap:96 VP8/90000" ∧
    startsWith "m=video 9 UDP/TLS/RTP/SAVPF 96 98".toList "m=video" = true ∧
    "98".toList ∈ jsSplit (Char.ofNat 32) "m=video 9 UDP/TLS/RTP/SAVPF 96 98".toList ∧
    "97".toList ∉ jsSplit (Char.ofNat 32) "m=video 9 UDP/TLS/RTP/SAVPF 96 98".toList := by
  refine ⟨⟨by decide, by decide⟩, by decide, by decide, by decide, by decide⟩

end Viewshare
